import Mathlib

/-!
# cluster-network-operator: reconcile loops

A shallow embedding of

* `pkg/controller/operconfig/operconfig_controller.go`
  (`ReconcileOperConfig.Reconcile`, `finalizerController.sync`), and
* `pkg/controller/allowlist/allowlist_controller.go`
  (`ReconcileAllowlist.Reconcile`, `checkDsPodsReady` and its helpers).

Conventions of the embedding.

* The object store, the renderer, the status manager and the other packages
  the controllers call are collaborators.  Each one is a field of a record of
  functions; a call that talks to the cluster takes the current world `σ` and
  returns the next one, so a collaborator may answer differently every time
  it is asked.
* Every call to a collaborator is appended to a trace, in program order,
  together with what it returned.  Calls to the status manager only appear in
  the trace.
* A Go `error` is a record with its `Error()` text and the verdict of
  `apierrors.IsNotFound`; `nil` is `none`.
* A Go slice or map that may be `nil` is an `Option`: `none` is `nil`,
  `some []` is the empty, non-nil value.
* `time.Time` and `time.Duration` are integers counting nanoseconds.
-/

set_option autoImplicit false

deriving instance DecidableEq for Except

/-! ## Errors -/

/-- A Go error value: the text of `Error()` and what `apierrors.IsNotFound`
answers for it. -/
structure GoError where
  message : String
  notFound : Bool
  deriving DecidableEq, Repr

namespace GoError

/-- The text `err.Error()`; also what `%v` prints for an error. -/
def Error (e : GoError) : String := e.message

end GoError

/-- The predicate `apierrors.IsNotFound(err)` for a non-nil error. -/
def IsNotFound (err : GoError) : Bool := err.notFound

/-- The call `errors.Wrapf(err, format, args...)` of `github.com/pkg/errors`
for a non-nil `err`: the formatted text, a colon, and the text of the cause. -/
def Wrapf (err : GoError) (msg : String) : GoError :=
  ⟨msg ++ ": " ++ err.Error, err.notFound⟩

/-- The calls `errors.New(msg)` and `fmt.Errorf(msg)`. -/
def errorsNew (msg : String) : GoError := ⟨msg, false⟩

/-! ## Time -/

/-- The constant `time.Second`, in nanoseconds. -/
def Second : Int := 1000000000

/-- The constant `time.Minute`, in nanoseconds. -/
def Minute : Int := 60 * Second

/-! ## Kubernetes objects -/

/-- The type `types.NamespacedName`. -/
structure NamespacedName where
  Namespace : String
  Name : String
  deriving DecidableEq, Repr

/-- The method `NamespacedName.String()`. -/
def NamespacedName.String (n : NamespacedName) : String :=
  n.Namespace ++ "/" ++ n.Name

/-- The type `metav1.OwnerReference`, with the fields the controllers read. -/
structure OwnerReference where
  APIVersion : String
  Kind : String
  Name : String
  UID : String
  Controller : Bool
  deriving DecidableEq, Repr

/-- The type `corev1.ContainerStatus`, with the fields the controllers read. -/
structure ContainerStatus where
  Name : String
  Ready : Bool
  deriving DecidableEq, Repr

/-- The type `corev1.Pod`, with the fields the controllers read. -/
structure Pod where
  Name : String
  OwnerReferences : List OwnerReference
  ContainerStatuses : List ContainerStatus
  deriving DecidableEq, Repr

/-- The type `appsv1.DaemonSet`, with the fields the controllers read. -/
structure DaemonSet where
  Name : String
  UID : String
  deriving DecidableEq, Repr

/-- The type `corev1.Namespace`: its name, `Spec.Finalizers` (a slice that may
be nil) and `DeletionTimestamp` (a pointer that may be nil). -/
structure Namespace where
  Name : String
  Finalizers : Option (List String)
  DeletionTimestamp : Option Int
  deriving DecidableEq, Repr

/-- The constant `corev1.FinalizerKubernetes`. -/
def FinalizerKubernetes : String := "kubernetes"

/-- The elements a `range` over a slice visits: none for a nil slice. -/
def rangeOf {α : Type} (s : Option (List α)) : List α := s.getD []

/-- The function `reflect.DeepEqual` on two slices of strings: both nil, or both
non-nil with equal elements.  A nil slice and an empty non-nil slice are not
deeply equal. -/
def DeepEqual (a b : Option (List String)) : Bool := decide (a = b)

/-- A Go `map[string]string` that may be nil has the key `k`
(`_, ok := m[k]`; a nil map has no key). -/
def mapHasKey (m : Option (List (String × String))) (k : String) : Bool :=
  (rangeOf m).any (fun kv => kv.1 == k)

/-- The type `schema.GroupKind`. -/
structure GroupKind where
  Group : String
  Kind : String
  deriving DecidableEq, Repr

/-- The type `schema.GroupVersionKind`. -/
structure GroupVersionKind where
  Group : String
  Version : String
  Kind : String
  deriving DecidableEq, Repr

/-- The method `GroupVersionKind.String()`, which `%s` prints. -/
def GroupVersionKind.String (gvk : GroupVersionKind) : String :=
  gvk.Group ++ "/" ++ gvk.Version ++ ", Kind=" ++ gvk.Kind

/-- The method `GroupVersionKind.GroupKind()`. -/
def GroupVersionKind.GroupKind (gvk : GroupVersionKind) : GroupKind :=
  ⟨gvk.Group, gvk.Kind⟩

/-- The function `schema.ParseGroupVersion` of k8s.io/apimachinery: the empty
string and "/" give the empty group and version, a string without a slash is a
version, a string with one slash is group/version, anything else is an error
(`none`). -/
def ParseGroupVersion (gv : String) : Option (String × String) :=
  if gv.length = 0 ∨ gv = "/" then some ("", "")
  else
    match (gv.toList.filter (fun ch => ch = '/')).length with
    | 0 => some ("", gv)
    | 1 => some (String.mk (gv.toList.takeWhile (fun ch => ch ≠ '/')),
        String.mk ((gv.toList.dropWhile (fun ch => ch ≠ '/')).drop 1))
    | _ => none

/-- The type `unstructured.Unstructured`, through the getters the controllers
use: `GetAPIVersion`, `GetKind`, `GetNamespace`, `GetName`, `GetAnnotations`
(nil when unset) and the owner references. -/
structure Unstructured where
  APIVersion : String
  Kind : String
  Namespace : String
  Name : String
  Annotations : Option (List (String × String))
  OwnerReferences : List OwnerReference
  deriving DecidableEq, Repr

/-- The method `Unstructured.GroupVersionKind()` of k8s.io/apimachinery: the
parsed apiVersion with the kind, the zero value when the apiVersion does not
parse. -/
def Unstructured.GroupVersionKind (u : Unstructured) : GroupVersionKind :=
  match ParseGroupVersion u.APIVersion with
  | none => ⟨"", "", ""⟩
  | some gv => ⟨gv.1, gv.2, u.Kind⟩

/-- The object after `SetOwnerReferences(refs)`. -/
def Unstructured.withOwnerReferences (u : Unstructured) (refs : List OwnerReference) :
    Unstructured :=
  ⟨u.APIVersion, u.Kind, u.Namespace, u.Name, u.Annotations, refs⟩

/-- The text "(gvk) namespace/name" both wrapped errors of the apply loop carry
(`"(%s) %s/%s"` with `obj.GroupVersionKind()`, `obj.GetNamespace()`,
`obj.GetName()`). -/
def Unstructured.describe (u : Unstructured) : String :=
  "(" ++ u.GroupVersionKind.String ++ ") " ++ u.Namespace ++ "/" ++ u.Name

/-- The type `configv1.ObjectReference`. -/
structure ObjectReference where
  Group : String
  Resource : String
  Namespace : String
  Name : String
  deriving DecidableEq, Repr

/-- The type `reconcile.Result`. -/
structure Result where
  Requeue : Bool
  RequeueAfter : Int
  deriving DecidableEq, Repr

/-- The zero value `reconcile.Result{}`. -/
def Result.empty : Result := ⟨false, 0⟩

/-- The type `reconcile.Request`. -/
structure Request where
  NamespacedName : NamespacedName
  deriving DecidableEq, Repr

namespace names

/-- Modelled from the spec: the constant `names.OPERATOR_CONFIG` of pkg/names,
which is not among the sources: the name of "the singleton configuration
object". -/
def OPERATOR_CONFIG : String := "cluster"

/-- Modelled from the spec: the constant `names.APPLIED_NAMESPACE` of pkg/names,
which is not among the sources: the namespace holding the applied-configuration
record. -/
def APPLIED_NAMESPACE : String := "openshift-network-operator"

/-- Modelled from the spec: the constant `names.NetworkMigrationAnnotation` of
pkg/names, which is not among the sources: the "migration mode" marker. -/
def NetworkMigrationAnnotation : String := "networkoperator.openshift.io/network-migration"

/-- Modelled from the spec: the constant `names.IgnoreObjectErrorAnnotation` of
pkg/names, which is not among the sources: the "ignore-errors" marker. -/
def IgnoreObjectErrorAnnotation : String := "networkoperator.openshift.io/ignore-errors"

/-- Modelled from the spec: the constant `names.MULTUS_NAMESPACE` of pkg/names,
which is not among the sources: the namespace of the allowlist daemonset. -/
def MULTUS_NAMESPACE : String := "openshift-multus"

/-- Modelled from the spec: the constant `names.ALLOWLIST_CONFIG_NAME` of
pkg/names, which is not among the sources: the name of the allowlist
configmap. -/
def ALLOWLIST_CONFIG_NAME : String := "cni-sysctl-allowlist"

end names

namespace operconfig

/-! ## The namespace finalizer controller (`finalizerController.sync`) -/

/-- One call made by `sync`, with what it returned. -/
inductive SyncEvent where
  | Get (name : String) (res : Except GoError Namespace)
  | Update (ns : Namespace) (res : Except GoError Namespace)
  | Now (t : Int)
  | AddAfter (key : String) (delay : Int)
  | ListPods (ns : String) (res : Except GoError (List Pod))
  | ListDaemonSets (ns : String) (res : Except GoError (List DaemonSet))
  deriving DecidableEq

/-- What `sync` talks to: the client (`Get`, `Update`, `List`) and the clock.
`Update` hands back the object as the server returned it. -/
structure NamespaceClient (σ : Type) where
  Get : σ → String → Except GoError Namespace × σ
  Update : σ → Namespace → Except GoError Namespace × σ
  Now : σ → Int × σ
  ListPods : σ → String → Except GoError (List Pod) × σ
  ListDaemonSets : σ → String → Except GoError (List DaemonSet) × σ

/-- The result of one `sync`: the returned error, the calls made, the world
left behind. -/
structure SyncOutcome (σ : Type) where
  err : Option GoError
  trace : List SyncEvent
  world : σ

/-- The loop of lines 405-411: `newFinalizers` starts as `acc` and gets every
entry other than `FinalizerKubernetes` appended, in order. -/
def newFinalizersLoop : List String → List String → List String
  | [], acc => acc
  | curr :: rest, acc =>
    if curr = FinalizerKubernetes then newFinalizersLoop rest acc
    else newFinalizersLoop rest (acc ++ [curr])

/-- The method `finalizerController.sync` (lines 377-478). -/
def sync {σ : Type} (c : NamespaceClient σ) (namespaceName : String) (w : σ) :
    SyncOutcome σ :=
  match c.Get w namespaceName with
  | (.error err, w1) =>
    if IsNotFound err then
      ⟨none, [.Get namespaceName (.error err)], w1⟩
    else
      ⟨some (Wrapf err ("could not query for namespace " ++ namespaceName)),
        [.Get namespaceName (.error err)], w1⟩
  | (.ok ns, w1) =>
    let newFinalizers := newFinalizersLoop (rangeOf ns.Finalizers) []
    if DeepEqual (some newFinalizers) ns.Finalizers then
      ⟨none, [.Get namespaceName (.ok ns)], w1⟩
    else
      let ns1 : Namespace := ⟨ns.Name, some newFinalizers, ns.DeletionTimestamp⟩
      match c.Update w1 ns1 with
      | (.error err, w2) =>
        ⟨some (Wrapf err ("could not update namespace finalizers for " ++ namespaceName)),
          [.Get namespaceName (.ok ns), .Update ns1 (.error err)], w2⟩
      | (.ok ns2, w2) =>
        match ns2.DeletionTimestamp with
        | none =>
          ⟨none, [.Get namespaceName (.ok ns), .Update ns1 (.ok ns2)], w2⟩
        | some t =>
          match c.Now w2 with
          | (now, w3) =>
            let deletedMoreThanAMinute := decide (t + 1 * Minute < now)
            if !deletedMoreThanAMinute then
              ⟨none, [.Get namespaceName (.ok ns), .Update ns1 (.ok ns2), .Now now,
                .AddAfter namespaceName (1 * Minute)], w3⟩
            else
              match c.ListPods w3 namespaceName with
              | (.error err, w4) =>
                ⟨some (Wrapf err ("could not query for pods " ++ namespaceName)),
                  [.Get namespaceName (.ok ns), .Update ns1 (.ok ns2), .Now now,
                    .ListPods namespaceName (.error err)], w4⟩
              | (.ok pods, w4) =>
                if pods.length > 0 then
                  ⟨none, [.Get namespaceName (.ok ns), .Update ns1 (.ok ns2), .Now now,
                    .ListPods namespaceName (.ok pods)], w4⟩
                else
                  match c.ListDaemonSets w4 namespaceName with
                  | (.error err, w5) =>
                    ⟨some (Wrapf err ("could not query for daemonsets " ++ namespaceName)),
                      [.Get namespaceName (.ok ns), .Update ns1 (.ok ns2), .Now now,
                        .ListPods namespaceName (.ok pods),
                        .ListDaemonSets namespaceName (.error err)], w5⟩
                  | (.ok dslist, w5) =>
                    ⟨none, [.Get namespaceName (.ok ns), .Update ns1 (.ok ns2), .Now now,
                      .ListPods namespaceName (.ok pods),
                      .ListDaemonSets namespaceName (.ok dslist)], w5⟩

/-! ## The operator configuration controller (`ReconcileOperConfig.Reconcile`) -/

/-- The variable `ResyncPeriod` (line 41): five minutes. -/
def ResyncPeriod : Int := 5 * Minute

/-- The variable `ManifestPath` (line 45). -/
def ManifestPath : String := "./bindata"

/-- The type `operv1.Network`: its name, its annotations and its spec.  The
spec type is left open: the controller only hands it to the network package. -/
structure Network (Spec : Type) where
  Name : String
  Annotations : Option (List (String × String))
  Spec : Spec
  deriving DecidableEq

/-- The status levels of the status manager; the controller uses
`statusmanager.OperatorConfig`. -/
inductive StatusLevel where
  | OperatorConfig
  deriving DecidableEq, Repr

/-- One call made by `Reconcile`, with what it returned.  `ApplyObject` is the
call of `apply.ApplyObject` in the apply loop (line 301), `ApplyObjectStatus`
the call of `apply.ApplyObject` on the status object (line 335).  Lookups in
the REST mapper are not recorded. -/
inductive Event (Spec : Type) where
  | Get (key : NamespacedName) (res : Except GoError (Network Spec))
  | MergeClusterConfig (operConfig : Network Spec) (res : Except GoError (Network Spec))
  | Canonicalize (spec : Spec)
  | Validate (spec : Spec) (err : Option GoError)
  | GetAppliedConfiguration (name : String) (res : Except GoError (Option Spec))
  | FillDefaults (conf : Spec) (previous : Option Spec)
  | IsChangeSafe (prev next : Spec) (err : Option GoError)
  | Bootstrap (spec : Spec) (err : Option GoError)
  | Render (spec : Spec) (res : Except GoError (List Unstructured))
  | AppliedConfiguration (operConfig : Network Spec) (res : Except GoError Unstructured)
  | RunNamespaceController (returned : Bool)
  | SetDaemonSets (daemonSets : List NamespacedName)
  | SetDeployments (deployments : List NamespacedName)
  | SetRelatedObjects (relatedObjects : List ObjectReference)
  | SetResources (allResources : List NamespacedName)
  | SetControllerReference (owner : Network Spec) (obj : Unstructured)
      (res : Except GoError (List OwnerReference))
  | ApplyObject (obj : Unstructured) (err : Option GoError)
  | SetFromPods
  | ClusterNetworkStatus (res : Except GoError (Option Unstructured))
  | ApplyObjectStatus (status : Unstructured) (err : Option GoError)
  | SetDegraded (level : StatusLevel) (reason message : String)
  | SetNotDegraded (level : StatusLevel)
  deriving DecidableEq

/-- What `Reconcile` calls outside this file.

* `Get`, `MergeClusterConfig`, `GetAppliedConfiguration`, `Bootstrap`,
  `ApplyObject` and `ClusterNetworkStatus` use the client: they take the world
  and return the next one.  `Get` and `MergeClusterConfig` fill or rewrite the
  `operConfig` they are given, so they return it.
* `Canonicalize` and `FillDefaults` rewrite the spec they are given in place,
  so they return it; `Validate`, `IsChangeSafe`, `Render`,
  `AppliedConfiguration` and the REST mapper only compute.
* `SetControllerReference` (controller-runtime) either fails or rewrites the
  owner references of the object, so it returns the new owner references.
* `RunNamespaceController` is `r.namespaceController.Run(context.TODO(), 1)`
  of the library-go controller factory, which waits for its context to end:
  `none` is a call that does not return. -/
structure Collaborators (σ Spec Boot : Type) where
  Get : σ → NamespacedName → Except GoError (Network Spec) × σ
  MergeClusterConfig : σ → Network Spec → Except GoError (Network Spec) × σ
  Canonicalize : Spec → Spec
  Validate : Spec → Option GoError
  GetAppliedConfiguration : σ → String → Except GoError (Option Spec) × σ
  FillDefaults : Spec → Option Spec → Spec
  IsChangeSafe : Spec → Spec → Option GoError
  Bootstrap : σ → Spec → Except GoError Boot × σ
  Render : Spec → Boot → String → Except GoError (List Unstructured)
  AppliedConfiguration : Network Spec → Except GoError Unstructured
  RESTMapping : GroupKind → Except GoError String
  RunNamespaceController : σ → Option σ
  SetControllerReference : Network Spec → Unstructured → Except GoError (List OwnerReference)
  ApplyObject : σ → Unstructured → Option GoError × σ
  ClusterNetworkStatus : σ → Network Spec → Except GoError (Option Unstructured) × σ

/-- The result of one `Reconcile`: what it returned (`none` when it never
returned), the calls made, the world left behind. -/
structure Outcome (σ Spec : Type) where
  ret : Option (Result × Option GoError)
  trace : List (Event Spec)
  world : σ

/-- The same outcome, reached after the calls `t`. -/
def Outcome.after {σ Spec : Type} (t : List (Event Spec)) (o : Outcome σ Spec) :
    Outcome σ Spec :=
  ⟨o.ret, t ++ o.trace, o.world⟩

/-- The three lists built by the classification loop (lines 224-226). -/
structure Classified where
  daemonSets : List NamespacedName
  deployments : List NamespacedName
  relatedObjects : List ObjectReference
  deriving DecidableEq, Repr

/-- The loop of lines 227-244 over `objs`, from the lists built so far. -/
def classifyLoop {σ Spec Boot : Type} (c : Collaborators σ Spec Boot) :
    List Unstructured → Classified → Classified
  | [], acc => acc
  | obj :: rest, acc =>
    let acc1 : Classified :=
      if obj.APIVersion = "apps/v1" ∧ obj.Kind = "DaemonSet" then
        ⟨acc.daemonSets ++ [⟨obj.Namespace, obj.Name⟩], acc.deployments, acc.relatedObjects⟩
      else if obj.APIVersion = "apps/v1" ∧ obj.Kind = "Deployment" then
        ⟨acc.daemonSets, acc.deployments ++ [⟨obj.Namespace, obj.Name⟩], acc.relatedObjects⟩
      else acc
    match c.RESTMapping obj.GroupVersionKind.GroupKind with
    | .error _ => classifyLoop c rest acc1
    | .ok resource =>
      classifyLoop c rest
        ⟨acc1.daemonSets, acc1.deployments,
          acc1.relatedObjects ++
            [⟨obj.GroupVersionKind.Group, resource, obj.Namespace, obj.Name⟩]⟩

/-- The annotation test of lines 306-312: the annotations are not nil and have
the ignore-errors key. -/
def hasIgnoreObjectError (obj : Unstructured) : Bool :=
  match obj.Annotations with
  | none => false
  | some anno => anno.any (fun kv => kv.1 == names.IgnoreObjectErrorAnnotation)

/-- The result of the apply loop: the error it returned with (`none` when it
ran to the end), the calls made, the world left behind. -/
structure LoopOutcome (σ Spec : Type) where
  err : Option GoError
  trace : List (Event Spec)
  world : σ

/-- The same loop result, reached after the calls `t`. -/
def LoopOutcome.after {σ Spec : Type} (t : List (Event Spec)) (o : LoopOutcome σ Spec) :
    LoopOutcome σ Spec :=
  ⟨o.err, t ++ o.trace, o.world⟩

/-- The loop of lines 290-317 over `objs`. -/
def applyLoop {σ Spec Boot : Type} (c : Collaborators σ Spec Boot) (operConfig : Network Spec) :
    List Unstructured → σ → LoopOutcome σ Spec
  | [], w => ⟨none, [], w⟩
  | obj :: rest, w =>
    match c.SetControllerReference operConfig obj with
    | .error err0 =>
      let err := Wrapf err0 ("could not set reference for " ++ obj.describe)
      ⟨some err,
        [.SetControllerReference operConfig obj (.error err0),
          .SetDegraded .OperatorConfig "InternalError"
            ("Internal error while updating operator configuration: " ++ err.Error)], w⟩
    | .ok refs =>
      let obj1 := obj.withOwnerReferences refs
      match c.ApplyObject w obj1 with
      | (some err0, w1) =>
        let err := Wrapf err0 ("could not apply " ++ obj1.describe)
        if hasIgnoreObjectError obj1 then
          (applyLoop c operConfig rest w1).after
            [.SetControllerReference operConfig obj (.ok refs), .ApplyObject obj1 (some err0)]
        else
          ⟨some err,
            [.SetControllerReference operConfig obj (.ok refs), .ApplyObject obj1 (some err0),
              .SetDegraded .OperatorConfig "ApplyOperatorConfig"
                ("Error while updating operator configuration: " ++ err.Error)], w1⟩
      | (none, w1) =>
        (applyLoop c operConfig rest w1).after
          [.SetControllerReference operConfig obj (.ok refs), .ApplyObject obj1 none]

/-- Lines 319-348 of `Reconcile`: what follows the apply loop when it ran to
the end. -/
def reconcileStatus {σ Spec Boot : Type} (c : Collaborators σ Spec Boot)
    (operConfig : Network Spec) (w : σ) : Outcome σ Spec :=
  match c.ClusterNetworkStatus w operConfig with
  | (.error err, w1) =>
    ⟨some (Result.empty, some err),
      [.SetFromPods, .ClusterNetworkStatus (.error err),
        .SetDegraded .OperatorConfig "StatusError"
          ("Could not update cluster configuration status: " ++ err.Error)], w1⟩
  | (.ok none, w1) =>
    ⟨some (⟨false, ResyncPeriod⟩, none),
      [.SetFromPods, .ClusterNetworkStatus (.ok none), .SetNotDegraded .OperatorConfig], w1⟩
  | (.ok (some status), w1) =>
    match c.ApplyObject w1 status with
    | (some err0, w2) =>
      let err := Wrapf err0 ("could not apply " ++ status.describe)
      ⟨some (Result.empty, some err),
        [.SetFromPods, .ClusterNetworkStatus (.ok (some status)),
          .ApplyObjectStatus status (some err0),
          .SetDegraded .OperatorConfig "StatusError"
            ("Could not update cluster configuration status: " ++ err.Error)], w2⟩
    | (none, w2) =>
      ⟨some (⟨false, ResyncPeriod⟩, none),
        [.SetFromPods, .ClusterNetworkStatus (.ok (some status)),
          .ApplyObjectStatus status none, .SetNotDegraded .OperatorConfig], w2⟩

/-- Lines 223-348 of `Reconcile`: classification of `objs`, the namespace
finalizer controller, the apply loop and the status object. -/
def reconcileObjects {σ Spec Boot : Type} (c : Collaborators σ Spec Boot)
    (operConfig : Network Spec) (objs : List Unstructured) (w : σ) : Outcome σ Spec :=
  let cl := classifyLoop c objs ⟨[], [], []⟩
  match c.RunNamespaceController w with
  | none => ⟨none, [.RunNamespaceController false], w⟩
  | some w1 =>
    let relatedObjects := cl.relatedObjects ++ [⟨"", "namespaces", "", names.APPLIED_NAMESPACE⟩]
    let allResources := ([] ++ cl.daemonSets) ++ cl.deployments
    let t : List (Event Spec) :=
      [.RunNamespaceController true, .SetDaemonSets cl.daemonSets,
        .SetDeployments cl.deployments, .SetRelatedObjects relatedObjects,
        .SetResources allResources]
    let loop := applyLoop c operConfig objs w1
    match loop.err with
    | some err => ⟨some (Result.empty, some err), t ++ loop.trace, loop.world⟩
    | none => (reconcileStatus c operConfig loop.world).after (t ++ loop.trace)

/-- Lines 195-348 of `Reconcile`: bootstrap, render, the record of the applied
configuration, then the objects. -/
def reconcileRender {σ Spec Boot : Type} (c : Collaborators σ Spec Boot)
    (operConfig : Network Spec) (w : σ) : Outcome σ Spec :=
  match c.Bootstrap w operConfig.Spec with
  | (.error err, w1) =>
    ⟨some (Result.empty, some err),
      [.Bootstrap operConfig.Spec (some err),
        .SetDegraded .OperatorConfig "BootstrapError"
          ("Internal error while reconciling platform networking resources: " ++ err.Error)],
      w1⟩
  | (.ok bootstrapResult, w1) =>
    match c.Render operConfig.Spec bootstrapResult ManifestPath with
    | .error err =>
      ⟨some (Result.empty, some err),
        [.Bootstrap operConfig.Spec none, .Render operConfig.Spec (.error err),
          .SetDegraded .OperatorConfig "RenderError"
            ("Internal error while rendering operator configuration: " ++ err.Error)], w1⟩
    | .ok objs0 =>
      match c.AppliedConfiguration operConfig with
      | .error err =>
        ⟨some (Result.empty, some err),
          [.Bootstrap operConfig.Spec none, .Render operConfig.Spec (.ok objs0),
            .AppliedConfiguration operConfig (.error err),
            .SetDegraded .OperatorConfig "RenderError"
              ("Internal error while recording new operator configuration: " ++ err.Error)],
          w1⟩
      | .ok app =>
        let objs := [app] ++ objs0
        (reconcileObjects c operConfig objs w1).after
          [.Bootstrap operConfig.Spec none, .Render operConfig.Spec (.ok objs0),
            .AppliedConfiguration operConfig (.ok app)]

/-- The method `ReconcileOperConfig.Reconcile` (lines 115-349). -/
def Reconcile {σ Spec Boot : Type} (c : Collaborators σ Spec Boot) (request : Request)
    (w : σ) : Outcome σ Spec :=
  if request.NamespacedName.Name ≠ names.OPERATOR_CONFIG then
    ⟨some (Result.empty, none), [], w⟩
  else
    match c.Get w request.NamespacedName with
    | (.error err, w1) =>
      if IsNotFound err then
        ⟨some (Result.empty, none),
          [.Get request.NamespacedName (.error err),
            .SetDegraded .OperatorConfig "NoOperatorConfig"
              ("Operator configuration " ++ request.NamespacedName.String ++ " was deleted")],
          w1⟩
      else
        ⟨some (Result.empty, some err), [.Get request.NamespacedName (.error err)], w1⟩
    | (.ok operConfig0, w1) =>
      match c.MergeClusterConfig w1 operConfig0 with
      | (.error err, w2) =>
        ⟨some (Result.empty, some err),
          [.Get request.NamespacedName (.ok operConfig0),
            .MergeClusterConfig operConfig0 (.error err),
            .SetDegraded .OperatorConfig "MergeClusterConfig"
              ("Internal error while merging cluster configuration and operator configuration: "
                ++ err.Error)], w2⟩
      | (.ok operConfig1, w2) =>
        let spec1 := c.Canonicalize operConfig1.Spec
        let t1 : List (Event Spec) :=
          [.Get request.NamespacedName (.ok operConfig0),
            .MergeClusterConfig operConfig0 (.ok operConfig1),
            .Canonicalize operConfig1.Spec]
        match c.Validate spec1 with
        | some err =>
          ⟨some (Result.empty, some err),
            t1 ++ [.Validate spec1 (some err),
              .SetDegraded .OperatorConfig "InvalidOperatorConfig"
                ("The operator configuration is invalid (" ++ err.Error ++
                  "). Use \x27oc edit network.operator.openshift.io cluster\x27 to fix.")], w2⟩
        | none =>
          match c.GetAppliedConfiguration w2 operConfig1.Name with
          | (.error err, w3) =>
            ⟨some (Result.empty, some err),
              t1 ++ [.Validate spec1 none,
                .GetAppliedConfiguration operConfig1.Name (.error err)], w3⟩
          | (.ok none, w3) =>
            let spec2 := c.FillDefaults spec1 none
            let operConfig : Network Spec := ⟨operConfig1.Name, operConfig1.Annotations, spec2⟩
            (reconcileRender c operConfig w3).after
              (t1 ++ [.Validate spec1 none,
                .GetAppliedConfiguration operConfig1.Name (.ok none),
                .FillDefaults spec1 none])
          | (.ok (some prev0), w3) =>
            let prev := c.FillDefaults prev0 (some prev0)
            let spec2 := c.FillDefaults spec1 (some prev)
            let operConfig : Network Spec := ⟨operConfig1.Name, operConfig1.Annotations, spec2⟩
            let t2 : List (Event Spec) :=
              t1 ++ [.Validate spec1 none,
                .GetAppliedConfiguration operConfig1.Name (.ok (some prev0)),
                .FillDefaults prev0 (some prev0), .FillDefaults spec1 (some prev)]
            if mapHasKey operConfig.Annotations names.NetworkMigrationAnnotation then
              (reconcileRender c operConfig w3).after t2
            else
              match c.IsChangeSafe prev spec2 with
              | some err =>
                ⟨some (Result.empty, some err),
                  t2 ++ [.IsChangeSafe prev spec2 (some err),
                    .SetDegraded .OperatorConfig "InvalidOperatorConfig"
                      ("Not applying unsafe configuration change: " ++ err.Error ++
                        ". Use \x27oc edit network.operator.openshift.io cluster\x27 to undo the change.")],
                  w3⟩
              | none =>
                (reconcileRender c operConfig w3).after (t2 ++ [.IsChangeSafe prev spec2 none])

end operconfig

namespace allowlist

/-! ## The allowlist controller (`ReconcileAllowlist.Reconcile`) -/

/-- The constant `allowlistDsName` (line 39). -/
def allowlistDsName : String := "cni-sysctl-allowlist-ds"

/-- The constant `allowlistAnnotation` (line 40). -/
def allowlistAnnotation : String := "app=cni-sysctl-allowlist-ds"

/-- The constant `manifestDir` (line 41). -/
def manifestDir : String := "../../bindata/allowlist/daemonset"

/-- The constant `allowlistManifestDir` (line 42). -/
def allowlistManifestDir : String := "../../bindata/network/multus/004-sysctl-configmap.yaml"

/-- The error `context.DeadlineExceeded`, which the poll returns when its
timeout ends. -/
def DeadlineExceeded : GoError := ⟨"context deadline exceeded", false⟩

/-- The type `corev1.ConfigMap`, by its identity. -/
structure ConfigMap where
  Namespace : String
  Name : String
  deriving DecidableEq, Repr

/-- One call made by the allowlist controller, with what it returned.
`CheckDsPodsReadyReturned` marks the return of `checkDsPodsReady` to
`Reconcile` (line 143) with the error it returned. -/
inductive Event where
  | GetConfigMap (ns name : String) (res : Except GoError (Option ConfigMap))
  | RenderDir (dir : String) (res : Except GoError (List Unstructured))
  | Create (obj : Unstructured) (err : Option GoError)
  | GetConfig (key : NamespacedName) (res : Except GoError ConfigMap)
  | GetDaemonSet (ns name : String) (res : Except GoError (Option DaemonSet))
  | DeleteDaemonSet (ns name : String) (err : Option GoError)
  | ListPods (ns selector : String) (res : Except GoError (List Pod))
  | CheckDsPodsReadyReturned (err : Option GoError)
  deriving DecidableEq

/-- What the allowlist controller calls outside this file: the typed client
(`GetConfigMap`, `GetDaemonSet`, `DeleteDaemonSet`, `ListPods`), the
controller-runtime client (`GetConfig`, `Create`), `render.RenderDir` with the
render data of `createObjects`, and `pollTicks`, the number of times
`wait.PollUntilContextTimeout` gets to evaluate its condition before its
context ends. -/
structure Client (σ : Type) where
  GetConfigMap : σ → String → String → Except GoError (Option ConfigMap) × σ
  RenderDir : String → Except GoError (List Unstructured)
  Create : σ → Unstructured → Option GoError × σ
  GetConfig : σ → NamespacedName → Except GoError ConfigMap × σ
  GetDaemonSet : σ → String → String → Except GoError (Option DaemonSet) × σ
  DeleteDaemonSet : σ → String → String → Option GoError × σ
  ListPods : σ → String → String → Except GoError (List Pod) × σ
  pollTicks : Nat

/-- The result of one `Reconcile`: what it returned, the calls made, the world
left behind. -/
structure Outcome (σ : Type) where
  ret : Result × Option GoError
  trace : List Event
  world : σ

/-- The function `daemonsetConfigExists` (lines 261-271). -/
def daemonsetConfigExists {σ : Type} (c : Client σ) (w : σ) :
    (Bool × Option GoError) × List Event × σ :=
  match c.GetConfigMap w names.MULTUS_NAMESPACE names.ALLOWLIST_CONFIG_NAME with
  | (.error err, w1) =>
    if IsNotFound err then
      ((false, none),
        [.GetConfigMap names.MULTUS_NAMESPACE names.ALLOWLIST_CONFIG_NAME (.error err)], w1)
    else
      ((false, some err),
        [.GetConfigMap names.MULTUS_NAMESPACE names.ALLOWLIST_CONFIG_NAME (.error err)], w1)
  | (.ok cm, w1) =>
    ((cm.isSome, none),
      [.GetConfigMap names.MULTUS_NAMESPACE names.ALLOWLIST_CONFIG_NAME (.ok cm)], w1)

/-- The function `createObject` (lines 184-190). -/
def createObject {σ : Type} (c : Client σ) (obj : Unstructured) (w : σ) :
    Option GoError × List Event × σ :=
  match c.Create w obj with
  | (some err, w1) =>
    (some (Wrapf err ("error creating " ++ obj.GroupVersionKind.String ++ " " ++
      obj.Namespace ++ "/" ++ obj.Name)), [.Create obj (some err)], w1)
  | (none, w1) => (none, [.Create obj none], w1)

/-- The loop of lines 162-168 of `createObjects`. -/
def createLoop {σ : Type} (c : Client σ) : List Unstructured → σ →
    Option GoError × List Event × σ
  | [], w => (none, [], w)
  | obj :: rest, w =>
    match createObject c obj w with
    | (some err, t, w1) => (some err, t, w1)
    | (none, t, w1) =>
      match createLoop c rest w1 with
      | (r, t2, w2) => (r, t ++ t2, w2)

/-- The function `createObjects` (lines 153-170). -/
def createObjects {σ : Type} (c : Client σ) (dir : String) (w : σ) :
    Option GoError × List Event × σ :=
  match c.RenderDir dir with
  | .error err => (some err, [.RenderDir dir (.error err)], w)
  | .ok manifests =>
    match createLoop c manifests w with
    | (r, t, w1) => (r, [.RenderDir dir (.ok manifests)] ++ t, w1)

/-- The function `getConfig` (lines 172-182). -/
def getConfig {σ : Type} (c : Client σ) (namespacedName : NamespacedName) (w : σ) :
    Except GoError (Option ConfigMap) × List Event × σ :=
  match c.GetConfig w namespacedName with
  | (.error err, w1) =>
    if IsNotFound err then (.ok none, [.GetConfig namespacedName (.error err)], w1)
    else (.error err, [.GetConfig namespacedName (.error err)], w1)
  | (.ok configMap, w1) => (.ok (some configMap), [.GetConfig namespacedName (.ok configMap)], w1)

/-- The function `getDaemonSet` (lines 249-259). -/
def getDaemonSet {σ : Type} (c : Client σ) (w : σ) :
    Except GoError (Option DaemonSet) × List Event × σ :=
  match c.GetDaemonSet w names.MULTUS_NAMESPACE allowlistDsName with
  | (.error err, w1) =>
    if IsNotFound err then
      (.ok none, [.GetDaemonSet names.MULTUS_NAMESPACE allowlistDsName (.error err)], w1)
    else
      (.error err, [.GetDaemonSet names.MULTUS_NAMESPACE allowlistDsName (.error err)], w1)
  | (.ok ds, w1) =>
    (.ok ds, [.GetDaemonSet names.MULTUS_NAMESPACE allowlistDsName (.ok ds)], w1)

/-- The function `deleteDaemonSet` (lines 240-247). -/
def deleteDaemonSet {σ : Type} (c : Client σ) (w : σ) : Option GoError × List Event × σ :=
  match c.DeleteDaemonSet w names.MULTUS_NAMESPACE allowlistDsName with
  | (err, w1) => (err, [.DeleteDaemonSet names.MULTUS_NAMESPACE allowlistDsName err], w1)

/-- The function `cleanup` (lines 226-238). -/
def cleanup {σ : Type} (c : Client σ) (w : σ) : List Event × σ :=
  match getDaemonSet c w with
  | (.error _, t, w1) => (t, w1)
  | (.ok none, t, w1) => (t, w1)
  | (.ok (some _), t, w1) =>
    match deleteDaemonSet c w1 with
    | (_, t2, w2) => (t ++ t2, w2)

/-- The loop of lines 212-222 over the listed pods, for a daemonset with UID
`uid`: the value of `done` the tick returns. -/
def podsReadyLoop (uid : String) : List Pod → Bool
  | [] => true
  | pod :: rest =>
    match pod.OwnerReferences with
    | [] => podsReadyLoop uid rest
    | ref :: _ =>
      if ref.UID ≠ uid then podsReadyLoop uid rest
      else
        match pod.ContainerStatuses with
        | [] => false
        | status :: _ => if !status.Ready then false else podsReadyLoop uid rest

/-- The condition `checkDsPodsReady` polls (lines 193-223): one tick. -/
def checkDsPodsReadyTick {σ : Type} (c : Client σ) (w : σ) :
    (Bool × Option GoError) × List Event × σ :=
  match getDaemonSet c w with
  | (.error err, t, w1) => ((false, some err), t, w1)
  | (.ok none, t, w1) => ((false, some (errorsNew "failed to get UID of daemon set")), t, w1)
  | (.ok (some ds), t, w1) =>
    if ds.UID = "" then
      ((false, some (errorsNew "failed to get UID of daemon set")), t, w1)
    else
      match c.ListPods w1 names.MULTUS_NAMESPACE allowlistAnnotation with
      | (.error err, w2) =>
        ((false, some err),
          t ++ [.ListPods names.MULTUS_NAMESPACE allowlistAnnotation (.error err)], w2)
      | (.ok podList, w2) =>
        if podList.length = 0 then
          ((false, none),
            t ++ [.ListPods names.MULTUS_NAMESPACE allowlistAnnotation (.ok podList)], w2)
        else
          ((podsReadyLoop ds.UID podList, none),
            t ++ [.ListPods names.MULTUS_NAMESPACE allowlistAnnotation (.ok podList)], w2)

/-- The function `wait.PollUntilContextTimeout` of k8s.io/apimachinery with
`immediate` false, for a context that lets the condition be evaluated `ticks`
times: it stops at the first tick that is done or fails, and returns the
context error when the ticks are used up. -/
def PollUntilContextTimeout {σ : Type}
    (condition : σ → (Bool × Option GoError) × List Event × σ) :
    Nat → σ → Option GoError × List Event × σ
  | 0, w => (some DeadlineExceeded, [], w)
  | ticks + 1, w =>
    match condition w with
    | ((_, some err), t, w1) => (some err, t, w1)
    | ((true, none), t, w1) => (none, t, w1)
    | ((false, none), t, w1) =>
      match PollUntilContextTimeout condition ticks w1 with
      | (r, t2, w2) => (r, t ++ t2, w2)

/-- The function `checkDsPodsReady` (lines 192-224). -/
def checkDsPodsReady {σ : Type} (c : Client σ) (w : σ) : Option GoError × List Event × σ :=
  PollUntilContextTimeout (checkDsPodsReadyTick c) c.pollTicks w

/-- Lines 121-150 of `Reconcile`: what runs between `defer cleanup` and the
return. -/
def reconcileDaemonSet {σ : Type} (c : Client σ) (w : σ) :
    (Result × Option GoError) × List Event × σ :=
  match getDaemonSet c w with
  | (.error err, t, w1) => ((Result.empty, some err), t, w1)
  | (.ok (some _), t, w1) => ((Result.empty, some (errorsNew "retrying")), t, w1)
  | (.ok none, t, w1) =>
    match createObjects c manifestDir w1 with
    | (some err, t2, w2) => ((Result.empty, some err), t ++ t2, w2)
    | (none, t2, w2) =>
      match checkDsPodsReady c w2 with
      | (some err, t3, w3) =>
        ((Result.empty, none), t ++ t2 ++ t3 ++ [.CheckDsPodsReadyReturned (some err)], w3)
      | (none, t3, w3) =>
        ((Result.empty, none), t ++ t2 ++ t3 ++ [.CheckDsPodsReadyReturned none], w3)

/-- Lines 103-151 of `Reconcile`: the request itself, once the baseline
configmap is there. -/
def reconcileRequest {σ : Type} (c : Client σ) (request : Request) (w : σ) : Outcome σ :=
  if request.NamespacedName.Name ≠ names.ALLOWLIST_CONFIG_NAME then
    ⟨(Result.empty, none), [], w⟩
  else
    match getConfig c request.NamespacedName w with
    | (.error err, t, w1) => ⟨(Result.empty, some err), t, w1⟩
    | (.ok none, t, w1) => ⟨(Result.empty, none), t, w1⟩
    | (.ok (some _), t, w1) =>
      match reconcileDaemonSet c w1 with
      | (r, t2, w2) =>
        match cleanup c w2 with
        | (t3, w3) => ⟨r, t ++ t2 ++ t3, w3⟩

/-- The method `ReconcileAllowlist.Reconcile` (lines 90-151); a panic and its
handler are not part of the model. -/
def Reconcile {σ : Type} (c : Client σ) (request : Request) (w : σ) : Outcome σ :=
  match daemonsetConfigExists c w with
  | ((false, _), t, w1) =>
    match createObjects c allowlistManifestDir w1 with
    | (some err, t2, w2) => ⟨(Result.empty, some err), t ++ t2, w2⟩
    | (none, t2, w2) =>
      match reconcileRequest c request w2 with
      | ⟨r, t3, w3⟩ => ⟨r, t ++ t2 ++ t3, w3⟩
  | ((true, some err), t, w1) => ⟨(Result.empty, some err), t, w1⟩
  | ((true, none), t, w1) =>
    match reconcileRequest c request w1 with
    | ⟨r, t3, w3⟩ => ⟨r, t ++ t3, w3⟩

end allowlist

namespace operconfig

/-! ## Reading a trace -/

/-- The calls `Reconcile` can make from the bootstrap step on (lines 195-348):
every call but those of the merge, validation, defaults and safety steps. -/
def Event.afterSafetyCheck {Spec : Type} : Event Spec → Bool
  | .Get _ _ => false
  | .MergeClusterConfig _ _ => false
  | .Canonicalize _ => false
  | .Validate _ _ => false
  | .GetAppliedConfiguration _ _ => false
  | .FillDefaults _ _ => false
  | .IsChangeSafe _ _ _ => false
  | _ => true

/-- The calls `Reconcile` can make once the objects are rendered and recorded
(lines 223-348). -/
def Event.afterRender {Spec : Type} : Event Spec → Bool
  | .Bootstrap _ _ => false
  | .Render _ _ => false
  | .AppliedConfiguration _ _ => false
  | e => e.afterSafetyCheck

/-- The calls of the apply loop (lines 290-317). -/
def Event.inApplyLoop {Spec : Type} : Event Spec → Bool
  | .SetControllerReference _ _ _ => true
  | .ApplyObject _ _ => true
  | .SetDegraded _ _ _ => true
  | _ => false

/-- The objects handed to `apply.ApplyObject`, in call order: those of the
apply loop and the status object alike. -/
def applyCalls {Spec : Type} : List (Event Spec) → List Unstructured
  | [] => []
  | .ApplyObject obj _ :: rest => obj :: applyCalls rest
  | .ApplyObjectStatus status _ :: rest => status :: applyCalls rest
  | _ :: rest => applyCalls rest

/-- The object `applied` is `obj` with the owner references a successful
`SetControllerReference(operConfig, obj, scheme)` gave it. -/
def ownedVersionOf {σ Spec Boot : Type} (c : Collaborators σ Spec Boot)
    (operConfig : Network Spec) (applied obj : Unstructured) : Prop :=
  ∃ refs, c.SetControllerReference operConfig obj = .ok refs ∧
    applied = obj.withOwnerReferences refs

/-- In the list `l`, every element with the property `B` stands right after an
element related to it by `R`. -/
def EachPreceded {α : Type} (B : α → Prop) (R : α → α → Prop) (l : List α) : Prop :=
  ∀ t b rest, l = t ++ b :: rest → B b → ∃ t0 a, t = t0 ++ [a] ∧ R a b

/-- The call `e` is a call of `apply.ApplyObject` in the apply loop. -/
def Event.isApplyObject {Spec : Type} (e : Event Spec) : Prop :=
  ∃ obj r, e = Event.ApplyObject obj r

/-- The call `e` is the call of `apply.ApplyObject` on the status object. -/
def Event.isApplyObjectStatus {Spec : Type} (e : Event Spec) : Prop :=
  ∃ status r, e = Event.ApplyObjectStatus status r

/-- The call `a` is the successful `SetControllerReference(owner, obj, scheme)`
whose result the apply call `e` was handed, for an owner with the property
`P`. -/
def ownerSetFor {σ Spec Boot : Type} (c : Collaborators σ Spec Boot)
    (P : Network Spec → Prop) (a e : Event Spec) : Prop :=
  ∀ applied r, e = Event.ApplyObject applied r →
    ∃ owner obj refs, a = Event.SetControllerReference owner obj (.ok refs) ∧
      c.SetControllerReference owner obj = .ok refs ∧
      applied = obj.withOwnerReferences refs ∧ P owner

/-- The call `a` is the `ClusterNetworkStatus` call that returned the very
object the status apply `e` was handed. -/
def statusComputedFor {Spec : Type} (a e : Event Spec) : Prop :=
  ∀ status r, e = Event.ApplyObjectStatus status r →
    a = Event.ClusterNetworkStatus (.ok (some status))

/-- In the list `l`, every element with the property `B` is directly followed
by an element related to it by `R`. -/
def EachFollowed {α : Type} (B : α → Prop) (R : α → α → Prop) (l : List α) : Prop :=
  ∀ t b rest, l = t ++ b :: rest → B b → ∃ a rest1, rest = a :: rest1 ∧ R b a

/-- The call `e` is a successful `SetControllerReference`. -/
def Event.isReferenceSet {Spec : Type} (e : Event Spec) : Prop :=
  ∃ owner obj refs, e = Event.SetControllerReference owner obj (.ok refs)

/-- The call `a` is the `apply.ApplyObject` of the object the successful
`SetControllerReference` `e` was made on, carrying the owner references that
call returned. -/
def appliedWith {Spec : Type} (e a : Event Spec) : Prop :=
  ∀ owner obj refs, e = Event.SetControllerReference owner obj (.ok refs) →
    ∃ r, a = Event.ApplyObject (obj.withOwnerReferences refs) r

/-- The call returned an error that `Reconcile` does not ignore, or did not
return at all: every failed call but a failed apply, in the apply loop, of an
object that carries the ignore-errors annotation. -/
def Event.failed {Spec : Type} : Event Spec → Bool
  | .Get _ (.error _) => true
  | .MergeClusterConfig _ (.error _) => true
  | .Validate _ (some _) => true
  | .GetAppliedConfiguration _ (.error _) => true
  | .IsChangeSafe _ _ (some _) => true
  | .Bootstrap _ (some _) => true
  | .Render _ (.error _) => true
  | .AppliedConfiguration _ (.error _) => true
  | .RunNamespaceController false => true
  | .SetControllerReference _ _ (.error _) => true
  | .ApplyObject obj (some _) => !hasIgnoreObjectError obj
  | .ClusterNetworkStatus (.error _) => true
  | .ApplyObjectStatus _ (some _) => true
  | _ => false

/-- The calls that hand the classified workloads to the status manager and to
the pod reconciler (lines 280-287). -/
def Event.reportsWorkloads {Spec : Type} : Event Spec → Bool
  | .SetDaemonSets _ => true
  | .SetDeployments _ => true
  | .SetResources _ => true
  | _ => false

/-- The object is a daemonset: apiVersion apps/v1 and kind DaemonSet. -/
def isDaemonSet (obj : Unstructured) : Bool :=
  decide (obj.APIVersion = "apps/v1" ∧ obj.Kind = "DaemonSet")

/-- The object is a deployment: apiVersion apps/v1 and kind Deployment. -/
def isDeployment (obj : Unstructured) : Bool :=
  decide (obj.APIVersion = "apps/v1" ∧ obj.Kind = "Deployment")

/-- The (namespace, name) pair of an object. -/
def namespacedNameOf (obj : Unstructured) : NamespacedName := ⟨obj.Namespace, obj.Name⟩

/-- The status object `ClusterNetworkStatus` came back with, as a list: empty
when the call failed or returned nil. -/
def computedStatus : Except GoError (Option Unstructured) → List Unstructured
  | .ok (some status) => [status]
  | _ => []

end operconfig

namespace allowlist

/-- The pod is owned by the daemonset instance with UID `uid`, the way the
tick reads it: it has an owner reference and the first one has that UID. -/
def ownedBy (uid : String) (pod : Pod) : Bool :=
  match pod.OwnerReferences with
  | [] => false
  | ref :: _ => decide (ref.UID = uid)

/-- The pod reports at least one container status and the first one is ready. -/
def firstContainerReady (pod : Pod) : Bool :=
  match pod.ContainerStatuses with
  | [] => false
  | status :: _ => status.Ready

/-- The calls that reach the cluster or the renderer: every event but the
marker of the return of `checkDsPodsReady`. -/
def Event.isCall : Event → Bool
  | .CheckDsPodsReadyReturned _ => false
  | _ => true

/-- The calls of the bootstrap of lines 92-101: the lookup of the baseline
configmap and, in `createObjects`, the render and create calls. -/
def Event.inBootstrap : Event → Bool
  | .GetConfigMap _ _ _ => true
  | .RenderDir _ _ => true
  | .Create _ _ => true
  | _ => false

/-- The calls that can follow the fetch of the configmap (lines 119-150 and
`cleanup`): every event but the lookup of the baseline configmap and the fetch
itself. -/
def Event.afterFetch : Event → Bool
  | .GetConfigMap _ _ _ => false
  | .GetConfig _ _ => false
  | _ => true

end allowlist

namespace network

/-! ## The DHCP daemon manifests (`pkg/network/dhcp_daemon.go`) -/

/-- The call `errors.Wrap(err, msg)` of `github.com/pkg/errors` for a non-nil
`err`. -/
def Wrap (err : GoError) (msg : String) : GoError := Wrapf err msg

/-- The function `renderDHCPDaemon` (lines 13-28).  `Join` is `filepath.Join`
and `RenderDir` is `render.RenderDir` with the render data the function builds
from the environment. -/
def renderDHCPDaemon (Join : String → String → String)
    (RenderDir : String → Except GoError (List Unstructured)) (manifestDir : String) :
    Except GoError (List Unstructured) :=
  match RenderDir (Join manifestDir "network/dhcp") with
  | .error err => .error (Wrap err "failed to render dhcp manifests")
  | .ok manifests => .ok ([] ++ manifests)

end network

/-! # Concrete clusters

Small closed instances of the collaborators, on which the definitions above
can be evaluated. -/

namespace examples

/-! ## A cluster with one namespace, for `sync` -/

/-- A cluster holding at most one namespace, a clock, and the pods and
daemonsets of that namespace. -/
structure Cluster where
  ns : Option Namespace
  now : Int
  pods : List Pod
  daemonSets : List DaemonSet
  deriving DecidableEq

/-- A client that reads and writes a `Cluster`; every call succeeds, a missing
namespace is reported as not found. -/
def storeClient : operconfig.NamespaceClient Cluster where
  Get w name :=
    match w.ns with
    | some ns => if ns.Name = name then (.ok ns, w) else (.error ⟨"not found", true⟩, w)
    | none => (.error ⟨"not found", true⟩, w)
  Update w ns := (.ok ns, ⟨some ns, w.now, w.pods, w.daemonSets⟩)
  Now w := (w.now, w)
  ListPods w _ := (.ok w.pods, w)
  ListDaemonSets w _ := (.ok w.daemonSets, w)

/-- The namespace foo-bar carries the kubernetes finalizer and was deleted ten
seconds ago; no pod and no daemonset is left in it. -/
def graceCluster : Cluster :=
  ⟨some ⟨"foo-bar", some ["kubernetes"], some (1000 * Second)⟩, 1010 * Second, [], []⟩

/-- The namespace foo-bar exists, is not being deleted, and its finalizer list
is unset (a nil slice). -/
def unsetCluster : Cluster :=
  ⟨some ⟨"foo-bar", none, none⟩, 1010 * Second, [], []⟩

/-- The namespace foo-bar carries the kubernetes finalizer twice, among two
other finalizers. -/
def mixedCluster : Cluster :=
  ⟨some ⟨"foo-bar", some ["a.example/hold", "kubernetes", "b.example/hold", "kubernetes"],
    none⟩, 1010 * Second, [], []⟩

/-! ## A cluster for the operator configuration controller -/

/-- The record of the applied configuration. -/
def recordObject : Unstructured :=
  ⟨"v1", "ConfigMap", "openshift-network-operator", "applied-cluster", none, []⟩

/-- A rendered daemonset. -/
def multusDaemonSet : Unstructured :=
  ⟨"apps/v1", "DaemonSet", "openshift-multus", "multus", none, []⟩

/-- A rendered object that carries the ignore-errors annotation. -/
def monitorObject : Unstructured :=
  ⟨"monitoring.coreos.com/v1", "ServiceMonitor", "openshift-multus", "monitor-multus",
    some [(names.IgnoreObjectErrorAnnotation, "")], []⟩

/-- The cluster network status object. -/
def statusObject : Unstructured :=
  ⟨"config.openshift.io/v1", "Network", "", "cluster", none, []⟩

/-- The owner reference the example `SetControllerReference` writes. -/
def ownerRef (owner : String) : OwnerReference :=
  ⟨"operator.openshift.io/v1", "Network", owner, "uid-1", true⟩

/-- A cluster whose spec is just the name of the default network plugin.  The
stored configuration object is `operConfig`, the previously applied spec is
`prev`, the renderer returns `objs`, and applying an object whose name is in
`failing` fails.  The world is the list of the names applied so far.  A change
of plugin is the one unsafe change. -/
def cluster (operConfig : operconfig.Network String) (prev : Option String)
    (objs : List Unstructured) (failing : List String) :
    operconfig.Collaborators (List String) String Unit where
  Get w _ := (.ok operConfig, w)
  MergeClusterConfig w cfg := (.ok cfg, w)
  Canonicalize spec := spec
  Validate _ := none
  GetAppliedConfiguration w _ := (.ok prev, w)
  FillDefaults conf _ := conf
  IsChangeSafe prev next :=
    if prev = next then none else some ⟨"cannot change default network type", false⟩
  Bootstrap w _ := (.ok (), w)
  Render _ _ _ := .ok objs
  AppliedConfiguration _ := .ok recordObject
  RESTMapping gk := .ok gk.Kind
  RunNamespaceController w := some w
  SetControllerReference owner _ := .ok [ownerRef owner.Name]
  ApplyObject w obj :=
    if obj.Name ∈ failing then (some ⟨"boom", false⟩, w) else (none, w ++ [obj.Name])
  ClusterNetworkStatus w _ := (.ok (some statusObject), w)

/-- The request for the operator configuration. -/
def clusterRequest : Request := ⟨⟨"", "cluster"⟩⟩

/-- The configuration object asks for OVNKubernetes and carries no annotation. -/
def plainConfig : operconfig.Network String := ⟨"cluster", none, "OVNKubernetes"⟩

/-- The configuration object asks for OVNKubernetes and carries the
network-migration annotation. -/
def migrationConfig : operconfig.Network String :=
  ⟨"cluster", some [(names.NetworkMigrationAnnotation, "")], "OVNKubernetes"⟩

/-- The previous configuration used OpenShiftSDN, the new one asks for
OVNKubernetes, and no migration is announced. -/
def unsafeCluster : operconfig.Collaborators (List String) String Unit :=
  cluster plainConfig (some "OpenShiftSDN") [multusDaemonSet] []

/-- The same change of plugin, with the network-migration annotation on the
configuration object. -/
def migrationCluster : operconfig.Collaborators (List String) String Unit :=
  cluster migrationConfig (some "OpenShiftSDN") [multusDaemonSet] []

/-- Nothing changes in the configuration; the annotated monitor object is
rendered first and cannot be applied. -/
def tolerantCluster : operconfig.Collaborators (List String) String Unit :=
  cluster plainConfig (some "OVNKubernetes") [monitorObject, multusDaemonSet] ["monitor-multus"]

/-- Nothing changes in the configuration; the daemonset, which has no
annotation, is rendered first and cannot be applied. -/
def brokenCluster : operconfig.Collaborators (List String) String Unit :=
  cluster plainConfig (some "OVNKubernetes") [multusDaemonSet, monitorObject] ["multus"]

/-- The error the example `ApplyObject` fails with. -/
def boom : GoError := ⟨"boom", false⟩

/-- The error the example `IsChangeSafe` reports. -/
def unsafeChange : GoError := ⟨"cannot change default network type", false⟩

/-- A request for a configuration object of another name. -/
def otherRequest : Request := ⟨⟨"", "not-cluster"⟩⟩

/-- The error of a client that cannot reach the API server. -/
def refused : GoError := ⟨"connection refused", false⟩

/-- A cluster in which every step succeeds but the namespace finalizer
controller, once started, never hands control back. -/
def blockedCluster : operconfig.Collaborators (List String) String Unit where
  Get := tolerantCluster.Get
  MergeClusterConfig := tolerantCluster.MergeClusterConfig
  Canonicalize := tolerantCluster.Canonicalize
  Validate := tolerantCluster.Validate
  GetAppliedConfiguration := tolerantCluster.GetAppliedConfiguration
  FillDefaults := tolerantCluster.FillDefaults
  IsChangeSafe := tolerantCluster.IsChangeSafe
  Bootstrap := tolerantCluster.Bootstrap
  Render := tolerantCluster.Render
  AppliedConfiguration := tolerantCluster.AppliedConfiguration
  RESTMapping := tolerantCluster.RESTMapping
  RunNamespaceController _ := none
  SetControllerReference := tolerantCluster.SetControllerReference
  ApplyObject := tolerantCluster.ApplyObject
  ClusterNetworkStatus := tolerantCluster.ClusterNetworkStatus

/-- A cluster whose API server cannot be reached when the configuration object
is fetched. -/
def unreachableCluster : operconfig.Collaborators (List String) String Unit where
  Get w _ := (.error refused, w)
  MergeClusterConfig := tolerantCluster.MergeClusterConfig
  Canonicalize := tolerantCluster.Canonicalize
  Validate := tolerantCluster.Validate
  GetAppliedConfiguration := tolerantCluster.GetAppliedConfiguration
  FillDefaults := tolerantCluster.FillDefaults
  IsChangeSafe := tolerantCluster.IsChangeSafe
  Bootstrap := tolerantCluster.Bootstrap
  Render := tolerantCluster.Render
  AppliedConfiguration := tolerantCluster.AppliedConfiguration
  RESTMapping := tolerantCluster.RESTMapping
  RunNamespaceController := tolerantCluster.RunNamespaceController
  SetControllerReference := tolerantCluster.SetControllerReference
  ApplyObject := tolerantCluster.ApplyObject
  ClusterNetworkStatus := tolerantCluster.ClusterNetworkStatus

/-- A cluster from which the configuration object was deleted. -/
def deletedCluster : operconfig.Collaborators (List String) String Unit where
  Get w _ := (.error ⟨"not found", true⟩, w)
  MergeClusterConfig := tolerantCluster.MergeClusterConfig
  Canonicalize := tolerantCluster.Canonicalize
  Validate := tolerantCluster.Validate
  GetAppliedConfiguration := tolerantCluster.GetAppliedConfiguration
  FillDefaults := tolerantCluster.FillDefaults
  IsChangeSafe := tolerantCluster.IsChangeSafe
  Bootstrap := tolerantCluster.Bootstrap
  Render := tolerantCluster.Render
  AppliedConfiguration := tolerantCluster.AppliedConfiguration
  RESTMapping := tolerantCluster.RESTMapping
  RunNamespaceController := tolerantCluster.RunNamespaceController
  SetControllerReference := tolerantCluster.SetControllerReference
  ApplyObject := tolerantCluster.ApplyObject
  ClusterNetworkStatus := tolerantCluster.ClusterNetworkStatus

/-- A cluster whose API server cannot be reached when the previously applied
configuration is retrieved. -/
def unreadableRecordCluster : operconfig.Collaborators (List String) String Unit where
  Get := tolerantCluster.Get
  MergeClusterConfig := tolerantCluster.MergeClusterConfig
  Canonicalize := tolerantCluster.Canonicalize
  Validate := tolerantCluster.Validate
  GetAppliedConfiguration w _ := (.error refused, w)
  FillDefaults := tolerantCluster.FillDefaults
  IsChangeSafe := tolerantCluster.IsChangeSafe
  Bootstrap := tolerantCluster.Bootstrap
  Render := tolerantCluster.Render
  AppliedConfiguration := tolerantCluster.AppliedConfiguration
  RESTMapping := tolerantCluster.RESTMapping
  RunNamespaceController := tolerantCluster.RunNamespaceController
  SetControllerReference := tolerantCluster.SetControllerReference
  ApplyObject := tolerantCluster.ApplyObject
  ClusterNetworkStatus := tolerantCluster.ClusterNetworkStatus

/-- A cluster whose `FillDefaults` shows what it was given as reference: the
static defaults when there is none, the reference otherwise.  Every change is
safe. -/
def defaultingCluster : operconfig.Collaborators (List String) String Unit where
  Get := tolerantCluster.Get
  MergeClusterConfig := tolerantCluster.MergeClusterConfig
  Canonicalize := tolerantCluster.Canonicalize
  Validate := tolerantCluster.Validate
  GetAppliedConfiguration w _ := (.ok (some "OpenShiftSDN"), w)
  FillDefaults conf previous :=
    match previous with
    | none => conf ++ "+static"
    | some p => conf ++ "+from:" ++ p
  IsChangeSafe _ _ := none
  Bootstrap := tolerantCluster.Bootstrap
  Render := tolerantCluster.Render
  AppliedConfiguration := tolerantCluster.AppliedConfiguration
  RESTMapping := tolerantCluster.RESTMapping
  RunNamespaceController := tolerantCluster.RunNamespaceController
  SetControllerReference := tolerantCluster.SetControllerReference
  ApplyObject := tolerantCluster.ApplyObject
  ClusterNetworkStatus := tolerantCluster.ClusterNetworkStatus

/-- A rendered deployment. -/
def admissionDeployment : Unstructured :=
  ⟨"apps/v1", "Deployment", "openshift-multus", "multus-admission-controller", none, []⟩

/-- A cluster in which nothing fails; the renderer returns a deployment, the
monitor object and a daemonset. -/
def workloadCluster : operconfig.Collaborators (List String) String Unit :=
  cluster plainConfig (some "OVNKubernetes")
    [admissionDeployment, monitorObject, multusDaemonSet] []

/-- The error the example `SetControllerReference` fails with. -/
def unregistered : GoError := ⟨"no kind is registered for the type", false⟩

/-- A cluster in which nothing fails but `SetControllerReference` on the
annotated monitor object, which is rendered between the daemonset and the
deployment. -/
def unownableCluster : operconfig.Collaborators (List String) String Unit where
  Get := tolerantCluster.Get
  MergeClusterConfig := tolerantCluster.MergeClusterConfig
  Canonicalize := tolerantCluster.Canonicalize
  Validate := tolerantCluster.Validate
  GetAppliedConfiguration := tolerantCluster.GetAppliedConfiguration
  FillDefaults := tolerantCluster.FillDefaults
  IsChangeSafe := tolerantCluster.IsChangeSafe
  Bootstrap := tolerantCluster.Bootstrap
  Render _ _ _ := .ok [multusDaemonSet, monitorObject, admissionDeployment]
  AppliedConfiguration := tolerantCluster.AppliedConfiguration
  RESTMapping := tolerantCluster.RESTMapping
  RunNamespaceController := tolerantCluster.RunNamespaceController
  SetControllerReference owner obj :=
    if obj.Name = "monitor-multus" then .error unregistered else .ok [ownerRef owner.Name]
  ApplyObject w obj := (none, w ++ [obj.Name])
  ClusterNetworkStatus := tolerantCluster.ClusterNetworkStatus

/-! ## A cluster for the allowlist controller -/

/-- The state the allowlist example keeps: whether the baseline configmap and
the daemonset exist, and the names of the objects created so far. -/
structure AllowlistCluster where
  configMap : Bool
  daemonSet : Option DaemonSet
  created : List String
  deriving DecidableEq

/-- The allowlist daemonset manifest. -/
def allowlistDaemonSet : Unstructured :=
  ⟨"apps/v1", "DaemonSet", "openshift-multus", "cni-sysctl-allowlist-ds", none, []⟩

/-- A client over an `AllowlistCluster`: creating the daemonset manifest makes
the daemonset exist with UID uid-2, the pods listed are `pods`, and the poll
gets `ticks` evaluations of its condition. -/
def allowlistClient (pods : List Pod) (ticks : Nat) : allowlist.Client AllowlistCluster where
  GetConfigMap w ns name :=
    if w.configMap then (.ok (some ⟨ns, name⟩), w) else (.error ⟨"not found", true⟩, w)
  RenderDir dir := if dir = allowlist.manifestDir then .ok [allowlistDaemonSet] else .ok []
  Create w obj :=
    (none, ⟨w.configMap,
      if obj.Kind = "DaemonSet" then some ⟨obj.Name, "uid-2"⟩ else w.daemonSet,
      w.created ++ [obj.Name]⟩)
  GetConfig w key := (.ok ⟨key.Namespace, key.Name⟩, w)
  GetDaemonSet w _ _ :=
    match w.daemonSet with
    | some ds => (.ok (some ds), w)
    | none => (.error ⟨"not found", true⟩, w)
  DeleteDaemonSet w _ _ := (none, ⟨w.configMap, none, w.created⟩)
  ListPods w _ _ := (.ok pods, w)
  pollTicks := ticks

/-- A pod of the current daemonset whose container never gets ready. -/
def stuckPod : Pod :=
  ⟨"cni-sysctl-allowlist-ds-x", [⟨"apps/v1", "DaemonSet", "cni-sysctl-allowlist-ds", "uid-2", true⟩],
    [⟨"kube-multus", false⟩]⟩

/-- The request for the allowlist configmap. -/
def allowlistRequest : Request := ⟨⟨"openshift-multus", "cni-sysctl-allowlist"⟩⟩

/-- The baseline allowlist configmap manifest. -/
def allowlistConfigMap : Unstructured :=
  ⟨"v1", "ConfigMap", "openshift-multus", "default-cni-sysctl-allowlist", none, []⟩

/-- A client whose lookup of the allowlist configmap fails because the API
server cannot be reached, while every other call succeeds. -/
def unreachableConfigClient : allowlist.Client AllowlistCluster where
  GetConfigMap w _ _ := (.error refused, w)
  RenderDir dir :=
    if dir = allowlist.allowlistManifestDir then .ok [allowlistConfigMap]
    else .ok [allowlistDaemonSet]
  Create := (allowlistClient [] 2).Create
  GetConfig := (allowlistClient [] 2).GetConfig
  GetDaemonSet := (allowlistClient [] 2).GetDaemonSet
  DeleteDaemonSet := (allowlistClient [] 2).DeleteDaemonSet
  ListPods := (allowlistClient [] 2).ListPods
  pollTicks := 2

/-- A ready pod of the current daemonset instance. -/
def readyPod : Pod :=
  ⟨"cni-sysctl-allowlist-ds-y", [⟨"apps/v1", "DaemonSet", "cni-sysctl-allowlist-ds", "uid-2", true⟩],
    [⟨"kube-multus", true⟩]⟩

/-- A pod left over from an earlier daemonset instance, not ready. -/
def stalePod : Pod :=
  ⟨"cni-sysctl-allowlist-ds-z", [⟨"apps/v1", "DaemonSet", "cni-sysctl-allowlist-ds", "uid-1", true⟩],
    [⟨"kube-multus", false⟩]⟩

/-- The request for the baseline configmap, which the controller also watches. -/
def baselineRequest : Request := ⟨⟨"openshift-multus", "default-cni-sysctl-allowlist"⟩⟩

/-- The baseline configmap exists, the daemonset does not. -/
def idleAllowlist : AllowlistCluster := ⟨true, none, []⟩

/-- The baseline configmap exists and the daemonset runs as instance uid-2. -/
def runningAllowlist : AllowlistCluster := ⟨true, some ⟨"cni-sysctl-allowlist-ds", "uid-2"⟩, []⟩

/-- The allowlist configmap as the baseline manifest renders it. -/
def sysctlConfigMap : Unstructured :=
  ⟨"v1", "ConfigMap", "openshift-multus", "cni-sysctl-allowlist", none, []⟩

/-- A client over an `AllowlistCluster` in which the allowlist configmap is
there exactly when the cluster says so: both lookups read the same flag, and
creating a configmap sets it. -/
def storeAllowlistClient : allowlist.Client AllowlistCluster where
  GetConfigMap w ns name :=
    if w.configMap then (.ok (some ⟨ns, name⟩), w) else (.error ⟨"not found", true⟩, w)
  RenderDir dir :=
    if dir = allowlist.manifestDir then .ok [allowlistDaemonSet] else .ok [sysctlConfigMap]
  Create w obj :=
    (none, ⟨w.configMap || decide (obj.Kind = "ConfigMap"),
      if obj.Kind = "DaemonSet" then some ⟨obj.Name, "uid-2"⟩ else w.daemonSet,
      w.created ++ [obj.Name]⟩)
  GetConfig w key :=
    if w.configMap then (.ok ⟨key.Namespace, key.Name⟩, w)
    else (.error ⟨"not found", true⟩, w)
  GetDaemonSet := (allowlistClient [] 2).GetDaemonSet
  DeleteDaemonSet := (allowlistClient [] 2).DeleteDaemonSet
  ListPods := (allowlistClient [] 2).ListPods
  pollTicks := 2

/-- The allowlist configmap is gone, and the daemonset of an earlier run is
still there as instance uid-1. -/
def leftoverAllowlist : AllowlistCluster :=
  ⟨false, some ⟨"cni-sysctl-allowlist-ds", "uid-1"⟩, []⟩

/-- A client whose world counts the lookups of the daemonset: the configmap
and the daemonset exist, the first lookup of the daemonset finds it, and every
later one fails because the API server cannot be reached. -/
def flakyLookupClient : allowlist.Client Nat where
  GetConfigMap w ns name := (.ok (some ⟨ns, name⟩), w)
  RenderDir _ := .ok []
  Create w _ := (none, w)
  GetConfig w key := (.ok ⟨key.Namespace, key.Name⟩, w)
  GetDaemonSet w _ _ :=
    if w = 0 then (.ok (some ⟨"cni-sysctl-allowlist-ds", "uid-1"⟩), w + 1)
    else (.error refused, w + 1)
  DeleteDaemonSet w _ _ := (none, w)
  ListPods w _ _ := (.ok [], w)
  pollTicks := 2

end examples

/-! # Theorems -/

namespace operconfig

/-! ## The finalizer loop -/

theorem newFinalizersLoop_eq_filter (l acc : List String) :
    newFinalizersLoop l acc = acc ++ l.filter (fun f => decide (f ≠ FinalizerKubernetes)) := by
  induction l generalizing acc with
  | nil => simp [newFinalizersLoop]
  | cons x xs ih =>
    by_cases hx : x = FinalizerKubernetes
    · simp [newFinalizersLoop, hx, ih]
    · simp [newFinalizersLoop, hx, ih]

/-! ## Which calls occur where -/

section traces

variable {σ Spec Boot : Type}

theorem applyLoop_nil (c : Collaborators σ Spec Boot) (operConfig : Network Spec) (w : σ) :
    applyLoop c operConfig [] w = ⟨none, [], w⟩ := by
  simp [applyLoop]

theorem applyLoop_cons_reference_error (c : Collaborators σ Spec Boot)
    (operConfig : Network Spec) (obj : Unstructured) (rest : List Unstructured) (w : σ)
    (err0 : GoError) (hset : c.SetControllerReference operConfig obj = .error err0) :
    applyLoop c operConfig (obj :: rest) w =
      ⟨some (Wrapf err0 ("could not set reference for " ++ obj.describe)),
        [.SetControllerReference operConfig obj (.error err0),
          .SetDegraded .OperatorConfig "InternalError"
            ("Internal error while updating operator configuration: " ++
              (Wrapf err0 ("could not set reference for " ++ obj.describe)).Error)], w⟩ := by
  simp [applyLoop, hset]

theorem applyLoop_cons_applied (c : Collaborators σ Spec Boot)
    (operConfig : Network Spec) (obj : Unstructured) (rest : List Unstructured) (w w1 : σ)
    (refs : List OwnerReference) (hset : c.SetControllerReference operConfig obj = .ok refs)
    (happly : c.ApplyObject w (obj.withOwnerReferences refs) = (none, w1)) :
    applyLoop c operConfig (obj :: rest) w =
      (applyLoop c operConfig rest w1).after
        [.SetControllerReference operConfig obj (.ok refs),
          .ApplyObject (obj.withOwnerReferences refs) none] := by
  simp [applyLoop, hset, happly]

theorem applyLoop_cons_ignored (c : Collaborators σ Spec Boot)
    (operConfig : Network Spec) (obj : Unstructured) (rest : List Unstructured) (w w1 : σ)
    (refs : List OwnerReference) (err0 : GoError)
    (hset : c.SetControllerReference operConfig obj = .ok refs)
    (happly : c.ApplyObject w (obj.withOwnerReferences refs) = (some err0, w1))
    (hanno : hasIgnoreObjectError (obj.withOwnerReferences refs) = true) :
    applyLoop c operConfig (obj :: rest) w =
      (applyLoop c operConfig rest w1).after
        [.SetControllerReference operConfig obj (.ok refs),
          .ApplyObject (obj.withOwnerReferences refs) (some err0)] := by
  simp [applyLoop, hset, happly, hanno]

theorem applyLoop_cons_aborted (c : Collaborators σ Spec Boot)
    (operConfig : Network Spec) (obj : Unstructured) (rest : List Unstructured) (w w1 : σ)
    (refs : List OwnerReference) (err0 : GoError)
    (hset : c.SetControllerReference operConfig obj = .ok refs)
    (happly : c.ApplyObject w (obj.withOwnerReferences refs) = (some err0, w1))
    (hanno : hasIgnoreObjectError (obj.withOwnerReferences refs) = false) :
    applyLoop c operConfig (obj :: rest) w =
      ⟨some (Wrapf err0 ("could not apply " ++ (obj.withOwnerReferences refs).describe)),
        [.SetControllerReference operConfig obj (.ok refs),
          .ApplyObject (obj.withOwnerReferences refs) (some err0),
          .SetDegraded .OperatorConfig "ApplyOperatorConfig"
            ("Error while updating operator configuration: " ++
              (Wrapf err0
                ("could not apply " ++ (obj.withOwnerReferences refs).describe)).Error)],
        w1⟩ := by
  simp [applyLoop, hset, happly, hanno]

theorem applyLoop_trace_inApplyLoop (c : Collaborators σ Spec Boot) (operConfig : Network Spec)
    (objs : List Unstructured) (w : σ) :
    ∀ e ∈ (applyLoop c operConfig objs w).trace, e.inApplyLoop = true := by
  induction objs generalizing w with
  | nil => simp [applyLoop]
  | cons obj rest ih =>
    intro e he
    rcases hset : c.SetControllerReference operConfig obj with err0 | refs
    · rw [applyLoop_cons_reference_error c operConfig obj rest w err0 hset] at he
      simp at he
      rcases he with rfl | rfl <;> rfl
    · rcases happly : c.ApplyObject w (obj.withOwnerReferences refs) with ⟨r, w1⟩
      cases r with
      | none =>
        rw [applyLoop_cons_applied c operConfig obj rest w w1 refs hset happly] at he
        simp only [LoopOutcome.after, List.mem_append, List.mem_cons, List.mem_singleton,
          List.not_mem_nil, or_false] at he
        rcases he with (rfl | rfl) | he
        · rfl
        · rfl
        · exact ih _ e he
      | some err0 =>
        cases hanno : hasIgnoreObjectError (obj.withOwnerReferences refs) with
        | true =>
          rw [applyLoop_cons_ignored c operConfig obj rest w w1 refs err0 hset happly hanno] at he
          simp only [LoopOutcome.after, List.mem_append, List.mem_cons, List.mem_singleton,
            List.not_mem_nil, or_false] at he
          rcases he with (rfl | rfl) | he
          · rfl
          · rfl
          · exact ih _ e he
        | false =>
          rw [applyLoop_cons_aborted c operConfig obj rest w w1 refs err0 hset happly hanno] at he
          simp at he
          rcases he with rfl | rfl | rfl <;> rfl

theorem reconcileStatus_trace_afterSafetyCheck (c : Collaborators σ Spec Boot)
    (operConfig : Network Spec) (w : σ) :
    ∀ e ∈ (reconcileStatus c operConfig w).trace, e.afterSafetyCheck = true := by
  intro e he
  unfold reconcileStatus at he
  repeat' (split at he)
  all_goals
    simp only [List.mem_cons, List.mem_singleton, List.not_mem_nil, or_false] at he
    rcases he with rfl | rfl | rfl | rfl <;> rfl

theorem inApplyLoop_afterSafetyCheck (e : Event Spec) (h : e.inApplyLoop = true) :
    e.afterSafetyCheck = true := by
  cases e <;> first | rfl | cases h

theorem reconcileObjects_trace_afterSafetyCheck (c : Collaborators σ Spec Boot)
    (operConfig : Network Spec) (objs : List Unstructured) (w : σ) :
    ∀ e ∈ (reconcileObjects c operConfig objs w).trace, e.afterSafetyCheck = true := by
  intro e he
  unfold reconcileObjects at he
  simp only at he
  split at he
  · simp at he; subst he; rfl
  · split at he
    · simp only [List.mem_append, List.mem_cons, List.mem_singleton, List.not_mem_nil,
        or_false] at he
      rcases he with (rfl | rfl | rfl | rfl | rfl) | he
      · rfl
      · rfl
      · rfl
      · rfl
      · rfl
      · exact inApplyLoop_afterSafetyCheck e (applyLoop_trace_inApplyLoop _ _ _ _ e he)
    · simp only [Outcome.after, List.mem_append, List.mem_cons, List.mem_singleton,
        List.not_mem_nil, or_false] at he
      rcases he with ((rfl | rfl | rfl | rfl | rfl) | he) | he
      · rfl
      · rfl
      · rfl
      · rfl
      · rfl
      · exact inApplyLoop_afterSafetyCheck e (applyLoop_trace_inApplyLoop _ _ _ _ e he)
      · exact reconcileStatus_trace_afterSafetyCheck _ _ _ e he

theorem reconcileRender_trace_afterSafetyCheck (c : Collaborators σ Spec Boot)
    (operConfig : Network Spec) (w : σ) :
    ∀ e ∈ (reconcileRender c operConfig w).trace, e.afterSafetyCheck = true := by
  intro e he
  unfold reconcileRender at he
  repeat' (split at he)
  all_goals
    simp only [Outcome.after, List.mem_append, List.mem_cons, List.mem_singleton,
      List.not_mem_nil, or_false] at he
  · rcases he with rfl | rfl <;> rfl
  · rcases he with rfl | rfl | rfl <;> rfl
  · rcases he with rfl | rfl | rfl | rfl <;> rfl
  · rcases he with (rfl | rfl | rfl) | he
    · rfl
    · rfl
    · rfl
    · exact reconcileObjects_trace_afterSafetyCheck _ _ _ _ e he

theorem reconcileRender_trace_head (c : Collaborators σ Spec Boot)
    (operConfig : Network Spec) (w : σ) :
    ∃ r rest, (reconcileRender c operConfig w).trace = Event.Bootstrap operConfig.Spec r :: rest := by
  unfold reconcileRender
  repeat' split
  all_goals simp [Outcome.after]

theorem mem_after_of_not_afterSafetyCheck (c : Collaborators σ Spec Boot)
    (operConfig : Network Spec) (w : σ) (t : List (Event Spec)) (e : Event Spec)
    (h : e ∈ ((reconcileRender c operConfig w).after t).trace)
    (he : e.afterSafetyCheck = false) : e ∈ t := by
  simp only [Outcome.after, List.mem_append] at h
  rcases h with h | h
  · exact h
  · have := reconcileRender_trace_afterSafetyCheck c operConfig w e h
    rw [he] at this
    cases this

theorem bootstrap_mem_after (c : Collaborators σ Spec Boot)
    (operConfig : Network Spec) (w : σ) (t : List (Event Spec)) :
    ∃ r, Event.Bootstrap operConfig.Spec r ∈ ((reconcileRender c operConfig w).after t).trace := by
  obtain ⟨r, rest, hr⟩ := reconcileRender_trace_head c operConfig w
  exact ⟨r, by simp [Outcome.after, hr]⟩

end traces

end operconfig

namespace operconfig

/-! ## The finalizer sweep -/

section sweep

variable {σ : Type}

/-- On a namespace whose finalizer list is set (not nil) and has no kubernetes
entry, `sync` only reads the namespace. -/
theorem sync_noop_on_set_list_without_entry (c : NamespaceClient σ) (name : String) (w w1 : σ)
    (ns : Namespace) (l : List String) (hget : c.Get w name = (.ok ns, w1))
    (hl : ns.Finalizers = some l) (habsent : FinalizerKubernetes ∉ l) :
    sync c name w = ⟨none, [.Get name (.ok ns)], w1⟩ := by
  have hfilter : l.filter (fun f => decide (f ≠ FinalizerKubernetes)) = l := by
    rw [List.filter_eq_self]
    intro a ha
    simp only [ne_eq, decide_eq_true_eq]
    rintro rfl
    exact habsent ha
  have hde : DeepEqual (some (newFinalizersLoop (rangeOf ns.Finalizers) [])) ns.Finalizers
      = true := by
    rw [newFinalizersLoop_eq_filter, hl]
    simp only [rangeOf, Option.getD_some, List.nil_append, hfilter, DeepEqual, decide_True]
  unfold sync
  rw [hget]
  dsimp only
  rw [if_pos hde]

/-- On a namespace whose finalizer list is unset (nil), `sync` writes the
namespace back with an empty list. -/
theorem sync_update_on_unset_list (c : NamespaceClient σ) (name : String) (w w1 : σ)
    (ns : Namespace) (hget : c.Get w name = (.ok ns, w1)) (hl : ns.Finalizers = none) :
    ∃ res, SyncEvent.Update ⟨ns.Name, some [], ns.DeletionTimestamp⟩ res ∈
      (sync c name w).trace := by
  refine ⟨(c.Update w1 ⟨ns.Name, some [], ns.DeletionTimestamp⟩).1, ?_⟩
  unfold sync
  rw [hget]
  simp only [hl, rangeOf, Option.getD_none, newFinalizersLoop, DeepEqual]
  rcases hu : c.Update w1 ⟨ns.Name, some [], ns.DeletionTimestamp⟩ with ⟨r, w2⟩
  simp only [reduceCtorEq, decide_False, Bool.false_eq_true, ↓reduceIte]
  repeat' split
  all_goals simp_all

/-- On a namespace that carries the kubernetes finalizer, `sync` writes the
namespace back without it, whatever the deletion timestamp is. -/
theorem sync_update_when_entry_present (c : NamespaceClient σ) (name : String) (w w1 : σ)
    (ns : Namespace) (hget : c.Get w name = (.ok ns, w1))
    (hpresent : FinalizerKubernetes ∈ rangeOf ns.Finalizers) :
    ∃ res, SyncEvent.Update
        ⟨ns.Name, some ((rangeOf ns.Finalizers).filter
          (fun f => decide (f ≠ FinalizerKubernetes))), ns.DeletionTimestamp⟩ res ∈
      (sync c name w).trace := by
  have hne : DeepEqual (some ((rangeOf ns.Finalizers).filter
      (fun f => decide (f ≠ FinalizerKubernetes)))) ns.Finalizers = false := by
    simp only [DeepEqual, decide_eq_false_iff_not]
    intro heq
    rw [← heq] at hpresent
    simp [rangeOf] at hpresent
  refine ⟨(c.Update w1 ⟨ns.Name, some ((rangeOf ns.Finalizers).filter
    (fun f => decide (f ≠ FinalizerKubernetes))), ns.DeletionTimestamp⟩).1, ?_⟩
  unfold sync
  rw [hget]
  simp only [newFinalizersLoop_eq_filter, List.nil_append, hne]
  rcases hu : c.Update w1 ⟨ns.Name, some ((rangeOf ns.Finalizers).filter
    (fun f => decide (f ≠ FinalizerKubernetes))), ns.DeletionTimestamp⟩ with ⟨r, w2⟩
  simp only [Bool.false_eq_true, ↓reduceIte]
  repeat' split
  all_goals simp_all

end sweep

end operconfig

namespace operconfig

/-! ## The apply loop -/

section loop

variable {σ Spec Boot : Type}

theorem LoopOutcome.after_after (t1 t2 : List (Event Spec)) (o : LoopOutcome σ Spec) :
    (o.after t2).after t1 = o.after (t1 ++ t2) := by
  simp [LoopOutcome.after]

theorem hasIgnoreObjectError_withOwnerReferences (obj : Unstructured)
    (refs : List OwnerReference) :
    hasIgnoreObjectError (obj.withOwnerReferences refs) = hasIgnoreObjectError obj := rfl

theorem describe_withOwnerReferences (obj : Unstructured) (refs : List OwnerReference) :
    (obj.withOwnerReferences refs).describe = obj.describe := rfl

/-- The loop over `done ++ remaining`, when the loop over `done` runs to its
end, is the loop over `remaining` started where `done` left off. -/
theorem applyLoop_append (c : Collaborators σ Spec Boot) (operConfig : Network Spec)
    (done remaining : List Unstructured) (w w1 : σ) (t1 : List (Event Spec))
    (hdone : applyLoop c operConfig done w = ⟨none, t1, w1⟩) :
    applyLoop c operConfig (done ++ remaining) w =
      (applyLoop c operConfig remaining w1).after t1 := by
  induction done generalizing w t1 with
  | nil =>
    rw [applyLoop_nil] at hdone
    cases hdone
    simp [LoopOutcome.after]
  | cons obj rest ih =>
    rcases hset : c.SetControllerReference operConfig obj with err0 | refs
    · rw [applyLoop_cons_reference_error c operConfig obj rest w err0 hset] at hdone
      cases hdone
    · rcases happly : c.ApplyObject w (obj.withOwnerReferences refs) with ⟨r, w2⟩
      rcases hrest : applyLoop c operConfig rest w2 with ⟨e2, t2, w3⟩
      cases r with
      | none =>
        rw [applyLoop_cons_applied c operConfig obj rest w w2 refs hset happly, hrest] at hdone
        simp only [LoopOutcome.after, LoopOutcome.mk.injEq] at hdone
        obtain ⟨rfl, rfl, rfl⟩ := hdone
        rw [List.cons_append,
          applyLoop_cons_applied c operConfig obj (rest ++ remaining) w w2 refs hset happly,
          ih w2 t2 hrest, LoopOutcome.after_after]
      | some err0 =>
        cases hanno : hasIgnoreObjectError (obj.withOwnerReferences refs) with
        | true =>
          rw [applyLoop_cons_ignored c operConfig obj rest w w2 refs err0 hset happly hanno,
            hrest] at hdone
          simp only [LoopOutcome.after, LoopOutcome.mk.injEq] at hdone
          obtain ⟨rfl, rfl, rfl⟩ := hdone
          rw [List.cons_append,
            applyLoop_cons_ignored c operConfig obj (rest ++ remaining) w w2 refs err0 hset
              happly hanno,
            ih w2 t2 hrest, LoopOutcome.after_after]
        | false =>
          rw [applyLoop_cons_aborted c operConfig obj rest w w2 refs err0 hset happly hanno]
            at hdone
          cases hdone

/-- A failed apply of an object without the annotation ends the loop: the loop
returns the wrapped error, and its last two calls are that apply and
`SetDegraded`. -/
theorem applyLoop_unignored_failure (c : Collaborators σ Spec Boot) (operConfig : Network Spec)
    (objs : List Unstructured) (w : σ) (obj : Unstructured) (err0 : GoError)
    (h : Event.ApplyObject obj (some err0) ∈ (applyLoop c operConfig objs w).trace)
    (hanno : hasIgnoreObjectError obj = false) :
    (applyLoop c operConfig objs w).err = some (Wrapf err0 ("could not apply " ++ obj.describe)) ∧
    ∃ t, (applyLoop c operConfig objs w).trace = t ++
      [.ApplyObject obj (some err0),
        .SetDegraded .OperatorConfig "ApplyOperatorConfig"
          ("Error while updating operator configuration: " ++
            (Wrapf err0 ("could not apply " ++ obj.describe)).Error)] := by
  induction objs generalizing w with
  | nil => simp [applyLoop] at h
  | cons o rest ih =>
    rcases hset : c.SetControllerReference operConfig o with e0 | refs
    · rw [applyLoop_cons_reference_error c operConfig o rest w e0 hset] at h
      simp at h
    · rcases happly : c.ApplyObject w (o.withOwnerReferences refs) with ⟨r, w2⟩
      cases r with
      | none =>
        rw [applyLoop_cons_applied c operConfig o rest w w2 refs hset happly] at h ⊢
        simp [LoopOutcome.after] at h
        obtain ⟨herr, t, ht⟩ := ih w2 h
        refine ⟨herr, Event.SetControllerReference operConfig o (.ok refs) ::
          Event.ApplyObject (o.withOwnerReferences refs) none :: t, ?_⟩
        simp [LoopOutcome.after, ht]
      | some e1 =>
        cases hanno1 : hasIgnoreObjectError (o.withOwnerReferences refs) with
        | true =>
          rw [applyLoop_cons_ignored c operConfig o rest w w2 refs e1 hset happly hanno1] at h ⊢
          simp [LoopOutcome.after] at h
          rcases h with ⟨rfl, rfl⟩ | h
          · rw [hanno] at hanno1
            cases hanno1
          · obtain ⟨herr, t, ht⟩ := ih w2 h
            refine ⟨herr, Event.SetControllerReference operConfig o (.ok refs) ::
              Event.ApplyObject (o.withOwnerReferences refs) (some e1) :: t, ?_⟩
            simp [LoopOutcome.after, ht]
        | false =>
          rw [applyLoop_cons_aborted c operConfig o rest w w2 refs e1 hset happly hanno1] at h ⊢
          simp at h
          obtain ⟨rfl, rfl⟩ := h
          exact ⟨rfl, [Event.SetControllerReference operConfig o (.ok refs)], by simp⟩

/-- The text of the error the apply loop returns for a failed apply. -/
theorem could_not_apply_message (obj : Unstructured) (err0 : GoError) :
    (Wrapf err0 ("could not apply " ++ obj.describe)).Error =
      "could not apply (" ++ obj.GroupVersionKind.String ++ ") " ++ obj.Namespace ++ "/" ++
        obj.Name ++ ": " ++ err0.Error := by
  have hlit : "could not apply " ++ "(" = "could not apply (" := by decide
  simp only [Wrapf, GoError.Error, Unstructured.describe, String.append_assoc]
  rw [← String.append_assoc "could not apply " "(", hlit]

end loop

end operconfig

namespace operconfig

section applyFailure

variable {σ Spec Boot : Type}

theorem reconcileStatus_no_ApplyObject (c : Collaborators σ Spec Boot)
    (operConfig : Network Spec) (w : σ) (obj : Unstructured) (r : Option GoError) :
    Event.ApplyObject obj r ∉ (reconcileStatus c operConfig w).trace := by
  unfold reconcileStatus
  repeat' split
  all_goals simp

theorem applyLoop_no_ApplyObjectStatus (c : Collaborators σ Spec Boot)
    (operConfig : Network Spec) (objs : List Unstructured) (w : σ) (status : Unstructured)
    (r : Option GoError) :
    Event.ApplyObjectStatus status r ∉ (applyLoop c operConfig objs w).trace := by
  intro h
  have := applyLoop_trace_inApplyLoop c operConfig objs w _ h
  cases this

/-- What an unignored apply failure leaves behind, as a property of an outcome:
the wrapped error is returned, the trace ends with the failed apply and
`SetDegraded`, and the status object was not applied. -/
theorem reconcileObjects_unignored_failure (c : Collaborators σ Spec Boot)
    (operConfig : Network Spec) (objs : List Unstructured) (w : σ) (obj : Unstructured)
    (err0 : GoError)
    (h : Event.ApplyObject obj (some err0) ∈ (reconcileObjects c operConfig objs w).trace)
    (hanno : hasIgnoreObjectError obj = false) :
    (reconcileObjects c operConfig objs w).ret =
      some (Result.empty, some (Wrapf err0 ("could not apply " ++ obj.describe))) ∧
    (∃ t, (reconcileObjects c operConfig objs w).trace = t ++
      [.ApplyObject obj (some err0),
        .SetDegraded .OperatorConfig "ApplyOperatorConfig"
          ("Error while updating operator configuration: " ++
            (Wrapf err0 ("could not apply " ++ obj.describe)).Error)]) ∧
    ∀ status r, Event.ApplyObjectStatus status r ∉ (reconcileObjects c operConfig objs w).trace := by
  generalize hout : reconcileObjects c operConfig objs w = out at h ⊢
  unfold reconcileObjects at hout
  dsimp only at hout
  split at hout
  · subst hout
    simp at h
  · rename_i w1 hrun
    split at hout
    · rename_i err herr
      subst hout
      simp only [List.mem_append, List.mem_cons, List.mem_singleton, List.not_mem_nil,
        reduceCtorEq, false_or, or_false] at h
      obtain ⟨herr2, t, ht⟩ := applyLoop_unignored_failure c operConfig objs w1 obj err0 h hanno
      rw [herr] at herr2
      cases herr2
      refine ⟨rfl, ?_, fun status r hmem => ?_⟩
      · dsimp only
        rw [ht]
        exact ⟨_, (List.append_assoc _ _ _).symm⟩
      simp only [List.mem_append, List.mem_cons, List.mem_singleton, List.not_mem_nil,
        reduceCtorEq, false_or, or_false] at hmem
      exact applyLoop_no_ApplyObjectStatus c operConfig objs w1 status r hmem
    · rename_i herr
      subst hout
      simp only [Outcome.after, List.mem_append, List.mem_cons, List.mem_singleton,
        List.not_mem_nil, reduceCtorEq, false_or, or_false] at h
      rcases h with h | h
      · obtain ⟨herr2, -⟩ := applyLoop_unignored_failure c operConfig objs w1 obj err0 h hanno
        rw [herr] at herr2
        cases herr2
      · exact absurd h (reconcileStatus_no_ApplyObject c operConfig _ obj _)

theorem reconcileRender_unignored_failure (c : Collaborators σ Spec Boot)
    (operConfig : Network Spec) (w : σ) (obj : Unstructured) (err0 : GoError)
    (h : Event.ApplyObject obj (some err0) ∈ (reconcileRender c operConfig w).trace)
    (hanno : hasIgnoreObjectError obj = false) :
    (reconcileRender c operConfig w).ret =
      some (Result.empty, some (Wrapf err0 ("could not apply " ++ obj.describe))) ∧
    (∃ t, (reconcileRender c operConfig w).trace = t ++
      [.ApplyObject obj (some err0),
        .SetDegraded .OperatorConfig "ApplyOperatorConfig"
          ("Error while updating operator configuration: " ++
            (Wrapf err0 ("could not apply " ++ obj.describe)).Error)]) ∧
    ∀ status r, Event.ApplyObjectStatus status r ∉ (reconcileRender c operConfig w).trace := by
  generalize hout : reconcileRender c operConfig w = out at h ⊢
  unfold reconcileRender at hout
  repeat' (first | split at hout | dsimp only at hout)
  all_goals subst hout
  all_goals try simp [Outcome.after] at h
  obtain ⟨hret, ⟨t, ht⟩, hno⟩ := reconcileObjects_unignored_failure c operConfig _ _ obj err0 h hanno
  refine ⟨hret, ?_, fun status r hmem => ?_⟩
  · dsimp only [Outcome.after]
    simp only [List.singleton_append]
    rw [ht]
    exact ⟨_, (List.append_assoc _ _ _).symm⟩
  · simp [Outcome.after] at hmem
    exact hno status r hmem

end applyFailure

end operconfig

namespace operconfig

/-! ## Calls that stand right after another call -/

section preceded

variable {α : Type} {B : α → Prop} {R : α → α → Prop}

theorem eachPreceded_of_forall_not {l : List α} (h : ∀ e ∈ l, ¬ B e) : EachPreceded B R l := by
  intro t b rest hl hb
  exact absurd hb (h b (by simp [hl]))

theorem eachPreceded_append {l1 l2 : List α} (h1 : EachPreceded B R l1)
    (h2 : EachPreceded B R l2) : EachPreceded B R (l1 ++ l2) := by
  intro t b rest hl hb
  rcases List.append_eq_append_iff.mp hl with ⟨a1, ht, hl2⟩ | ⟨c1, hl1, hc⟩
  · obtain ⟨t0, a, ha, hR⟩ := h2 a1 b rest hl2 hb
    exact ⟨l1 ++ t0, a, by simp [ht, ha], hR⟩
  · cases c1 with
    | nil =>
      simp only [List.nil_append] at hc
      obtain ⟨t0, a, ha, -⟩ := h2 [] b rest hc.symm hb
      simp at ha
    | cons x c2 =>
      simp only [List.cons_append, List.cons.injEq] at hc
      obtain ⟨rfl, -⟩ := hc
      exact h1 t b c2 hl1 hb

theorem eachPreceded_pair {a b : α} (ha : ¬ B a) (hR : R a b) : EachPreceded B R [a, b] := by
  intro t x rest hl hx
  match t, hl with
  | [], hl =>
    simp only [List.nil_append, List.cons.injEq] at hl
    exact absurd (hl.1 ▸ hx) ha
  | [y], hl =>
    simp only [List.cons_append, List.nil_append, List.cons.injEq] at hl
    obtain ⟨rfl, rfl, -⟩ := hl
    exact ⟨[], _, rfl, hR⟩
  | y :: z :: t2, hl =>
    simp at hl

theorem eachPreceded_mono {R2 : α → α → Prop} {l : List α} (h : EachPreceded B R l)
    (hR : ∀ a b, a ∈ l → R a b → R2 a b) : EachPreceded B R2 l := by
  intro t b rest hl hb
  obtain ⟨t0, a, ha, hab⟩ := h t b rest hl hb
  exact ⟨t0, a, ha, hR a b (by simp [hl, ha]) hab⟩

end preceded

end operconfig

namespace operconfig

section owner

variable {σ Spec Boot : Type}

theorem not_isApplyObject_of_afterSafetyCheck (e : Event Spec)
    (h : e.afterSafetyCheck = false) : ¬ e.isApplyObject := by
  rintro ⟨obj, r, rfl⟩
  cases h

theorem not_isApplyObjectStatus_of_afterSafetyCheck (e : Event Spec)
    (h : e.afterSafetyCheck = false) : ¬ e.isApplyObjectStatus := by
  rintro ⟨obj, r, rfl⟩
  cases h

theorem not_isApplyObjectStatus_of_inApplyLoop (e : Event Spec)
    (h : e.inApplyLoop = true) : ¬ e.isApplyObjectStatus := by
  rintro ⟨obj, r, rfl⟩
  cases h

theorem applyLoop_owner_set (c : Collaborators σ Spec Boot) (operConfig : Network Spec)
    (objs : List Unstructured) (w : σ) :
    EachPreceded Event.isApplyObject (ownerSetFor c (fun owner => owner = operConfig))
      (applyLoop c operConfig objs w).trace := by
  induction objs generalizing w with
  | nil =>
    rw [applyLoop_nil]
    exact eachPreceded_of_forall_not (by simp)
  | cons obj rest ih =>
    have hpair : ∀ refs r, c.SetControllerReference operConfig obj = .ok refs →
        EachPreceded Event.isApplyObject (ownerSetFor c (fun owner => owner = operConfig))
          [Event.SetControllerReference operConfig obj (.ok refs),
            Event.ApplyObject (obj.withOwnerReferences refs) r] := by
      intro refs r hset
      refine eachPreceded_pair ?_ ?_
      · rintro ⟨o, r1, h⟩
        cases h
      · intro applied r1 h
        cases h
        exact ⟨operConfig, obj, refs, rfl, hset, rfl, rfl⟩
    rcases hset : c.SetControllerReference operConfig obj with err0 | refs
    · rw [applyLoop_cons_reference_error c operConfig obj rest w err0 hset]
      refine eachPreceded_of_forall_not ?_
      intro e he
      simp only [List.mem_cons, List.mem_singleton, List.not_mem_nil, or_false] at he
      rcases he with rfl | rfl <;> (rintro ⟨o, r1, h⟩; cases h)
    · rcases happly : c.ApplyObject w (obj.withOwnerReferences refs) with ⟨r, w2⟩
      cases r with
      | none =>
        rw [applyLoop_cons_applied c operConfig obj rest w w2 refs hset happly]
        exact eachPreceded_append (hpair refs none hset) (ih w2)
      | some e1 =>
        cases hanno1 : hasIgnoreObjectError (obj.withOwnerReferences refs) with
        | true =>
          rw [applyLoop_cons_ignored c operConfig obj rest w w2 refs e1 hset happly hanno1]
          exact eachPreceded_append (hpair refs (some e1) hset) (ih w2)
        | false =>
          rw [applyLoop_cons_aborted c operConfig obj rest w w2 refs e1 hset happly hanno1]
          refine @eachPreceded_append _ _ _ _ [_] (hpair refs (some e1) hset)
            (eachPreceded_of_forall_not ?_)
          intro e he
          simp only [List.mem_singleton] at he
          subst he
          rintro ⟨o, r1, h⟩
          cases h

theorem reconcileStatus_status_computed (c : Collaborators σ Spec Boot)
    (operConfig : Network Spec) (w : σ) :
    EachPreceded Event.isApplyObjectStatus statusComputedFor
      (reconcileStatus c operConfig w).trace := by
  unfold reconcileStatus
  repeat' split
  · refine eachPreceded_of_forall_not ?_
    intro e he
    simp only [List.mem_cons, List.mem_singleton, List.not_mem_nil, or_false] at he
    rcases he with rfl | rfl | rfl <;> (rintro ⟨o, r1, h⟩; cases h)
  · refine eachPreceded_of_forall_not ?_
    intro e he
    simp only [List.mem_cons, List.mem_singleton, List.not_mem_nil, or_false] at he
    rcases he with rfl | rfl | rfl <;> (rintro ⟨o, r1, h⟩; cases h)
  all_goals
    refine @eachPreceded_append _ _ _ [_] (_ :: _ :: _)
      (eachPreceded_of_forall_not ?_)
      (@eachPreceded_append _ _ _ [_, _] [_] (eachPreceded_pair ?_ ?_)
        (eachPreceded_of_forall_not ?_))
    · intro e he
      simp only [List.mem_singleton] at he
      subst he
      rintro ⟨o, r1, h⟩
      cases h
    · rintro ⟨o, r1, h⟩
      cases h
    · intro status r h
      cases h
      rfl
    · intro e he
      simp only [List.mem_singleton] at he
      subst he
      rintro ⟨o, r1, h⟩
      cases h

theorem eachPreceded_applyObject_of_not_mem {R : Event Spec → Event Spec → Prop}
    {l : List (Event Spec)} (h : ∀ obj r, Event.ApplyObject obj r ∉ l) :
    EachPreceded Event.isApplyObject R l := by
  refine eachPreceded_of_forall_not ?_
  rintro e he ⟨obj, r, rfl⟩
  exact h obj r he

theorem eachPreceded_status_of_not_mem {R : Event Spec → Event Spec → Prop}
    {l : List (Event Spec)} (h : ∀ status r, Event.ApplyObjectStatus status r ∉ l) :
    EachPreceded Event.isApplyObjectStatus R l := by
  refine eachPreceded_of_forall_not ?_
  rintro e he ⟨status, r, rfl⟩
  exact h status r he

theorem reconcileObjects_owner_and_status (c : Collaborators σ Spec Boot)
    (operConfig : Network Spec) (objs : List Unstructured) (w : σ) :
    EachPreceded Event.isApplyObject (ownerSetFor c (fun owner => owner = operConfig))
      (reconcileObjects c operConfig objs w).trace ∧
    EachPreceded Event.isApplyObjectStatus statusComputedFor
      (reconcileObjects c operConfig objs w).trace := by
  unfold reconcileObjects
  dsimp only
  split
  · exact ⟨eachPreceded_applyObject_of_not_mem (by simp),
      eachPreceded_status_of_not_mem (by simp)⟩
  · split
    · exact ⟨eachPreceded_append (eachPreceded_applyObject_of_not_mem (by simp))
          (applyLoop_owner_set c operConfig objs _),
        eachPreceded_append (eachPreceded_status_of_not_mem (by simp))
          (eachPreceded_status_of_not_mem
            (fun status r => applyLoop_no_ApplyObjectStatus c operConfig objs _ status r))⟩
    · dsimp only [Outcome.after]
      exact ⟨eachPreceded_append
          (eachPreceded_append (eachPreceded_applyObject_of_not_mem (by simp))
            (applyLoop_owner_set c operConfig objs _))
          (eachPreceded_applyObject_of_not_mem
            (fun obj r => reconcileStatus_no_ApplyObject c operConfig _ obj r)),
        eachPreceded_append
          (eachPreceded_append (eachPreceded_status_of_not_mem (by simp))
            (eachPreceded_status_of_not_mem
              (fun status r => applyLoop_no_ApplyObjectStatus c operConfig objs _ status r)))
          (reconcileStatus_status_computed c operConfig _)⟩

theorem reconcileRender_owner_and_status (c : Collaborators σ Spec Boot)
    (operConfig : Network Spec) (w : σ) :
    EachPreceded Event.isApplyObject (ownerSetFor c (fun owner => owner = operConfig))
      (reconcileRender c operConfig w).trace ∧
    EachPreceded Event.isApplyObjectStatus statusComputedFor
      (reconcileRender c operConfig w).trace := by
  unfold reconcileRender
  repeat' split
  iterate 3
    exact ⟨eachPreceded_applyObject_of_not_mem (by simp),
      eachPreceded_status_of_not_mem (by simp)⟩
  dsimp only [Outcome.after]
  exact ⟨eachPreceded_append (eachPreceded_applyObject_of_not_mem (by simp))
      (reconcileObjects_owner_and_status c operConfig _ _).1,
    eachPreceded_append (eachPreceded_status_of_not_mem (by simp))
      (reconcileObjects_owner_and_status c operConfig _ _).2⟩

end owner

end operconfig

namespace operconfig

/-! ## The order of the apply calls -/

section order

variable {σ Spec Boot : Type}

theorem applyCalls_append (l1 l2 : List (Event Spec)) :
    applyCalls (l1 ++ l2) = applyCalls l1 ++ applyCalls l2 := by
  induction l1 with
  | nil => simp [applyCalls]
  | cons e rest ih => cases e <;> simp [applyCalls, ih]

theorem applyLoop_applyCalls (c : Collaborators σ Spec Boot) (operConfig : Network Spec)
    (objs : List Unstructured) (w : σ) (h : (applyLoop c operConfig objs w).err = none) :
    List.Forall₂ (ownedVersionOf c operConfig)
      (applyCalls (applyLoop c operConfig objs w).trace) objs := by
  induction objs generalizing w with
  | nil => simp [applyLoop, applyCalls]
  | cons obj rest ih =>
    rcases hset : c.SetControllerReference operConfig obj with err0 | refs
    · rw [applyLoop_cons_reference_error c operConfig obj rest w err0 hset] at h
      cases h
    · rcases happly : c.ApplyObject w (obj.withOwnerReferences refs) with ⟨r, w2⟩
      cases r with
      | none =>
        rw [applyLoop_cons_applied c operConfig obj rest w w2 refs hset happly] at h ⊢
        simp only [LoopOutcome.after, List.cons_append, List.nil_append, applyCalls]
        exact List.Forall₂.cons ⟨refs, hset, rfl⟩ (ih w2 h)
      | some e1 =>
        cases hanno1 : hasIgnoreObjectError (obj.withOwnerReferences refs) with
        | true =>
          rw [applyLoop_cons_ignored c operConfig obj rest w w2 refs e1 hset happly hanno1] at h ⊢
          simp only [LoopOutcome.after, List.cons_append, List.nil_append, applyCalls]
          exact List.Forall₂.cons ⟨refs, hset, rfl⟩ (ih w2 h)
        | false =>
          rw [applyLoop_cons_aborted c operConfig obj rest w w2 refs e1 hset happly hanno1] at h
          cases h

theorem reconcileStatus_applyCalls (c : Collaborators σ Spec Boot) (operConfig : Network Spec)
    (w : σ) (res : Except GoError (Option Unstructured))
    (h : Event.ClusterNetworkStatus res ∈ (reconcileStatus c operConfig w).trace) :
    applyCalls (reconcileStatus c operConfig w).trace = computedStatus res := by
  generalize hout : reconcileStatus c operConfig w = out at h ⊢
  unfold reconcileStatus at hout
  repeat' (first | split at hout | dsimp only at hout)
  all_goals subst hout
  all_goals simp at h
  all_goals subst h
  all_goals simp [applyCalls, computedStatus]

theorem applyLoop_no_ClusterNetworkStatus (c : Collaborators σ Spec Boot)
    (operConfig : Network Spec) (objs : List Unstructured) (w : σ)
    (res : Except GoError (Option Unstructured)) :
    Event.ClusterNetworkStatus res ∉ (applyLoop c operConfig objs w).trace := by
  intro h
  have := applyLoop_trace_inApplyLoop c operConfig objs w _ h
  cases this

theorem reconcileObjects_applyCalls (c : Collaborators σ Spec Boot) (operConfig : Network Spec)
    (objs : List Unstructured) (w : σ) (res : Except GoError (Option Unstructured))
    (h : Event.ClusterNetworkStatus res ∈ (reconcileObjects c operConfig objs w).trace) :
    ∃ applied,
      applyCalls (reconcileObjects c operConfig objs w).trace = applied ++ computedStatus res ∧
      List.Forall₂ (ownedVersionOf c operConfig) applied objs := by
  generalize hout : reconcileObjects c operConfig objs w = out at h ⊢
  unfold reconcileObjects at hout
  dsimp only at hout
  split at hout
  · subst hout
    simp at h
  · rename_i w1 hrun
    split at hout
    · subst hout
      simp only [List.mem_append, List.mem_cons, List.mem_singleton, List.not_mem_nil,
        reduceCtorEq, false_or, or_false] at h
      exact absurd h (applyLoop_no_ClusterNetworkStatus c operConfig objs w1 res)
    · rename_i herr
      subst hout
      simp only [Outcome.after, List.mem_append, List.mem_cons, List.mem_singleton,
        List.not_mem_nil, reduceCtorEq, false_or, or_false] at h
      rcases h with h | h
      · exact absurd h (applyLoop_no_ClusterNetworkStatus c operConfig objs w1 res)
      · refine ⟨applyCalls (applyLoop c operConfig objs w1).trace, ?_,
          applyLoop_applyCalls c operConfig objs w1 herr⟩
        simp only [Outcome.after, applyCalls_append, reconcileStatus_applyCalls c operConfig _ res h]
        simp [applyCalls]

theorem reconcileObjects_trace_afterRender (c : Collaborators σ Spec Boot)
    (operConfig : Network Spec) (objs : List Unstructured) (w : σ) :
    ∀ e ∈ (reconcileObjects c operConfig objs w).trace, e.afterRender = true := by
  have hloop : ∀ w1, ∀ e ∈ (applyLoop c operConfig objs w1).trace, e.afterRender = true := by
    intro w1 e he
    have := applyLoop_trace_inApplyLoop c operConfig objs w1 e he
    cases e <;> first | rfl | cases this
  have hstatus : ∀ w1, ∀ e ∈ (reconcileStatus c operConfig w1).trace, e.afterRender = true := by
    intro w1 e he
    unfold reconcileStatus at he
    repeat' (split at he)
    all_goals
      simp only [List.mem_cons, List.mem_singleton, List.not_mem_nil, or_false] at he
      rcases he with rfl | rfl | rfl | rfl <;> rfl
  intro e he
  unfold reconcileObjects at he
  dsimp only at he
  split at he
  · simp at he
    subst he
    rfl
  · split at he
    · simp only [List.mem_append, List.mem_cons, List.mem_singleton, List.not_mem_nil,
        or_false] at he
      rcases he with (rfl | rfl | rfl | rfl | rfl) | he
      · rfl
      · rfl
      · rfl
      · rfl
      · rfl
      · exact hloop _ e he
    · simp only [Outcome.after, List.mem_append, List.mem_cons, List.mem_singleton,
        List.not_mem_nil, or_false] at he
      rcases he with ((rfl | rfl | rfl | rfl | rfl) | he) | he
      · rfl
      · rfl
      · rfl
      · rfl
      · rfl
      · exact hloop _ e he
      · exact hstatus _ e he

theorem reconcileRender_applyCalls (c : Collaborators σ Spec Boot) (operConfig : Network Spec)
    (w : σ) (spec : Spec) (objs : List Unstructured) (cfg : Network Spec) (app : Unstructured)
    (res : Except GoError (Option Unstructured))
    (hrender : Event.Render spec (.ok objs) ∈ (reconcileRender c operConfig w).trace)
    (happ : Event.AppliedConfiguration cfg (.ok app) ∈ (reconcileRender c operConfig w).trace)
    (hstatus : Event.ClusterNetworkStatus res ∈ (reconcileRender c operConfig w).trace) :
    ∃ applied,
      applyCalls (reconcileRender c operConfig w).trace = applied ++ computedStatus res ∧
      List.Forall₂ (ownedVersionOf c cfg) applied (app :: objs) := by
  generalize hout : reconcileRender c operConfig w = out at hrender happ hstatus ⊢
  unfold reconcileRender at hout
  repeat' (first | split at hout | dsimp only at hout)
  all_goals subst hout
  all_goals try simp [Outcome.after] at hstatus
  simp only [Outcome.after, List.mem_append, List.mem_cons, List.mem_singleton,
    List.not_mem_nil, reduceCtorEq, false_or, or_false, Event.Render.injEq,
    Event.AppliedConfiguration.injEq, Except.ok.injEq] at hrender happ
  rcases hrender with ⟨rfl, rfl⟩ | h
  swap
  · have := reconcileObjects_trace_afterRender c operConfig _ _ _ h
    cases this
  rcases happ with ⟨rfl, rfl⟩ | h
  swap
  · have := reconcileObjects_trace_afterRender c operConfig _ _ _ h
    cases this
  obtain ⟨applied, h1, h2⟩ := reconcileObjects_applyCalls c cfg _ _ res hstatus
  refine ⟨applied, ?_, h2⟩
  simp [Outcome.after, applyCalls_append, applyCalls, h1]

end order

end operconfig

namespace operconfig

/-! ## Calls that are directly followed by another call -/

section followed

variable {α : Type} {B : α → Prop} {R : α → α → Prop}

theorem eachFollowed_of_forall_not {l : List α} (h : ∀ e ∈ l, ¬ B e) : EachFollowed B R l := by
  intro t b rest hl hb
  exact absurd hb (h b (by simp [hl]))

theorem eachFollowed_append {l1 l2 : List α} (h1 : EachFollowed B R l1)
    (h2 : EachFollowed B R l2) : EachFollowed B R (l1 ++ l2) := by
  intro t b rest hl hb
  rcases List.append_eq_append_iff.mp hl with ⟨a1, ht, hl2⟩ | ⟨c1, hl1, hc⟩
  · exact h2 a1 b rest hl2 hb
  · cases c1 with
    | nil =>
      simp only [List.nil_append] at hc
      exact h2 [] b rest hc.symm hb
    | cons x c2 =>
      simp only [List.cons_append, List.cons.injEq] at hc
      obtain ⟨rfl, rfl⟩ := hc
      obtain ⟨a, rest1, hrest, hR⟩ := h1 t b c2 hl1 hb
      exact ⟨a, rest1 ++ l2, by rw [hrest]; rfl, hR⟩

theorem eachFollowed_pair {a b : α} (hb : ¬ B b) (hR : R a b) : EachFollowed B R [a, b] := by
  intro t x rest hl hx
  match t, hl with
  | [], hl =>
    simp only [List.nil_append, List.cons.injEq] at hl
    obtain ⟨rfl, rfl⟩ := hl
    exact ⟨_, [], rfl, hR⟩
  | [y], hl =>
    simp only [List.cons_append, List.nil_append, List.cons.injEq] at hl
    exact absurd (hl.2.1 ▸ hx) hb
  | y :: z :: t2, hl =>
    simp at hl

end followed

section forward

variable {σ Spec Boot : Type}

theorem eachFollowed_of_not_mem {R : Event Spec → Event Spec → Prop} {l : List (Event Spec)}
    (h : ∀ owner obj refs, Event.SetControllerReference owner obj (.ok refs) ∉ l) :
    EachFollowed Event.isReferenceSet R l := by
  refine eachFollowed_of_forall_not ?_
  rintro e he ⟨owner, obj, refs, rfl⟩
  exact h owner obj refs he

/-- In the apply loop every successful `SetControllerReference` is directly
followed by the apply of the object it was made on, with the owner references
it returned. -/
theorem applyLoop_reference_applied (c : Collaborators σ Spec Boot) (operConfig : Network Spec)
    (objs : List Unstructured) (w : σ) :
    EachFollowed Event.isReferenceSet appliedWith (applyLoop c operConfig objs w).trace := by
  induction objs generalizing w with
  | nil =>
    rw [applyLoop_nil]
    exact eachFollowed_of_forall_not (by simp)
  | cons obj rest ih =>
    have hpair : ∀ refs r,
        EachFollowed Event.isReferenceSet appliedWith
          [Event.SetControllerReference operConfig obj (.ok refs),
            Event.ApplyObject (obj.withOwnerReferences refs) r] := by
      intro refs r
      refine eachFollowed_pair ?_ ?_
      · rintro ⟨owner, o, refs1, h⟩
        cases h
      · intro owner o refs1 h
        cases h
        exact ⟨r, rfl⟩
    rcases hset : c.SetControllerReference operConfig obj with err0 | refs
    · rw [applyLoop_cons_reference_error c operConfig obj rest w err0 hset]
      refine eachFollowed_of_forall_not ?_
      intro e he
      simp only [List.mem_cons, List.mem_singleton, List.not_mem_nil, or_false] at he
      rcases he with rfl | rfl <;> (rintro ⟨owner, o, refs1, h⟩; cases h)
    · rcases happly : c.ApplyObject w (obj.withOwnerReferences refs) with ⟨r, w2⟩
      cases r with
      | none =>
        rw [applyLoop_cons_applied c operConfig obj rest w w2 refs hset happly]
        exact eachFollowed_append (hpair refs none) (ih w2)
      | some e1 =>
        cases hanno1 : hasIgnoreObjectError (obj.withOwnerReferences refs) with
        | true =>
          rw [applyLoop_cons_ignored c operConfig obj rest w w2 refs e1 hset happly hanno1]
          exact eachFollowed_append (hpair refs (some e1)) (ih w2)
        | false =>
          rw [applyLoop_cons_aborted c operConfig obj rest w w2 refs e1 hset happly hanno1]
          refine @eachFollowed_append _ _ _ [_, _] [_] (hpair refs (some e1))
            (eachFollowed_of_forall_not ?_)
          intro e he
          simp only [List.mem_singleton] at he
          subst he
          rintro ⟨owner, o, refs1, h⟩
          cases h

/-- The apply loop starts with `SetControllerReference` on its first object. -/
theorem applyLoop_trace_head (c : Collaborators σ Spec Boot) (operConfig : Network Spec)
    (obj : Unstructured) (rest : List Unstructured) (w : σ) :
    Event.SetControllerReference operConfig obj (c.SetControllerReference operConfig obj) ∈
      (applyLoop c operConfig (obj :: rest) w).trace := by
  rcases hset : c.SetControllerReference operConfig obj with err0 | refs
  · rw [applyLoop_cons_reference_error c operConfig obj rest w err0 hset]
    simp
  · rcases happly : c.ApplyObject w (obj.withOwnerReferences refs) with ⟨r, w2⟩
    cases r with
    | none =>
      rw [applyLoop_cons_applied c operConfig obj rest w w2 refs hset happly]
      simp [LoopOutcome.after]
    | some e1 =>
      cases hanno1 : hasIgnoreObjectError (obj.withOwnerReferences refs) with
      | true =>
        rw [applyLoop_cons_ignored c operConfig obj rest w w2 refs e1 hset happly hanno1]
        simp [LoopOutcome.after]
      | false =>
        rw [applyLoop_cons_aborted c operConfig obj rest w w2 refs e1 hset happly hanno1]
        simp

theorem reconcileStatus_no_SetControllerReference (c : Collaborators σ Spec Boot)
    (operConfig : Network Spec) (w : σ) (owner : Network Spec) (obj : Unstructured)
    (res : Except GoError (List OwnerReference)) :
    Event.SetControllerReference owner obj res ∉ (reconcileStatus c operConfig w).trace := by
  unfold reconcileStatus
  repeat' split
  all_goals simp

theorem reconcileObjects_reference_applied (c : Collaborators σ Spec Boot)
    (operConfig : Network Spec) (objs : List Unstructured) (w : σ) :
    EachFollowed Event.isReferenceSet appliedWith
      (reconcileObjects c operConfig objs w).trace := by
  unfold reconcileObjects
  dsimp only
  split
  · exact eachFollowed_of_not_mem (by simp)
  · split
    · exact eachFollowed_append (eachFollowed_of_not_mem (by simp))
        (applyLoop_reference_applied c operConfig objs _)
    · dsimp only [Outcome.after]
      exact eachFollowed_append
        (eachFollowed_append (eachFollowed_of_not_mem (by simp))
          (applyLoop_reference_applied c operConfig objs _))
        (eachFollowed_of_not_mem
          (fun owner obj refs => reconcileStatus_no_SetControllerReference c operConfig _ _ _ _))

theorem reconcileRender_reference_applied (c : Collaborators σ Spec Boot)
    (operConfig : Network Spec) (w : σ) :
    EachFollowed Event.isReferenceSet appliedWith (reconcileRender c operConfig w).trace := by
  unfold reconcileRender
  repeat' split
  iterate 3 exact eachFollowed_of_not_mem (by simp)
  dsimp only [Outcome.after]
  exact eachFollowed_append (eachFollowed_of_not_mem (by simp))
    (reconcileObjects_reference_applied c operConfig _ _)

/-- Once the namespace controller has handed control back, the apply loop
starts: `SetControllerReference` is called on the first object. -/
theorem reconcileObjects_loop_starts (c : Collaborators σ Spec Boot)
    (operConfig : Network Spec) (obj : Unstructured) (rest : List Unstructured) (w : σ)
    (hrun : Event.RunNamespaceController true ∈
      (reconcileObjects c operConfig (obj :: rest) w).trace) :
    Event.SetControllerReference operConfig obj (c.SetControllerReference operConfig obj) ∈
      (reconcileObjects c operConfig (obj :: rest) w).trace := by
  generalize hout : reconcileObjects c operConfig (obj :: rest) w = out at hrun ⊢
  unfold reconcileObjects at hout
  dsimp only at hout
  split at hout
  · subst hout
    simp at hrun
  · rename_i w1 _
    have hhead := applyLoop_trace_head c operConfig obj rest w1
    split at hout
    · subst hout
      exact List.mem_append_right _ hhead
    · subst hout
      dsimp only [Outcome.after]
      exact List.mem_append_left _ (List.mem_append_right _ hhead)

theorem reconcileRender_loop_starts (c : Collaborators σ Spec Boot)
    (operConfig : Network Spec) (w : σ) (cfg : Network Spec) (app : Unstructured)
    (happ : Event.AppliedConfiguration cfg (.ok app) ∈ (reconcileRender c operConfig w).trace)
    (hrun : Event.RunNamespaceController true ∈ (reconcileRender c operConfig w).trace) :
    Event.SetControllerReference cfg app (c.SetControllerReference cfg app) ∈
      (reconcileRender c operConfig w).trace := by
  generalize hout : reconcileRender c operConfig w = out at happ hrun ⊢
  unfold reconcileRender at hout
  repeat' (first | split at hout | dsimp only at hout)
  all_goals subst hout
  all_goals try simp [Outcome.after] at hrun
  simp only [Outcome.after, List.mem_append, List.mem_cons, List.mem_singleton,
    List.not_mem_nil, reduceCtorEq, false_or, or_false,
    Event.AppliedConfiguration.injEq, Except.ok.injEq] at happ
  rcases happ with ⟨rfl, rfl⟩ | h
  swap
  · have := reconcileObjects_trace_afterRender c operConfig _ _ _ h
    cases this
  dsimp only [Outcome.after]
  exact List.mem_append_right _ (reconcileObjects_loop_starts c cfg app _ _ hrun)

/-- A loop that runs to its end has set the owner reference on every object
and handed every object, with that reference, to `apply.ApplyObject`. -/
theorem applyLoop_all_applied (c : Collaborators σ Spec Boot) (operConfig : Network Spec)
    (objs : List Unstructured) (w : σ) (h : (applyLoop c operConfig objs w).err = none) :
    ∀ obj ∈ objs, ∃ refs r,
      Event.SetControllerReference operConfig obj (.ok refs) ∈
        (applyLoop c operConfig objs w).trace ∧
      Event.ApplyObject (obj.withOwnerReferences refs) r ∈
        (applyLoop c operConfig objs w).trace := by
  induction objs generalizing w with
  | nil => simp
  | cons o rest ih =>
    have step : ∀ (refs : List OwnerReference) (r1 : Option GoError) (w2 : σ),
        (applyLoop c operConfig rest w2).err = none →
        ∀ obj ∈ o :: rest, ∃ refs1 r,
          Event.SetControllerReference operConfig obj (.ok refs1) ∈
            ((applyLoop c operConfig rest w2).after
              [.SetControllerReference operConfig o (.ok refs),
                .ApplyObject (o.withOwnerReferences refs) r1]).trace ∧
          Event.ApplyObject (obj.withOwnerReferences refs1) r ∈
            ((applyLoop c operConfig rest w2).after
              [.SetControllerReference operConfig o (.ok refs),
                .ApplyObject (o.withOwnerReferences refs) r1]).trace := by
      intro refs r1 w2 herr obj hobj
      rcases List.mem_cons.mp hobj with rfl | hobj
      · exact ⟨refs, r1, by simp [LoopOutcome.after], by simp [LoopOutcome.after]⟩
      · obtain ⟨refs1, r, h1, h2⟩ := ih w2 herr obj hobj
        exact ⟨refs1, r, by simp [LoopOutcome.after, h1], by simp [LoopOutcome.after, h2]⟩
    rcases hset : c.SetControllerReference operConfig o with err0 | refs
    · rw [applyLoop_cons_reference_error c operConfig o rest w err0 hset] at h
      cases h
    · rcases happly : c.ApplyObject w (o.withOwnerReferences refs) with ⟨r, w2⟩
      cases r with
      | none =>
        rw [applyLoop_cons_applied c operConfig o rest w w2 refs hset happly] at h ⊢
        exact step refs none w2 h
      | some e1 =>
        cases hanno1 : hasIgnoreObjectError (o.withOwnerReferences refs) with
        | true =>
          rw [applyLoop_cons_ignored c operConfig o rest w w2 refs e1 hset happly hanno1] at h ⊢
          exact step refs (some e1) w2 h
        | false =>
          rw [applyLoop_cons_aborted c operConfig o rest w w2 refs e1 hset happly hanno1] at h
          cases h

theorem reconcileObjects_all_applied (c : Collaborators σ Spec Boot)
    (operConfig : Network Spec) (objs : List Unstructured) (w : σ)
    (res : Except GoError (Option Unstructured))
    (h : Event.ClusterNetworkStatus res ∈ (reconcileObjects c operConfig objs w).trace) :
    ∀ obj ∈ objs, ∃ refs r,
      Event.SetControllerReference operConfig obj (.ok refs) ∈
        (reconcileObjects c operConfig objs w).trace ∧
      Event.ApplyObject (obj.withOwnerReferences refs) r ∈
        (reconcileObjects c operConfig objs w).trace := by
  generalize hout : reconcileObjects c operConfig objs w = out at h ⊢
  unfold reconcileObjects at hout
  dsimp only at hout
  split at hout
  · subst hout
    simp at h
  · rename_i w1 hrun
    split at hout
    · subst hout
      simp only [List.mem_append, List.mem_cons, List.mem_singleton, List.not_mem_nil,
        reduceCtorEq, false_or, or_false] at h
      exact absurd h (applyLoop_no_ClusterNetworkStatus c operConfig objs w1 res)
    · rename_i herr
      subst hout
      intro obj hobj
      obtain ⟨refs, r, h1, h2⟩ := applyLoop_all_applied c operConfig objs w1 herr obj hobj
      exact ⟨refs, r, by simp [Outcome.after, h1], by simp [Outcome.after, h2]⟩

theorem reconcileRender_all_applied (c : Collaborators σ Spec Boot) (operConfig : Network Spec)
    (w : σ) (spec : Spec) (objs : List Unstructured) (cfg : Network Spec) (app : Unstructured)
    (res : Except GoError (Option Unstructured))
    (hrender : Event.Render spec (.ok objs) ∈ (reconcileRender c operConfig w).trace)
    (happ : Event.AppliedConfiguration cfg (.ok app) ∈ (reconcileRender c operConfig w).trace)
    (hstatus : Event.ClusterNetworkStatus res ∈ (reconcileRender c operConfig w).trace) :
    ∀ obj ∈ app :: objs, ∃ refs r,
      Event.SetControllerReference cfg obj (.ok refs) ∈ (reconcileRender c operConfig w).trace ∧
      Event.ApplyObject (obj.withOwnerReferences refs) r ∈
        (reconcileRender c operConfig w).trace := by
  generalize hout : reconcileRender c operConfig w = out at hrender happ hstatus ⊢
  unfold reconcileRender at hout
  repeat' (first | split at hout | dsimp only at hout)
  all_goals subst hout
  all_goals try simp [Outcome.after] at hstatus
  simp only [Outcome.after, List.mem_append, List.mem_cons, List.mem_singleton,
    List.not_mem_nil, reduceCtorEq, false_or, or_false, Event.Render.injEq,
    Event.AppliedConfiguration.injEq, Except.ok.injEq] at hrender happ
  rcases hrender with ⟨rfl, rfl⟩ | h
  swap
  · have := reconcileObjects_trace_afterRender c operConfig _ _ _ h
    cases this
  rcases happ with ⟨rfl, rfl⟩ | h
  swap
  · have := reconcileObjects_trace_afterRender c operConfig _ _ _ h
    cases this
  intro obj hobj
  obtain ⟨refs, r, h1, h2⟩ := reconcileObjects_all_applied c cfg _ _ res hstatus obj
    (by simpa using hobj)
  exact ⟨refs, r, by simp [Outcome.after, h1], by simp [Outcome.after, h2]⟩

end forward

end operconfig

namespace operconfig

section reconcile

variable {σ Spec Boot : Type}

/-- Claim C1. When the safety check of `Reconcile` reports an error, `Reconcile`
returns that very error with an empty result, its last call reports degraded
status with reason InvalidOperatorConfig, and it makes no call of
`apply.ApplyObject` at all, neither in the apply loop nor on the status object.
The check is `IsChangeSafe` on the up-converted previous configuration and the
default-filled new one, and it only runs when a previously applied
configuration was retrieved and the merged configuration object has no
network-migration annotation. -/
theorem reconcile_unsafe_change_rejected (c : Collaborators σ Spec Boot) (request : Request)
    (w : σ) (prev next : Spec) (err : GoError)
    (h : Event.IsChangeSafe prev next (some err) ∈ (Reconcile c request w).trace) :
    (Reconcile c request w).ret = some (Result.empty, some err) ∧
    (Reconcile c request w).trace.getLast? =
      some (.SetDegraded .OperatorConfig "InvalidOperatorConfig"
        ("Not applying unsafe configuration change: " ++ err.Error ++
          ". Use \x27oc edit network.operator.openshift.io cluster\x27 to undo the change.")) ∧
    (∀ obj r, Event.ApplyObject obj r ∉ (Reconcile c request w).trace) ∧
    (∀ status r, Event.ApplyObjectStatus status r ∉ (Reconcile c request w).trace) ∧
    ∃ fetched merged prev0,
      Event.MergeClusterConfig fetched (.ok merged) ∈ (Reconcile c request w).trace ∧
      Event.GetAppliedConfiguration merged.Name (.ok (some prev0)) ∈
        (Reconcile c request w).trace ∧
      mapHasKey merged.Annotations names.NetworkMigrationAnnotation = false ∧
      prev = c.FillDefaults prev0 (some prev0) ∧
      next = c.FillDefaults (c.Canonicalize merged.Spec) (some prev) := by
  generalize hout : Reconcile c request w = out at h ⊢
  unfold Reconcile at hout
  repeat' (first | split at hout | dsimp only at hout)
  all_goals subst hout
  all_goals try simp [Outcome.after] at h
  all_goals first
    | exact absurd (reconcileRender_trace_afterSafetyCheck _ _ _ _ h)
        (by simp [Event.afterSafetyCheck])
    | (obtain ⟨rfl, rfl, h3⟩ := h
       cases h3
       refine ⟨by simp, by simp, by simp, by simp, ?_⟩
       simp only [List.cons_append, List.nil_append, List.append_assoc]
       apply Exists.intro
       apply Exists.intro
       apply Exists.intro
       refine And.intro (List.mem_cons_of_mem _ (List.mem_cons_self _ _))
         (And.intro
           (List.mem_cons_of_mem _ (List.mem_cons_of_mem _ (List.mem_cons_of_mem _
             (List.mem_cons_of_mem _ (List.mem_cons_self _ _)))))
           (And.intro ?_ (And.intro rfl rfl)))
       simpa using ‹¬ mapHasKey _ names.NetworkMigrationAnnotation = true›)

/-- Claim C2. Once `Reconcile` has retrieved the previously applied configuration,
if there is none, or if the merged configuration object has the
network-migration annotation key, then `IsChangeSafe` is not called at all (so
no verdict it could give matters) and `Reconcile` goes on to call `Bootstrap`
on the default-filled configuration. -/
theorem reconcile_safety_check_skipped (c : Collaborators σ Spec Boot) (request : Request)
    (w : σ) (operConfig0 operConfig1 : Network Spec) (name : String) (prev0 : Option Spec)
    (hmerge : Event.MergeClusterConfig operConfig0 (.ok operConfig1) ∈
      (Reconcile c request w).trace)
    (hprev : Event.GetAppliedConfiguration name (.ok prev0) ∈ (Reconcile c request w).trace)
    (hskip : prev0 = none ∨
      mapHasKey operConfig1.Annotations names.NetworkMigrationAnnotation = true) :
    (∀ prev next r, Event.IsChangeSafe prev next r ∉ (Reconcile c request w).trace) ∧
    ∃ r, Event.Bootstrap
        (c.FillDefaults (c.Canonicalize operConfig1.Spec)
          (prev0.map (fun p => c.FillDefaults p (some p)))) r ∈
      (Reconcile c request w).trace := by
  generalize hout : Reconcile c request w = out at hmerge hprev ⊢
  unfold Reconcile at hout
  repeat' (first | split at hout | dsimp only at hout)
  all_goals subst hout
  all_goals try replace hmerge := mem_after_of_not_afterSafetyCheck _ _ _ _ _ hmerge rfl
  all_goals try replace hprev := mem_after_of_not_afterSafetyCheck _ _ _ _ _ hprev rfl
  all_goals try simp at hprev
  all_goals try simp at hmerge
  all_goals
    obtain ⟨rfl, rfl⟩ := hprev
    obtain ⟨rfl, rfl⟩ := hmerge
  all_goals first
    | (exfalso
       rcases hskip with h | h
       · cases h
       · exact absurd h (by assumption))
    | (refine ⟨fun p n r hmem => ?_, ?_⟩
       · have := mem_after_of_not_afterSafetyCheck _ _ _ _ _ hmem rfl
         simp at this
       · exact bootstrap_mem_after c _ _ _)

/-- Claim C6. In the apply loop, at any position of any object list: when the
objects before `obj` were processed without the loop returning, and applying
`obj` fails while `obj` carries the ignore-errors annotation, the loop goes on
with the objects after `obj`.  Its calls are those made so far, the owner
reference and the failed apply of `obj` (no `SetDegraded`), then exactly the
calls of the loop over the remaining objects; its error and final world are
those of the loop over the remaining objects, so the ignored failure itself
never becomes the returned error. -/
theorem applyLoop_ignored_failure_continues (c : Collaborators σ Spec Boot)
    (operConfig : Network Spec) (done remaining : List Unstructured) (obj : Unstructured)
    (w w1 w2 : σ) (t1 : List (Event Spec)) (refs : List OwnerReference) (err0 : GoError)
    (hdone : applyLoop c operConfig done w = ⟨none, t1, w1⟩)
    (hset : c.SetControllerReference operConfig obj = .ok refs)
    (happly : c.ApplyObject w1 (obj.withOwnerReferences refs) = (some err0, w2))
    (hanno : hasIgnoreObjectError obj = true) :
    applyLoop c operConfig (done ++ obj :: remaining) w =
      ⟨(applyLoop c operConfig remaining w2).err,
        t1 ++ [.SetControllerReference operConfig obj (.ok refs),
            .ApplyObject (obj.withOwnerReferences refs) (some err0)] ++
          (applyLoop c operConfig remaining w2).trace,
        (applyLoop c operConfig remaining w2).world⟩ := by
  rw [applyLoop_append c operConfig done (obj :: remaining) w w1 t1 hdone,
    applyLoop_cons_ignored c operConfig obj remaining w1 w2 refs err0 hset happly hanno]
  simp [LoopOutcome.after]

/-- Claim C7. When `apply.ApplyObject` fails in the apply loop on an object
without the ignore-errors annotation, `Reconcile` returns, with an empty
result, the error "could not apply (group/version, Kind=kind) namespace/name:
cause"; the failed apply and `SetDegraded` with reason ApplyOperatorConfig are
its last two calls, so no later object is applied, and the status object is
not applied. -/
theorem reconcile_unignored_apply_failure_aborts (c : Collaborators σ Spec Boot)
    (request : Request) (w : σ) (obj : Unstructured) (err0 : GoError)
    (h : Event.ApplyObject obj (some err0) ∈ (Reconcile c request w).trace)
    (hanno : hasIgnoreObjectError obj = false) :
    (Reconcile c request w).ret =
      some (Result.empty, some (Wrapf err0 ("could not apply " ++ obj.describe))) ∧
    (Wrapf err0 ("could not apply " ++ obj.describe)).Error =
      "could not apply (" ++ obj.GroupVersionKind.String ++ ") " ++ obj.Namespace ++ "/" ++
        obj.Name ++ ": " ++ err0.Error ∧
    (∃ t, (Reconcile c request w).trace = t ++
      [.ApplyObject obj (some err0),
        .SetDegraded .OperatorConfig "ApplyOperatorConfig"
          ("Error while updating operator configuration: " ++
            (Wrapf err0 ("could not apply " ++ obj.describe)).Error)]) ∧
    ∀ status r, Event.ApplyObjectStatus status r ∉ (Reconcile c request w).trace := by
  have key : (Reconcile c request w).ret =
        some (Result.empty, some (Wrapf err0 ("could not apply " ++ obj.describe))) ∧
      (∃ t, (Reconcile c request w).trace = t ++
        [.ApplyObject obj (some err0),
          .SetDegraded .OperatorConfig "ApplyOperatorConfig"
            ("Error while updating operator configuration: " ++
              (Wrapf err0 ("could not apply " ++ obj.describe)).Error)]) ∧
      ∀ status r, Event.ApplyObjectStatus status r ∉ (Reconcile c request w).trace := by
    generalize hout : Reconcile c request w = out at h ⊢
    unfold Reconcile at hout
    repeat' (first | split at hout | dsimp only at hout)
    all_goals subst hout
    all_goals try simp [Outcome.after] at h
    all_goals
      obtain ⟨hret, ⟨t, ht⟩, hno⟩ := reconcileRender_unignored_failure c _ _ obj err0 h hanno
      refine ⟨hret, ?_, fun status r hmem => ?_⟩
      · dsimp only [Outcome.after]
        rw [ht]
        exact ⟨_, (List.append_assoc _ _ _).symm⟩
      · simp [Outcome.after] at hmem
        exact hno status r hmem
  exact ⟨key.1, could_not_apply_message obj err0, key.2⟩

/-- Claim C8. In every run of `Reconcile`, each call of `apply.ApplyObject` in the
apply loop stands right after a successful `SetControllerReference` on the same
object, whose owner is the configuration object (the one fetched and merged in
this run) and whose owner references are those the applied object carries; the
call of `apply.ApplyObject` on the status object stands right after the
`ClusterNetworkStatus` call that returned that very object, so nothing sets an
owner reference on it.  The loop does make these calls: every successful
`SetControllerReference` is directly followed by the apply of its object with
the owner references it returned; once the namespace controller has handed
control back, `SetControllerReference` is called on the record of the applied
configuration; and in a run that gets as far as computing the status object,
the record and every rendered object had the owner reference set and were
handed, with it, to `apply.ApplyObject`. -/
theorem reconcile_owner_reference_before_apply (c : Collaborators σ Spec Boot)
    (request : Request) (w : σ) :
    (∀ t applied r rest,
      (Reconcile c request w).trace = t ++ Event.ApplyObject applied r :: rest →
      ∃ t0 owner obj refs,
        t = t0 ++ [Event.SetControllerReference owner obj (.ok refs)] ∧
        c.SetControllerReference owner obj = .ok refs ∧
        applied = obj.withOwnerReferences refs ∧
        ∃ fetched merged,
          Event.Get request.NamespacedName (.ok fetched) ∈ (Reconcile c request w).trace ∧
          Event.MergeClusterConfig fetched (.ok merged) ∈ (Reconcile c request w).trace ∧
          owner.Name = merged.Name ∧ owner.Annotations = merged.Annotations) ∧
    (∀ t status r rest,
      (Reconcile c request w).trace = t ++ Event.ApplyObjectStatus status r :: rest →
      ∃ t0, t = t0 ++ [Event.ClusterNetworkStatus (.ok (some status))]) ∧
    (∀ t owner obj refs rest,
      (Reconcile c request w).trace =
        t ++ Event.SetControllerReference owner obj (.ok refs) :: rest →
      ∃ r rest1, rest = Event.ApplyObject (obj.withOwnerReferences refs) r :: rest1) ∧
    (∀ cfg app,
      Event.AppliedConfiguration cfg (.ok app) ∈ (Reconcile c request w).trace →
      Event.RunNamespaceController true ∈ (Reconcile c request w).trace →
      Event.SetControllerReference cfg app (c.SetControllerReference cfg app) ∈
        (Reconcile c request w).trace) ∧
    (∀ spec objs cfg app res,
      Event.Render spec (.ok objs) ∈ (Reconcile c request w).trace →
      Event.AppliedConfiguration cfg (.ok app) ∈ (Reconcile c request w).trace →
      Event.ClusterNetworkStatus res ∈ (Reconcile c request w).trace →
      ∀ obj ∈ app :: objs, ∃ refs r,
        Event.SetControllerReference cfg obj (.ok refs) ∈ (Reconcile c request w).trace ∧
        Event.ApplyObject (obj.withOwnerReferences refs) r ∈
          (Reconcile c request w).trace) := by
  have key : EachPreceded Event.isApplyObject
        (ownerSetFor c (fun owner => ∃ fetched merged,
          Event.Get request.NamespacedName (.ok fetched) ∈ (Reconcile c request w).trace ∧
          Event.MergeClusterConfig fetched (.ok merged) ∈ (Reconcile c request w).trace ∧
          owner.Name = merged.Name ∧ owner.Annotations = merged.Annotations))
        (Reconcile c request w).trace ∧
      EachPreceded Event.isApplyObjectStatus statusComputedFor
        (Reconcile c request w).trace := by
    generalize hout : Reconcile c request w = out
    unfold Reconcile at hout
    repeat' (first | split at hout | dsimp only at hout)
    all_goals subst hout
    all_goals first
      | (refine ⟨eachPreceded_applyObject_of_not_mem ?_, eachPreceded_status_of_not_mem ?_⟩ <;>
          (simp; done))
      | (dsimp only [Outcome.after]
         refine ⟨eachPreceded_append (eachPreceded_applyObject_of_not_mem ?_)
             (eachPreceded_mono (reconcileRender_owner_and_status c _ _).1 ?_),
           eachPreceded_append (eachPreceded_status_of_not_mem ?_)
             (reconcileRender_owner_and_status c _ _).2⟩
         · simp
         · intro a b _ h applied r hb
           obtain ⟨owner, obj, refs, h1, h2, h3, rfl⟩ := h applied r hb
           refine ⟨_, obj, refs, h1, h2, h3, ?_⟩
           simp only [List.cons_append, List.nil_append, List.append_assoc]
           apply Exists.intro
           apply Exists.intro
           refine And.intro (List.mem_cons_self _ _)
             (And.intro (List.mem_cons_of_mem _ (List.mem_cons_self _ _))
               (And.intro rfl rfl))
         · simp)
  have followed : EachFollowed Event.isReferenceSet appliedWith
      (Reconcile c request w).trace := by
    generalize hout : Reconcile c request w = out
    unfold Reconcile at hout
    repeat' (first | split at hout | dsimp only at hout)
    all_goals subst hout
    all_goals first
      | (refine eachFollowed_of_not_mem ?_
         simp
         done)
      | (dsimp only [Outcome.after]
         refine eachFollowed_append (eachFollowed_of_not_mem ?_)
           (reconcileRender_reference_applied c _ _)
         simp)
  refine ⟨fun t applied r rest ht => ?_, fun t status r rest ht => ?_,
    fun t owner obj refs rest ht => ?_, fun cfg app happ hrun => ?_,
    fun spec objs cfg app res hrender happ hstatus => ?_⟩
  · obtain ⟨t0, a, hta, ha⟩ := key.1 t _ rest ht ⟨applied, r, rfl⟩
    obtain ⟨owner, obj, refs, h1, h2, h3, h4⟩ := ha applied r rfl
    exact ⟨t0, owner, obj, refs, by rw [hta, h1], h2, h3, h4⟩
  · obtain ⟨t0, a, hta, ha⟩ := key.2 t _ rest ht ⟨status, r, rfl⟩
    exact ⟨t0, by rw [hta, ha status r rfl]⟩
  · obtain ⟨a, rest1, hrest, ha⟩ := followed t _ rest ht ⟨owner, obj, refs, rfl⟩
    obtain ⟨r, rfl⟩ := ha owner obj refs rfl
    exact ⟨r, rest1, hrest⟩
  · generalize hout : Reconcile c request w = out at happ hrun ⊢
    unfold Reconcile at hout
    repeat' (first | split at hout | dsimp only at hout)
    all_goals subst hout
    all_goals try simp [Outcome.after] at hrun
    all_goals
      simp only [Outcome.after, List.mem_append, List.mem_cons, List.mem_singleton,
        List.not_mem_nil, reduceCtorEq, false_or, or_false] at happ hrun
      exact List.mem_append_right _ (reconcileRender_loop_starts c _ _ cfg app happ hrun)
  · generalize hout : Reconcile c request w = out at hrender happ hstatus ⊢
    unfold Reconcile at hout
    repeat' (first | split at hout | dsimp only at hout)
    all_goals subst hout
    all_goals try simp [Outcome.after] at hstatus
    all_goals
      simp only [Outcome.after, List.mem_append, List.mem_cons, List.mem_singleton,
        List.not_mem_nil, reduceCtorEq, false_or, or_false] at hrender happ
      intro obj hobj
      obtain ⟨refs, r, h1, h2⟩ :=
        reconcileRender_all_applied c _ _ spec objs cfg app res hrender happ hstatus obj hobj
      exact ⟨refs, r, List.mem_append_right _ h1, List.mem_append_right _ h2⟩

/-- Claim C9. In every run of `Reconcile` that gets as far as computing the
status object (so the apply loop ran to its end), the objects handed to
`apply.ApplyObject` are, in call order: the record of the applied
configuration, then the rendered objects in the order `Render` returned them
(each with the owner references `SetControllerReference` gave it), then the
status object last, if one was computed. -/
theorem reconcile_apply_order (c : Collaborators σ Spec Boot) (request : Request) (w : σ)
    (spec : Spec) (objs : List Unstructured) (cfg : Network Spec) (app : Unstructured)
    (res : Except GoError (Option Unstructured))
    (hrender : Event.Render spec (.ok objs) ∈ (Reconcile c request w).trace)
    (happ : Event.AppliedConfiguration cfg (.ok app) ∈ (Reconcile c request w).trace)
    (hstatus : Event.ClusterNetworkStatus res ∈ (Reconcile c request w).trace) :
    ∃ applied,
      applyCalls (Reconcile c request w).trace = applied ++ computedStatus res ∧
      List.Forall₂ (ownedVersionOf c cfg) applied (app :: objs) := by
  generalize hout : Reconcile c request w = out at hrender happ hstatus ⊢
  unfold Reconcile at hout
  repeat' (first | split at hout | dsimp only at hout)
  all_goals subst hout
  all_goals try simp [Outcome.after] at hstatus
  all_goals
    simp only [Outcome.after, List.mem_append, List.mem_cons, List.mem_singleton,
      List.not_mem_nil, reduceCtorEq, false_or, or_false] at hrender happ
    obtain ⟨applied, h1, h2⟩ :=
      reconcileRender_applyCalls c _ _ spec objs cfg app res hrender happ hstatus
    refine ⟨applied, ?_, h2⟩
    simp [Outcome.after, applyCalls_append, applyCalls, h1]

end reconcile

end operconfig

namespace operconfig

section sweepClaims

variable {σ : Type}

/-- Claim C3, at a failing input: the namespace foo-bar carries the kubernetes
finalizer, was deleted ten seconds ago, and holds no pod and no daemonset.
`sync` nevertheless writes the namespace back without the finalizer, before it
ever looks at the deletion timestamp; only then does it notice that the grace
period is not over and re-queue the namespace. -/
theorem sync_removes_finalizer_within_grace :
    (sync examples.storeClient "foo-bar" examples.graceCluster).trace =
      [.Get "foo-bar" (.ok ⟨"foo-bar", some ["kubernetes"], some (1000 * Second)⟩),
        .Update ⟨"foo-bar", some [], some (1000 * Second)⟩
          (.ok ⟨"foo-bar", some [], some (1000 * Second)⟩),
        .Now (1010 * Second),
        .AddAfter "foo-bar" (1 * Minute)] ∧
    (sync examples.storeClient "foo-bar" examples.graceCluster).world.ns =
      some ⟨"foo-bar", some [], some (1000 * Second)⟩ := by
  decide

/-- Claim C4, at a failing input: the namespace foo-bar exists and its
finalizer list is unset (nil), so it does not carry the kubernetes finalizer.
`sync` compares the empty list it built with the nil list, finds them
different, and writes the namespace back. -/
theorem sync_writes_namespace_with_unset_finalizers :
    (sync examples.storeClient "foo-bar" examples.unsetCluster).trace =
      [.Get "foo-bar" (.ok ⟨"foo-bar", none, none⟩),
        .Update ⟨"foo-bar", some [], none⟩ (.ok ⟨"foo-bar", some [], none⟩)] ∧
    DeepEqual (some []) none = false := by
  decide

/-- Claim C5. Whenever `sync` writes a namespace back, the namespace written is
the one it read, with the finalizer list replaced by the original entries
other than the kubernetes finalizer, in their original order. -/
theorem sync_update_keeps_other_finalizers (c : NamespaceClient σ) (name : String) (w : σ)
    (written : Namespace) (res : Except GoError Namespace)
    (h : SyncEvent.Update written res ∈ (sync c name w).trace) :
    ∃ ns, (c.Get w name).1 = .ok ns ∧
      written = ⟨ns.Name, some ((rangeOf ns.Finalizers).filter
        (fun f => decide (f ≠ FinalizerKubernetes))), ns.DeletionTimestamp⟩ := by
  unfold sync at h
  split at h
  · split at h <;> simp at h
  · rename_i ns w1 hget
    refine ⟨ns, by rw [hget], ?_⟩
    simp only [newFinalizersLoop_eq_filter, List.nil_append] at h
    repeat' (split at h)
    all_goals
      simp only [List.mem_cons, List.mem_singleton, SyncEvent.Update.injEq, reduceCtorEq,
        false_or, or_false, List.mem_nil_iff, List.not_mem_nil] at h
    all_goals exact h.1

/-- A run of claim C5: of the finalizers a.example/hold, kubernetes,
b.example/hold, kubernetes, the list written back is a.example/hold,
b.example/hold. -/
theorem sync_update_keeps_other_finalizers_witness :
    SyncEvent.Update ⟨"foo-bar", some ["a.example/hold", "b.example/hold"], none⟩
        (.ok ⟨"foo-bar", some ["a.example/hold", "b.example/hold"], none⟩) ∈
      (sync examples.storeClient "foo-bar" examples.mixedCluster).trace ∧
    ∃ ns, (examples.storeClient.Get examples.mixedCluster "foo-bar").1 = .ok ns ∧
      (⟨"foo-bar", some ["a.example/hold", "b.example/hold"], none⟩ : Namespace) =
        ⟨ns.Name, some ((rangeOf ns.Finalizers).filter
          (fun f => decide (f ≠ FinalizerKubernetes))), ns.DeletionTimestamp⟩ :=
  ⟨by decide,
    sync_update_keeps_other_finalizers examples.storeClient "foo-bar" examples.mixedCluster
      ⟨"foo-bar", some ["a.example/hold", "b.example/hold"], none⟩
      (.ok ⟨"foo-bar", some ["a.example/hold", "b.example/hold"], none⟩) (by decide)⟩

end sweepClaims

end operconfig

namespace allowlist

/-! ## The allowlist controller -/

section calls

variable {σ : Type}

theorem daemonsetConfigExists_isCall (c : Client σ) (w : σ) :
    ∀ e ∈ (daemonsetConfigExists c w).2.1, e.isCall = true := by
  intro e he
  unfold daemonsetConfigExists at he
  repeat' (split at he)
  all_goals
    simp only [List.mem_singleton] at he
    subst he
    rfl

theorem createObject_isCall (c : Client σ) (obj : Unstructured) (w : σ) :
    ∀ e ∈ (createObject c obj w).2.1, e.isCall = true := by
  intro e he
  unfold createObject at he
  repeat' (split at he)
  all_goals
    simp only [List.mem_singleton] at he
    subst he
    rfl

theorem createLoop_isCall (c : Client σ) (objs : List Unstructured) (w : σ) :
    ∀ e ∈ (createLoop c objs w).2.1, e.isCall = true := by
  induction objs generalizing w with
  | nil => simp [createLoop]
  | cons obj rest ih =>
    intro e he
    unfold createLoop at he
    split at he
    · rename_i err t w1 hc
      have := createObject_isCall c obj w e
      rw [hc] at this
      exact this he
    · rename_i t w1 hc
      split at he
      rename_i r t2 w2 hl
      simp only [List.mem_append] at he
      rcases he with he | he
      · have := createObject_isCall c obj w e
        rw [hc] at this
        exact this he
      · have := ih w1 e
        rw [hl] at this
        exact this he

theorem createObjects_isCall (c : Client σ) (dir : String) (w : σ) :
    ∀ e ∈ (createObjects c dir w).2.1, e.isCall = true := by
  intro e he
  unfold createObjects at he
  split at he
  · simp only [List.mem_singleton] at he
    subst he
    rfl
  · rename_i manifests hr
    split at he
    rename_i r t w1 hl
    simp only [List.mem_append, List.mem_singleton] at he
    rcases he with rfl | he
    · rfl
    · have := createLoop_isCall c manifests w e
      rw [hl] at this
      exact this he

theorem getConfig_isCall (c : Client σ) (key : NamespacedName) (w : σ) :
    ∀ e ∈ (getConfig c key w).2.1, e.isCall = true := by
  intro e he
  unfold getConfig at he
  repeat' (split at he)
  all_goals
    simp only [List.mem_singleton] at he
    subst he
    rfl

theorem getDaemonSet_isCall (c : Client σ) (w : σ) :
    ∀ e ∈ (getDaemonSet c w).2.1, e.isCall = true := by
  intro e he
  unfold getDaemonSet at he
  repeat' (split at he)
  all_goals
    simp only [List.mem_singleton] at he
    subst he
    rfl

theorem cleanup_isCall (c : Client σ) (w : σ) :
    ∀ e ∈ (cleanup c w).1, e.isCall = true := by
  intro e he
  unfold cleanup at he
  split at he
  · rename_i err t w1 hg
    have := getDaemonSet_isCall c w e
    rw [hg] at this
    exact this he
  · rename_i t w1 hg
    have := getDaemonSet_isCall c w e
    rw [hg] at this
    exact this he
  · rename_i ds t w1 hg
    split at he
    rename_i r t2 w2 hd
    simp only [List.mem_append] at he
    rcases he with he | he
    · have := getDaemonSet_isCall c w e
      rw [hg] at this
      exact this he
    · unfold deleteDaemonSet at hd
      split at hd
      cases hd
      simp only [List.mem_singleton] at he
      subst he
      rfl

theorem checkDsPodsReadyTick_isCall (c : Client σ) (w : σ) :
    ∀ e ∈ (checkDsPodsReadyTick c w).2.1, e.isCall = true := by
  intro e he
  have hg := getDaemonSet_isCall c w e
  unfold checkDsPodsReadyTick at he
  repeat' (split at he)
  all_goals rw [‹getDaemonSet c w = _›] at hg
  all_goals dsimp only at hg he
  all_goals first
    | exact hg he
    | (simp only [List.mem_append, List.mem_singleton] at he
       rcases he with he | rfl
       · exact hg he
       · rfl)

theorem PollUntilContextTimeout_isCall
    (condition : σ → (Bool × Option GoError) × List Event × σ)
    (hc : ∀ w, ∀ e ∈ (condition w).2.1, e.isCall = true) (ticks : Nat) (w : σ) :
    ∀ e ∈ (PollUntilContextTimeout condition ticks w).2.1, e.isCall = true := by
  induction ticks generalizing w with
  | zero => simp [PollUntilContextTimeout]
  | succ n ih =>
    intro e he
    have hcw := hc w e
    unfold PollUntilContextTimeout at he
    split at he
    · rename_i h1
      rw [h1] at hcw
      exact hcw he
    · rename_i h1
      rw [h1] at hcw
      exact hcw he
    · rename_i t w1 h1
      rw [h1] at hcw
      split at he
      rename_i r t2 w2 h2
      simp only [List.mem_append] at he
      rcases he with he | he
      · exact hcw he
      · have := ih w1 e
        rw [h2] at this
        exact this he

theorem checkDsPodsReady_isCall (c : Client σ) (w : σ) :
    ∀ e ∈ (checkDsPodsReady c w).2.1, e.isCall = true :=
  PollUntilContextTimeout_isCall _ (checkDsPodsReadyTick_isCall c) _ w

theorem not_mem_of_isCall {l : List Event} (hl : ∀ e ∈ l, e.isCall = true)
    (r : Option GoError) : Event.CheckDsPodsReadyReturned r ∉ l := by
  intro h
  have := hl _ h
  cases this

theorem reconcileDaemonSet_readiness (c : Client σ) (w : σ) (r : Option GoError)
    (h : Event.CheckDsPodsReadyReturned r ∈ (reconcileDaemonSet c w).2.1) :
    (reconcileDaemonSet c w).1 = (Result.empty, none) := by
  have hg := getDaemonSet_isCall c w
  unfold reconcileDaemonSet at h ⊢
  split
  · rename_i err t w1 hget
    rw [hget] at hg h
    exact absurd h (not_mem_of_isCall hg r)
  · rename_i ds t w1 hget
    rw [hget] at hg h
    exact absurd h (not_mem_of_isCall hg r)
  · rename_i t w1 hget
    rw [hget] at hg h
    dsimp only at h ⊢
    have hc := createObjects_isCall c manifestDir w1
    split
    · rename_i err t2 w2 hcreate
      rw [hcreate] at hc h
      dsimp only at h
      simp only [List.mem_append] at h
      rcases h with h | h
      · exact absurd h (not_mem_of_isCall hg r)
      · exact absurd h (not_mem_of_isCall hc r)
    · split <;> rfl

theorem reconcileRequest_readiness (c : Client σ) (request : Request) (w : σ)
    (r : Option GoError)
    (h : Event.CheckDsPodsReadyReturned r ∈ (reconcileRequest c request w).trace) :
    (reconcileRequest c request w).ret = (Result.empty, none) := by
  have hg := getConfig_isCall c request.NamespacedName w
  unfold reconcileRequest at h ⊢
  split
  · rfl
  · rename_i hname
    rw [if_neg hname] at h
    split
    · rename_i err t w1 hget
      rw [hget] at hg h
      exact absurd h (not_mem_of_isCall hg r)
    · rfl
    · rename_i cm t w1 hget
      rw [hget] at hg h
      dsimp only at h ⊢
      rcases hd : reconcileDaemonSet c w1 with ⟨ret, t2, w2⟩
      rcases hcl : cleanup c w2 with ⟨t3, w3⟩
      rw [hd] at h
      dsimp only at h ⊢
      rw [hcl] at h
      dsimp only at h ⊢
      simp only [List.mem_append] at h
      have hclean := cleanup_isCall c w2
      rw [hcl] at hclean
      rcases h with (h | h) | h
      · exact absurd h (not_mem_of_isCall hg r)
      · have := reconcileDaemonSet_readiness c w1 r
        rw [hd] at this
        exact this h
      · exact absurd h (not_mem_of_isCall hclean r)

end calls

end allowlist

namespace allowlist

section readiness

variable {σ : Type}

/-- Claim C10. Whatever error `checkDsPodsReady` returns to the allowlist
`Reconcile` (the timeout of the poll or an error raised in a tick), `Reconcile`
returns an empty result and a nil error. -/
theorem allowlist_readiness_failure_not_fatal (c : Client σ) (request : Request) (w : σ)
    (err : GoError)
    (h : Event.CheckDsPodsReadyReturned (some err) ∈ (Reconcile c request w).trace) :
    (Reconcile c request w).ret = (Result.empty, none) := by
  have hx := daemonsetConfigExists_isCall c w
  unfold Reconcile at h ⊢
  split
  · rename_i e0 t w1 hex
    rw [hex] at hx h
    dsimp only at h ⊢
    have hc := createObjects_isCall c allowlistManifestDir w1
    split
    · rename_i err1 t2 w2 hcreate
      rw [hcreate] at hc h
      dsimp only at h
      simp only [List.mem_append] at h
      rcases h with h | h
      · exact absurd h (not_mem_of_isCall hx _)
      · exact absurd h (not_mem_of_isCall hc _)
    · rename_i t2 w2 hcreate
      rw [hcreate] at hc h
      dsimp only at h ⊢
      rcases hr : reconcileRequest c request w2 with ⟨ret, t3, w3⟩
      rw [hr] at h
      dsimp only at h ⊢
      simp only [List.mem_append] at h
      rcases h with (h | h) | h
      · exact absurd h (not_mem_of_isCall hx _)
      · exact absurd h (not_mem_of_isCall hc _)
      · have := reconcileRequest_readiness c request w2 (some err)
        rw [hr] at this
        exact this h
  · rename_i e0 t w1 hex
    rw [hex] at hx h
    exact absurd h (not_mem_of_isCall hx _)
  · rename_i t w1 hex
    rw [hex] at hx h
    dsimp only at h ⊢
    rcases hr : reconcileRequest c request w1 with ⟨ret, t3, w3⟩
    rw [hr] at h
    dsimp only at h ⊢
    simp only [List.mem_append] at h
    rcases h with h | h
    · exact absurd h (not_mem_of_isCall hx _)
    · have := reconcileRequest_readiness c request w1 (some err)
      rw [hr] at this
      exact this h

end readiness

end allowlist

namespace allowlist

section tick

variable {σ : Type}

theorem podsReadyLoop_eq_all (uid : String) (pods : List Pod) :
    podsReadyLoop uid pods =
      pods.all (fun pod => !ownedBy uid pod || firstContainerReady pod) := by
  induction pods with
  | nil => simp [podsReadyLoop]
  | cons pod rest ih =>
    unfold podsReadyLoop
    rcases hown : pod.OwnerReferences with _ | ⟨ref, refs⟩
    · simp [ownedBy, hown, ih]
    · by_cases huid : ref.UID = uid
      · rcases hst : pod.ContainerStatuses with _ | ⟨status, statuses⟩
        · simp [ownedBy, firstContainerReady, hown, hst, huid]
        · cases hready : status.Ready <;>
            simp [ownedBy, firstContainerReady, hown, hst, huid, hready, ih]
      · simp [ownedBy, hown, huid, ih]

theorem getDaemonSet_found (c : Client σ) (w w1 : σ) (ds : Option DaemonSet)
    (hds : c.GetDaemonSet w names.MULTUS_NAMESPACE allowlistDsName = (.ok ds, w1)) :
    getDaemonSet c w =
      (.ok ds, [.GetDaemonSet names.MULTUS_NAMESPACE allowlistDsName (.ok ds)], w1) := by
  simp [getDaemonSet, hds]

theorem getDaemonSet_not_found (c : Client σ) (w w1 : σ) (err : GoError)
    (hds : c.GetDaemonSet w names.MULTUS_NAMESPACE allowlistDsName = (.error err, w1))
    (hnf : IsNotFound err = true) :
    getDaemonSet c w =
      (.ok none, [.GetDaemonSet names.MULTUS_NAMESPACE allowlistDsName (.error err)], w1) := by
  simp [getDaemonSet, hds, hnf]

/-- One tick with a daemonset that has a UID and a pod list that is not
empty: no error, and done is the verdict of the loop over the pods. -/
theorem checkDsPodsReadyTick_listed (c : Client σ) (w w1 w2 : σ) (ds : DaemonSet)
    (podList : List Pod)
    (hds : c.GetDaemonSet w names.MULTUS_NAMESPACE allowlistDsName = (.ok (some ds), w1))
    (huid : ds.UID ≠ "")
    (hlist : c.ListPods w1 names.MULTUS_NAMESPACE allowlistAnnotation = (.ok podList, w2))
    (hne : podList ≠ []) :
    checkDsPodsReadyTick c w =
      ((podsReadyLoop ds.UID podList, none),
        [.GetDaemonSet names.MULTUS_NAMESPACE allowlistDsName (.ok (some ds)),
          .ListPods names.MULTUS_NAMESPACE allowlistAnnotation (.ok podList)], w2) := by
  have hlen : podList.length ≠ 0 := by
    intro h
    exact hne (List.length_eq_zero.mp h)
  unfold checkDsPodsReadyTick
  rw [getDaemonSet_found c w w1 (some ds) hds]
  simp [huid, hlist, hlen]

/-- Claim C11. One tick of the poll, when the daemonset exists with a UID that
is not empty and the pod list is not empty, returns no error, and reports done
if and only if every listed pod owned by that UID (its first owner reference
has the UID) has a container status whose first entry is ready.  The verdict
is that of the owned pods alone, so the other pods never influence it, and one
owned pod that is not ready makes the tick report not done, without error. -/
theorem tick_ready_iff_owned_pods_ready (c : Client σ) (w w1 w2 : σ) (ds : DaemonSet)
    (podList : List Pod)
    (hds : c.GetDaemonSet w names.MULTUS_NAMESPACE allowlistDsName = (.ok (some ds), w1))
    (huid : ds.UID ≠ "")
    (hlist : c.ListPods w1 names.MULTUS_NAMESPACE allowlistAnnotation = (.ok podList, w2))
    (hne : podList ≠ []) :
    (checkDsPodsReadyTick c w).1.2 = none ∧
    ((checkDsPodsReadyTick c w).1.1 = true ↔
      ∀ pod ∈ podList, ownedBy ds.UID pod = true → firstContainerReady pod = true) ∧
    (checkDsPodsReadyTick c w).1.1 = (podList.filter (ownedBy ds.UID)).all firstContainerReady ∧
    ((∃ pod ∈ podList, ownedBy ds.UID pod = true ∧ firstContainerReady pod = false) →
      (checkDsPodsReadyTick c w).1 = (false, none)) := by
  rw [checkDsPodsReadyTick_listed c w w1 w2 ds podList hds huid hlist hne]
  have hiff : podsReadyLoop ds.UID podList = true ↔
      ∀ pod ∈ podList, ownedBy ds.UID pod = true → firstContainerReady pod = true := by
    rw [podsReadyLoop_eq_all]
    simp only [List.all_eq_true, Bool.or_eq_true, Bool.not_eq_true']
    constructor
    · intro h pod hp hown
      rcases h pod hp with h1 | h1
      · rw [hown] at h1
        cases h1
      · exact h1
    · intro h pod hp
      cases hown : ownedBy ds.UID pod
      · exact Or.inl rfl
      · exact Or.inr (h pod hp hown)
  refine ⟨rfl, hiff, ?_, ?_⟩
  · dsimp only
    rw [podsReadyLoop_eq_all, List.all_filter]
    congr 1
    funext pod
    cases ownedBy ds.UID pod <;> simp
  · rintro ⟨pod, hp, hown, hnot⟩
    dsimp only
    have : podsReadyLoop ds.UID podList = false := by
      rw [← Bool.not_eq_true]
      intro h
      have := hiff.mp h pod hp hown
      rw [hnot] at this
      cases this
    rw [this]

/-- Claim C12, as the code has it. When the lookup of the daemonset reports
not-found, `getDaemonSet` reports no daemonset and no error, and the tick fails
with the error "failed to get UID of daemon set"; a poll that gets at least one
tick stops at that tick with this error, after the one lookup. -/
theorem tick_fails_when_daemonset_absent (c : Client σ) (w w1 : σ) (err : GoError)
    (hds : c.GetDaemonSet w names.MULTUS_NAMESPACE allowlistDsName = (.error err, w1))
    (hnf : IsNotFound err = true) :
    getDaemonSet c w =
      (.ok none, [.GetDaemonSet names.MULTUS_NAMESPACE allowlistDsName (.error err)], w1) ∧
    checkDsPodsReadyTick c w =
      ((false, some (errorsNew "failed to get UID of daemon set")),
        [.GetDaemonSet names.MULTUS_NAMESPACE allowlistDsName (.error err)], w1) ∧
    ∀ ticks, PollUntilContextTimeout (checkDsPodsReadyTick c) (ticks + 1) w =
      (some (errorsNew "failed to get UID of daemon set"),
        [.GetDaemonSet names.MULTUS_NAMESPACE allowlistDsName (.error err)], w1) := by
  have htick : checkDsPodsReadyTick c w =
      ((false, some (errorsNew "failed to get UID of daemon set")),
        [.GetDaemonSet names.MULTUS_NAMESPACE allowlistDsName (.error err)], w1) := by
    unfold checkDsPodsReadyTick
    rw [getDaemonSet_not_found c w w1 err hds hnf]
  refine ⟨getDaemonSet_not_found c w w1 err hds hnf, htick, fun ticks => ?_⟩
  unfold PollUntilContextTimeout
  rw [htick]

end tick

end allowlist

namespace operconfig

section reads

variable {σ Spec Boot : Type}

/-- Claim C16. When fetching the configuration object reports not-found,
`Reconcile` returns an empty result and a nil error, and the only calls it
makes are the fetch and `SetDegraded` with reason NoOperatorConfig: no merge,
no render, no apply. -/
theorem reconcile_config_not_found (c : Collaborators σ Spec Boot) (request : Request)
    (w : σ) (key : NamespacedName) (err : GoError)
    (h : Event.Get key (.error err) ∈ (Reconcile c request w).trace)
    (hnf : IsNotFound err = true) :
    (Reconcile c request w).ret = some (Result.empty, none) ∧
    (Reconcile c request w).trace =
      [.Get request.NamespacedName (.error err),
        .SetDegraded .OperatorConfig "NoOperatorConfig"
          ("Operator configuration " ++ request.NamespacedName.String ++ " was deleted")] := by
  generalize hout : Reconcile c request w = out at h ⊢
  unfold Reconcile at hout
  repeat' (first | split at hout | dsimp only at hout)
  all_goals subst hout
  all_goals try replace h := mem_after_of_not_afterSafetyCheck _ _ _ _ _ h rfl
  all_goals try simp at h
  · obtain ⟨rfl, rfl⟩ := h
    exact ⟨rfl, rfl⟩
  · obtain ⟨rfl, rfl⟩ := h
    rename_i hn
    exact absurd hnf hn

/-- A failed fetch of the configuration object that is not a not-found makes
`Reconcile` return the error after that single call: `SetDegraded` is not
called. -/
theorem reconcile_get_failure (c : Collaborators σ Spec Boot) (request : Request)
    (w : σ) (key : NamespacedName) (err : GoError)
    (h : Event.Get key (.error err) ∈ (Reconcile c request w).trace)
    (hnf : IsNotFound err = false) :
    (Reconcile c request w).ret = some (Result.empty, some err) ∧
    (Reconcile c request w).trace = [.Get request.NamespacedName (.error err)] := by
  generalize hout : Reconcile c request w = out at h ⊢
  unfold Reconcile at hout
  repeat' (first | split at hout | dsimp only at hout)
  all_goals subst hout
  all_goals try replace h := mem_after_of_not_afterSafetyCheck _ _ _ _ _ h rfl
  all_goals try simp at h
  · obtain ⟨rfl, rfl⟩ := h
    rename_i hn
    rw [hnf] at hn
    cases hn
  · obtain ⟨rfl, rfl⟩ := h
    exact ⟨rfl, rfl⟩

/-- A failed retrieval of the previously applied configuration makes
`Reconcile` return the error; `SetDegraded` is not called in that run. -/
theorem reconcile_applied_configuration_failure (c : Collaborators σ Spec Boot)
    (request : Request) (w : σ) (name : String) (err : GoError)
    (h : Event.GetAppliedConfiguration name (.error err) ∈ (Reconcile c request w).trace) :
    (Reconcile c request w).ret = some (Result.empty, some err) ∧
    ∀ level reason message,
      Event.SetDegraded level reason message ∉ (Reconcile c request w).trace := by
  generalize hout : Reconcile c request w = out at h ⊢
  unfold Reconcile at hout
  repeat' (first | split at hout | dsimp only at hout)
  all_goals subst hout
  all_goals try replace h := mem_after_of_not_afterSafetyCheck _ _ _ _ _ h rfl
  all_goals try simp at h
  obtain ⟨rfl, rfl⟩ := h
  exact ⟨rfl, by simp⟩

end reads

end operconfig

namespace operconfig

section defaults

variable {σ Spec Boot : Type}

/-- Claim C15, as the code has it. When a previously applied configuration
exists, `Reconcile` calls `FillDefaults` exactly twice, one call right after
the other: first with the previous configuration as target and the previous
configuration itself as reference, then with the canonicalized new
configuration as target and the up-converted previous configuration as
reference. -/
theorem reconcile_fills_defaults_from_previous (c : Collaborators σ Spec Boot)
    (request : Request) (w : σ) (name : String) (prev0 : Spec)
    (h : Event.GetAppliedConfiguration name (.ok (some prev0)) ∈ (Reconcile c request w).trace) :
    ∃ (t rest : List (Event Spec)) (merged : Network Spec),
      (Reconcile c request w).trace =
        t ++ Event.FillDefaults prev0 (some prev0) ::
          Event.FillDefaults (c.Canonicalize merged.Spec)
            (some (c.FillDefaults prev0 (some prev0))) :: rest ∧
      (∃ fetched, Event.MergeClusterConfig fetched (.ok merged) ∈ t) ∧
      (∀ conf previous, Event.FillDefaults conf previous ∈ t → False) ∧
      (∀ conf previous, Event.FillDefaults conf previous ∈ rest → False) := by
  generalize hout : Reconcile c request w = out at h ⊢
  unfold Reconcile at hout
  repeat' (first | split at hout | dsimp only at hout)
  all_goals subst hout
  all_goals try replace h := mem_after_of_not_afterSafetyCheck _ _ _ _ _ h rfl
  all_goals try simp at h
  all_goals obtain ⟨rfl, rfl⟩ := h
  all_goals
    simp only [Outcome.after, List.cons_append, List.nil_append, List.append_assoc]
    refine ⟨[_, _, _, _, _], _, _, rfl,
      ⟨_, List.mem_cons_of_mem _ (List.mem_cons_self _ _)⟩, ?_, ?_⟩
  all_goals
    intro conf previous hmem
    first
      | (simp at hmem; done)
      | cases reconcileRender_trace_afterSafetyCheck _ _ _ _ hmem
      | (simp only [List.mem_cons, List.mem_singleton, List.not_mem_nil, reduceCtorEq,
           false_or, or_false] at hmem
         have := reconcileRender_trace_afterSafetyCheck _ _ _ _ hmem
         cases this)

end defaults

end operconfig

namespace operconfig

section success

variable {σ Spec Boot : Type}

theorem no_failed_of_after (t : List (Event Spec)) (o : Outcome σ Spec)
    (h : ∀ e ∈ (o.after t).trace, e.failed = false) : ∀ e ∈ o.trace, e.failed = false :=
  fun e he => h e (by simp [Outcome.after, he])

theorem applyLoop_err_none_of_no_failed (c : Collaborators σ Spec Boot)
    (operConfig : Network Spec) (objs : List Unstructured) (w : σ)
    (h : ∀ e ∈ (applyLoop c operConfig objs w).trace, e.failed = false) :
    (applyLoop c operConfig objs w).err = none := by
  induction objs generalizing w with
  | nil => simp [applyLoop]
  | cons obj rest ih =>
    rcases hset : c.SetControllerReference operConfig obj with err0 | refs
    · rw [applyLoop_cons_reference_error c operConfig obj rest w err0 hset] at h
      have := h _ (List.mem_cons_self _ _)
      cases this
    · rcases happly : c.ApplyObject w (obj.withOwnerReferences refs) with ⟨r, w2⟩
      cases r with
      | none =>
        rw [applyLoop_cons_applied c operConfig obj rest w w2 refs hset happly] at h ⊢
        exact ih w2 (fun e he => h e (by simp [LoopOutcome.after, he]))
      | some e1 =>
        cases hanno1 : hasIgnoreObjectError (obj.withOwnerReferences refs) with
        | true =>
          rw [applyLoop_cons_ignored c operConfig obj rest w w2 refs e1 hset happly hanno1] at h ⊢
          exact ih w2 (fun e he => h e (by simp [LoopOutcome.after, he]))
        | false =>
          rw [applyLoop_cons_aborted c operConfig obj rest w w2 refs e1 hset happly hanno1] at h
          have := h _ (List.mem_cons_of_mem _ (List.mem_cons_self _ _))
          simp [Event.failed, hanno1] at this

theorem reconcileStatus_success (c : Collaborators σ Spec Boot) (operConfig : Network Spec)
    (w : σ) (h : ∀ e ∈ (reconcileStatus c operConfig w).trace, e.failed = false) :
    (reconcileStatus c operConfig w).ret = some (⟨false, ResyncPeriod⟩, none) ∧
    ∃ t, (reconcileStatus c operConfig w).trace = t ++ [.SetNotDegraded .OperatorConfig] := by
  generalize hout : reconcileStatus c operConfig w = out at h ⊢
  unfold reconcileStatus at hout
  repeat' (first | split at hout | dsimp only at hout)
  all_goals subst hout
  · have := h _ (List.mem_cons_of_mem _ (List.mem_cons_self _ _))
    cases this
  · exact ⟨rfl, [_, _], rfl⟩
  · have := h _ (List.mem_cons_of_mem _ (List.mem_cons_of_mem _ (List.mem_cons_self _ _)))
    cases this
  · exact ⟨rfl, [_, _, _], rfl⟩

theorem reconcileObjects_success (c : Collaborators σ Spec Boot) (operConfig : Network Spec)
    (objs : List Unstructured) (w : σ)
    (h : ∀ e ∈ (reconcileObjects c operConfig objs w).trace, e.failed = false) :
    (reconcileObjects c operConfig objs w).ret = some (⟨false, ResyncPeriod⟩, none) ∧
    ∃ t, (reconcileObjects c operConfig objs w).trace = t ++ [.SetNotDegraded .OperatorConfig] := by
  generalize hout : reconcileObjects c operConfig objs w = out at h ⊢
  unfold reconcileObjects at hout
  dsimp only at hout
  split at hout
  · subst hout
    have := h _ (List.mem_cons_self _ _)
    cases this
  · rename_i w1 hrun
    have hloop := applyLoop_err_none_of_no_failed c operConfig objs w1
    split at hout
    · rename_i err herr
      subst hout
      have := hloop (fun e he => h e (by simp [he]))
      rw [herr] at this
      cases this
    · subst hout
      obtain ⟨hret, t, ht⟩ := reconcileStatus_success c operConfig _
        (no_failed_of_after _ _ h)
      refine ⟨hret, ?_⟩
      dsimp only [Outcome.after]
      rw [ht]
      exact ⟨_, (List.append_assoc _ _ _).symm⟩

theorem reconcileRender_success (c : Collaborators σ Spec Boot) (operConfig : Network Spec)
    (w : σ) (h : ∀ e ∈ (reconcileRender c operConfig w).trace, e.failed = false) :
    (reconcileRender c operConfig w).ret = some (⟨false, ResyncPeriod⟩, none) ∧
    ∃ t, (reconcileRender c operConfig w).trace = t ++ [.SetNotDegraded .OperatorConfig] := by
  generalize hout : reconcileRender c operConfig w = out at h ⊢
  unfold reconcileRender at hout
  repeat' (first | split at hout | dsimp only at hout)
  all_goals subst hout
  · have := h _ (List.mem_cons_self _ _)
    cases this
  · have := h _ (List.mem_cons_of_mem _ (List.mem_cons_self _ _))
    cases this
  · have := h _ (List.mem_cons_of_mem _ (List.mem_cons_of_mem _ (List.mem_cons_self _ _)))
    cases this
  · obtain ⟨hret, t, ht⟩ := reconcileObjects_success c operConfig _ _
      (no_failed_of_after _ _ h)
    refine ⟨hret, ?_⟩
    dsimp only [Outcome.after]
    simp only [List.singleton_append] at ht ⊢
    rw [ht]
    exact ⟨_, (List.append_assoc _ _ _).symm⟩

/-- Lines 319-348 are what the code is written to reach: a run of `Reconcile`
for the request named as the operator configuration, in which every call
returns and none returns an error that is not ignored (a failed apply of an
annotated object in the loop is ignored), ends with `SetNotDegraded` and returns
a nil error with `RequeueAfter` equal to `ResyncPeriod`, which is five
minutes. -/
theorem reconcile_success_requeues (c : Collaborators σ Spec Boot) (request : Request)
    (w : σ) (hname : request.NamespacedName.Name = names.OPERATOR_CONFIG)
    (h : ∀ e ∈ (Reconcile c request w).trace, e.failed = false) :
    (Reconcile c request w).ret = some (⟨false, ResyncPeriod⟩, none) ∧
    (∃ t, (Reconcile c request w).trace = t ++ [.SetNotDegraded .OperatorConfig]) ∧
    ResyncPeriod = 5 * 60 * 1000000000 := by
  have key : (Reconcile c request w).ret = some (⟨false, ResyncPeriod⟩, none) ∧
      ∃ t, (Reconcile c request w).trace = t ++ [.SetNotDegraded .OperatorConfig] := by
    generalize hout : Reconcile c request w = out at h ⊢
    unfold Reconcile at hout
    repeat' (first | split at hout | dsimp only at hout)
    all_goals subst hout
    all_goals first
      | (rename_i hne
         exact absurd hname hne)
      | (exfalso
         simp [Event.failed, List.forall_mem_cons] at h
         done)
      | (obtain ⟨hret, t, ht⟩ := reconcileRender_success c _ _ (no_failed_of_after _ _ h)
         refine ⟨hret, ?_⟩
         dsimp only [Outcome.after]
         rw [ht]
         exact ⟨_, (List.append_assoc _ _ _).symm⟩)
  exact ⟨key.1, key.2, by decide⟩

/-- The guard of lines 118-122: a request of another name is ignored, without
any call. -/
theorem reconcile_other_name_ignored (c : Collaborators σ Spec Boot) (request : Request)
    (w : σ) (hname : request.NamespacedName.Name ≠ names.OPERATOR_CONFIG) :
    Reconcile c request w = ⟨some (Result.empty, none), [], w⟩ := by
  unfold Reconcile
  rw [if_pos hname]

theorem reconcileStatus_not_blocked (c : Collaborators σ Spec Boot)
    (operConfig : Network Spec) (w : σ) :
    Event.RunNamespaceController false ∉ (reconcileStatus c operConfig w).trace := by
  unfold reconcileStatus
  repeat' split
  all_goals simp

theorem reconcileObjects_blocked (c : Collaborators σ Spec Boot) (operConfig : Network Spec)
    (objs : List Unstructured) (w : σ)
    (h : Event.RunNamespaceController false ∈ (reconcileObjects c operConfig objs w).trace) :
    (reconcileObjects c operConfig objs w).ret = none ∧
    (reconcileObjects c operConfig objs w).trace = [.RunNamespaceController false] := by
  have hloop : ∀ w1, Event.RunNamespaceController false ∉
      (applyLoop c operConfig objs w1).trace := by
    intro w1 hmem
    have := applyLoop_trace_inApplyLoop c operConfig objs w1 _ hmem
    cases this
  generalize hout : reconcileObjects c operConfig objs w = out at h ⊢
  unfold reconcileObjects at hout
  dsimp only at hout
  split at hout
  · subst hout
    exact ⟨rfl, rfl⟩
  · split at hout
    · subst hout
      simp only [List.mem_append, List.mem_cons, List.mem_singleton, List.not_mem_nil,
        reduceCtorEq, false_or, or_false, Event.RunNamespaceController.injEq,
        Bool.false_eq_true] at h
      exact absurd h (hloop _)
    · subst hout
      simp only [Outcome.after, List.mem_append, List.mem_cons, List.mem_singleton,
        List.not_mem_nil, reduceCtorEq, false_or, or_false, Event.RunNamespaceController.injEq,
        Bool.false_eq_true] at h
      rcases h with h | h
      · exact absurd h (hloop _)
      · exact absurd h (reconcileStatus_not_blocked c operConfig _)

theorem reconcileRender_blocked (c : Collaborators σ Spec Boot) (operConfig : Network Spec)
    (w : σ)
    (h : Event.RunNamespaceController false ∈ (reconcileRender c operConfig w).trace) :
    (reconcileRender c operConfig w).ret = none ∧
    ∃ t, (reconcileRender c operConfig w).trace = t ++ [.RunNamespaceController false] ∧
      ∀ e ∈ t, e.failed = false ∧ e ≠ .SetNotDegraded .OperatorConfig := by
  generalize hout : reconcileRender c operConfig w = out at h ⊢
  unfold reconcileRender at hout
  repeat' (first | split at hout | dsimp only at hout)
  all_goals subst hout
  all_goals try simp [Outcome.after] at h
  obtain ⟨hret, htrace⟩ := reconcileObjects_blocked c operConfig _ _ h
  refine ⟨hret, ?_⟩
  apply Exists.intro
  refine ⟨?_, ?_⟩
  · dsimp only [Outcome.after]
    simp only [List.singleton_append]
    rw [htrace]
  · intro e he
    simp only [List.mem_cons, List.mem_singleton, List.not_mem_nil, or_false] at he
    rcases he with rfl | rfl | rfl <;> exact ⟨rfl, by simp⟩

/-- A run in which the call of line 259 does not return: `Reconcile` does not
return either, that call is its last, no call before it returned an error, and
`SetNotDegraded` is not among its calls. -/
theorem reconcile_blocked (c : Collaborators σ Spec Boot) (request : Request) (w : σ)
    (h : Event.RunNamespaceController false ∈ (Reconcile c request w).trace) :
    (Reconcile c request w).ret = none ∧
    ∃ t, (Reconcile c request w).trace = t ++ [.RunNamespaceController false] ∧
      ∀ e ∈ t, e.failed = false ∧ e ≠ .SetNotDegraded .OperatorConfig := by
  generalize hout : Reconcile c request w = out at h ⊢
  unfold Reconcile at hout
  repeat' (first | split at hout | dsimp only at hout)
  all_goals subst hout
  all_goals try simp [Outcome.after] at h
  all_goals
    obtain ⟨hret, t, htrace, ht⟩ := reconcileRender_blocked c _ _ h
    refine ⟨hret, ?_⟩
    apply Exists.intro
    refine ⟨?_, ?_⟩
    · dsimp only [Outcome.after]
      rw [htrace, ← List.append_assoc]
    intro e he
    simp only [List.mem_append, List.mem_cons, List.mem_singleton, List.not_mem_nil,
      or_false] at he
    first
      | (rcases he with ((rfl | rfl | rfl) | rfl | rfl | rfl) | he
         iterate 6 exact ⟨rfl, by simp⟩
         exact ht e he)
      | (rcases he with ((rfl | rfl | rfl) | rfl | rfl | rfl | rfl) | he
         iterate 7 exact ⟨rfl, by simp⟩
         exact ht e he)
      | (rcases he with (((rfl | rfl | rfl) | rfl | rfl | rfl | rfl) | rfl) | he
         iterate 8 exact ⟨rfl, by simp⟩
         exact ht e he)

end success

end operconfig

namespace operconfig

section classify

variable {σ Spec Boot : Type}

theorem classifyLoop_lists (c : Collaborators σ Spec Boot) (objs : List Unstructured)
    (acc : Classified) :
    (classifyLoop c objs acc).daemonSets =
      acc.daemonSets ++ (objs.filter isDaemonSet).map namespacedNameOf ∧
    (classifyLoop c objs acc).deployments =
      acc.deployments ++ (objs.filter isDeployment).map namespacedNameOf := by
  induction objs generalizing acc with
  | nil => simp [classifyLoop]
  | cons obj rest ih =>
    unfold classifyLoop
    dsimp only
    by_cases hds : obj.APIVersion = "apps/v1" ∧ obj.Kind = "DaemonSet"
    · have hdep : ¬ (obj.APIVersion = "apps/v1" ∧ obj.Kind = "Deployment") := by
        rintro ⟨-, hk⟩
        rw [hds.2] at hk
        exact absurd hk (by decide)
      split <;>
        simp [ih, hds, hdep, isDaemonSet, isDeployment, namespacedNameOf]
    · by_cases hdep : obj.APIVersion = "apps/v1" ∧ obj.Kind = "Deployment"
      · split <;>
          simp [ih, hds, hdep, isDaemonSet, isDeployment, namespacedNameOf]
      · split <;>
          simp [ih, hds, hdep, isDaemonSet, isDeployment, namespacedNameOf]

theorem applyLoop_not_reportsWorkloads (c : Collaborators σ Spec Boot)
    (operConfig : Network Spec) (objs : List Unstructured) (w : σ) (e : Event Spec)
    (he : e.reportsWorkloads = true) : e ∉ (applyLoop c operConfig objs w).trace := by
  intro h
  have := applyLoop_trace_inApplyLoop c operConfig objs w e h
  cases e <;> first | (cases this; done) | cases he

theorem reconcileStatus_not_reportsWorkloads (c : Collaborators σ Spec Boot)
    (operConfig : Network Spec) (w : σ) (e : Event Spec)
    (he : e.reportsWorkloads = true) : e ∉ (reconcileStatus c operConfig w).trace := by
  intro h
  unfold reconcileStatus at h
  repeat' (split at h)
  all_goals
    simp only [List.mem_cons, List.mem_singleton, List.not_mem_nil, or_false] at h
    rcases h with rfl | rfl | rfl | rfl <;> cases he

theorem reconcileObjects_reports (c : Collaborators σ Spec Boot) (operConfig : Network Spec)
    (objs : List Unstructured) (w : σ)
    (hrun : Event.RunNamespaceController true ∈ (reconcileObjects c operConfig objs w).trace) :
    (∀ l, Event.SetDaemonSets l ∈ (reconcileObjects c operConfig objs w).trace ↔
      l = (objs.filter isDaemonSet).map namespacedNameOf) ∧
    (∀ l, Event.SetDeployments l ∈ (reconcileObjects c operConfig objs w).trace ↔
      l = (objs.filter isDeployment).map namespacedNameOf) ∧
    (∀ l, Event.SetResources l ∈ (reconcileObjects c operConfig objs w).trace ↔
      l = (objs.filter isDaemonSet).map namespacedNameOf ++
        (objs.filter isDeployment).map namespacedNameOf) := by
  have hcl := classifyLoop_lists c objs ⟨[], [], []⟩
  simp only [List.nil_append] at hcl
  generalize hout : reconcileObjects c operConfig objs w = out at hrun ⊢
  unfold reconcileObjects at hout
  dsimp only at hout
  split at hout
  · subst hout
    simp at hrun
  · split at hout
    all_goals subst hout
    all_goals
      refine ⟨fun l => ⟨fun h => ?_, fun h => ?_⟩, fun l => ⟨fun h => ?_, fun h => ?_⟩,
        fun l => ⟨fun h => ?_, fun h => ?_⟩⟩
    all_goals
      simp only [Outcome.after, List.mem_append, List.mem_cons, List.mem_singleton,
        List.not_mem_nil, reduceCtorEq, false_or, or_false, Event.SetDaemonSets.injEq,
        Event.SetDeployments.injEq, Event.SetResources.injEq, hcl.1, hcl.2,
        List.nil_append] at h ⊢
    all_goals first
      | exact Or.inl h
      | exact Or.inl (Or.inl h)
      | (rcases h with h | h
         · exact h
         · exact absurd h (applyLoop_not_reportsWorkloads c operConfig objs _ _ rfl))
      | (rcases h with (h | h) | h
         · exact h
         · exact absurd h (applyLoop_not_reportsWorkloads c operConfig objs _ _ rfl)
         · exact absurd h (reconcileStatus_not_reportsWorkloads c operConfig _ _ rfl))

theorem not_daemonSet_and_deployment (obj : Unstructured) :
    ¬ (isDaemonSet obj = true ∧ isDeployment obj = true) := by
  simp only [isDaemonSet, isDeployment, decide_eq_true_eq]
  rintro ⟨⟨-, h1⟩, -, h2⟩
  rw [h1] at h2
  exact absurd h2 (by decide)

theorem reconcileRender_reports (c : Collaborators σ Spec Boot) (operConfig : Network Spec)
    (w : σ) (spec : Spec) (objs : List Unstructured) (cfg : Network Spec) (app : Unstructured)
    (hrender : Event.Render spec (.ok objs) ∈ (reconcileRender c operConfig w).trace)
    (happ : Event.AppliedConfiguration cfg (.ok app) ∈ (reconcileRender c operConfig w).trace)
    (hrun : Event.RunNamespaceController true ∈ (reconcileRender c operConfig w).trace) :
    (∀ l, Event.SetDaemonSets l ∈ (reconcileRender c operConfig w).trace ↔
      l = ((app :: objs).filter isDaemonSet).map namespacedNameOf) ∧
    (∀ l, Event.SetDeployments l ∈ (reconcileRender c operConfig w).trace ↔
      l = ((app :: objs).filter isDeployment).map namespacedNameOf) ∧
    (∀ l, Event.SetResources l ∈ (reconcileRender c operConfig w).trace ↔
      l = ((app :: objs).filter isDaemonSet).map namespacedNameOf ++
        ((app :: objs).filter isDeployment).map namespacedNameOf) := by
  generalize hout : reconcileRender c operConfig w = out at hrender happ hrun ⊢
  unfold reconcileRender at hout
  repeat' (first | split at hout | dsimp only at hout)
  all_goals subst hout
  all_goals try simp [Outcome.after] at hrun
  simp only [Outcome.after, List.mem_append, List.mem_cons, List.mem_singleton,
    List.not_mem_nil, reduceCtorEq, false_or, or_false, Event.Render.injEq,
    Event.AppliedConfiguration.injEq, Except.ok.injEq] at hrender happ
  rcases hrender with ⟨rfl, rfl⟩ | h
  swap
  · have := reconcileObjects_trace_afterRender c operConfig _ _ _ h
    cases this
  rcases happ with ⟨rfl, rfl⟩ | h
  swap
  · have := reconcileObjects_trace_afterRender c operConfig _ _ _ h
    cases this
  have key := reconcileObjects_reports c cfg _ _ hrun
  simp only [List.singleton_append] at key ⊢
  refine ⟨fun l => ?_, fun l => ?_, fun l => ?_⟩
  · rw [← key.1 l]
    simp [Outcome.after]
  · rw [← key.2.1 l]
    simp [Outcome.after]
  · rw [← key.2.2 l]
    simp [Outcome.after]

end classify

end operconfig

namespace operconfig

section workloads

variable {σ Spec Boot : Type}

/-- Claim C18. In every run of `Reconcile` that reaches the status manager
(the namespace controller returned), with `objs` the objects `Render` returned
and `app` the record of the applied configuration put in front of them: the
list handed to `SetDaemonSets` is exactly the (namespace, name) pairs of the
objects of `app :: objs` with apiVersion apps/v1 and kind DaemonSet, in list
order; the list handed to `SetDeployments` is exactly those with apiVersion
apps/v1 and kind Deployment, in list order; the pod reconciler's
`SetResources` is handed the daemonset list followed by the deployment list;
and no object is classified as both. -/
theorem reconcile_classifies_workloads (c : Collaborators σ Spec Boot) (request : Request)
    (w : σ) (spec : Spec) (objs : List Unstructured) (cfg : Network Spec) (app : Unstructured)
    (hrender : Event.Render spec (.ok objs) ∈ (Reconcile c request w).trace)
    (happ : Event.AppliedConfiguration cfg (.ok app) ∈ (Reconcile c request w).trace)
    (hrun : Event.RunNamespaceController true ∈ (Reconcile c request w).trace) :
    (∀ l, Event.SetDaemonSets l ∈ (Reconcile c request w).trace ↔
      l = ((app :: objs).filter isDaemonSet).map namespacedNameOf) ∧
    (∀ l, Event.SetDeployments l ∈ (Reconcile c request w).trace ↔
      l = ((app :: objs).filter isDeployment).map namespacedNameOf) ∧
    (∀ l, Event.SetResources l ∈ (Reconcile c request w).trace ↔
      l = ((app :: objs).filter isDaemonSet).map namespacedNameOf ++
        ((app :: objs).filter isDeployment).map namespacedNameOf) ∧
    (∀ obj, ¬ (isDaemonSet obj = true ∧ isDeployment obj = true)) ∧
    (classifyLoop c (app :: objs) ⟨[], [], []⟩).daemonSets =
      ((app :: objs).filter isDaemonSet).map namespacedNameOf ∧
    (classifyLoop c (app :: objs) ⟨[], [], []⟩).deployments =
      ((app :: objs).filter isDeployment).map namespacedNameOf := by
  have hcl := classifyLoop_lists c (app :: objs) ⟨[], [], []⟩
  simp only [List.nil_append] at hcl
  refine ⟨?_, ?_, ?_, not_daemonSet_and_deployment, hcl.1, hcl.2⟩
  all_goals
    generalize hout : Reconcile c request w = out at hrender happ hrun ⊢
    unfold Reconcile at hout
    repeat' (first | split at hout | dsimp only at hout)
    all_goals subst hout
    all_goals try simp [Outcome.after] at hrun
    all_goals
      simp only [Outcome.after, List.mem_append, List.mem_cons, List.mem_singleton,
        List.not_mem_nil, reduceCtorEq, false_or, or_false] at hrender happ hrun
      have key := reconcileRender_reports c _ _ spec objs cfg app hrender happ hrun
      intro l
      first
        | (rw [← key.1 l]; simp [Outcome.after])
        | (rw [← key.2.1 l]; simp [Outcome.after])
        | (rw [← key.2.2 l]; simp [Outcome.after])

end workloads

end operconfig

namespace operconfig

section requeue

variable {σ : Type}

/-- Every re-queue `sync` asks for is for its own namespace and one minute
away. -/
theorem sync_addAfter_fixed (c : NamespaceClient σ) (name : String) (w : σ) (key : String)
    (delay : Int) (h : SyncEvent.AddAfter key delay ∈ (sync c name w).trace) :
    key = name ∧ delay = 1 * Minute := by
  unfold sync at h
  repeat' (first | split at h | dsimp only at h)
  all_goals
    simp only [List.mem_cons, List.mem_singleton, SyncEvent.AddAfter.injEq, reduceCtorEq,
      false_or, or_false, List.mem_nil_iff, List.not_mem_nil] at h
  all_goals exact h

/-- Claim C19, amended. When `sync` has written the namespace back without the
kubernetes finalizer, the namespace as written has deletion timestamp `t`, and
the clock reads `now` with `now ≤ t + 1 minute` (the grace period is not over),
then `sync` returns nil and makes exactly one more call: it re-queues the
namespace with a delay of one full minute, whatever is left of the grace
window. -/
theorem sync_requeues_for_one_minute (c : NamespaceClient σ) (name : String) (w : σ)
    (written updated : Namespace) (t now : Int)
    (hupd : SyncEvent.Update written (.ok updated) ∈ (sync c name w).trace)
    (ht : updated.DeletionTimestamp = some t)
    (hnow : SyncEvent.Now now ∈ (sync c name w).trace)
    (hgrace : now ≤ t + 1 * Minute) :
    (sync c name w).err = none ∧
    ∃ ns, (sync c name w).trace =
      [.Get name (.ok ns), .Update written (.ok updated), .Now now,
        .AddAfter name (1 * Minute)] := by
  generalize hout : sync c name w = out at hupd hnow ⊢
  unfold sync at hout
  repeat' (first | split at hout | dsimp only at hout)
  all_goals subst hout
  all_goals
    simp only [List.mem_cons, List.mem_singleton, SyncEvent.Update.injEq, SyncEvent.Now.injEq,
      reduceCtorEq, false_or, or_false, List.mem_nil_iff, List.not_mem_nil,
      Except.ok.injEq] at hupd hnow
  all_goals
    obtain ⟨rfl, rfl⟩ := hupd
    subst hnow
  all_goals first
    | exact ⟨rfl, _, rfl⟩
    | (exfalso
       simp_all
       omega)

end requeue

end operconfig

namespace network

/-- When the directory renders, `renderDHCPDaemon` returns exactly its
manifests, in order, and the directory it renders is network/dhcp under the
manifest dir. -/
theorem renderDHCPDaemon_ok (Join : String → String → String)
    (RenderDir : String → Except GoError (List Unstructured)) (manifestDir : String)
    (manifests : List Unstructured)
    (h : RenderDir (Join manifestDir "network/dhcp") = .ok manifests) :
    renderDHCPDaemon Join RenderDir manifestDir = .ok manifests := by
  simp [renderDHCPDaemon, h]

/-- When the directory does not render, `renderDHCPDaemon` returns the error,
wrapped, and no object. -/
theorem renderDHCPDaemon_error (Join : String → String → String)
    (RenderDir : String → Except GoError (List Unstructured)) (manifestDir : String)
    (err : GoError) (h : RenderDir (Join manifestDir "network/dhcp") = .error err) :
    renderDHCPDaemon Join RenderDir manifestDir =
      .error ⟨"failed to render dhcp manifests: " ++ err.Error, err.notFound⟩ := by
  simp [renderDHCPDaemon, h, Wrap, Wrapf]

end network

namespace allowlist

section stale

variable {σ : Type}

/-- The loop over pods of which none is owned by `uid` reports ready. -/
theorem podsReadyLoop_of_none_owned (uid : String) (pods : List Pod)
    (h : ∀ pod ∈ pods, ownedBy uid pod = false) : podsReadyLoop uid pods = true := by
  rw [podsReadyLoop_eq_all, List.all_eq_true]
  intro pod hp
  rw [h pod hp]
  rfl

theorem ownedBy_eq_false_iff (uid : String) (pod : Pod) :
    ownedBy uid pod = false ↔
      pod.OwnerReferences = [] ∨
        ∃ ref refs, pod.OwnerReferences = ref :: refs ∧ ref.UID ≠ uid := by
  unfold ownedBy
  rcases pod.OwnerReferences with _ | ⟨ref, refs⟩
  · simp
  · simp

/-- Claim C22. In one tick of the poll, when the daemonset exists with a UID
that is not empty and the pod list is not empty but every listed pod has no
owner reference or a first owner reference with another UID, the tick reports
done without error, whatever the container statuses of those pods are; a poll
that gets at least one tick ends there without error. -/
theorem tick_ready_over_stale_pods (c : Client σ) (w w1 w2 : σ) (ds : DaemonSet)
    (podList : List Pod)
    (hds : c.GetDaemonSet w names.MULTUS_NAMESPACE allowlistDsName = (.ok (some ds), w1))
    (huid : ds.UID ≠ "")
    (hlist : c.ListPods w1 names.MULTUS_NAMESPACE allowlistAnnotation = (.ok podList, w2))
    (hne : podList ≠ [])
    (hstale : ∀ pod ∈ podList, pod.OwnerReferences = [] ∨
      ∃ ref refs, pod.OwnerReferences = ref :: refs ∧ ref.UID ≠ ds.UID) :
    checkDsPodsReadyTick c w =
      ((true, none),
        [.GetDaemonSet names.MULTUS_NAMESPACE allowlistDsName (.ok (some ds)),
          .ListPods names.MULTUS_NAMESPACE allowlistAnnotation (.ok podList)], w2) ∧
    ∀ ticks, PollUntilContextTimeout (checkDsPodsReadyTick c) (ticks + 1) w =
      (none,
        [.GetDaemonSet names.MULTUS_NAMESPACE allowlistDsName (.ok (some ds)),
          .ListPods names.MULTUS_NAMESPACE allowlistAnnotation (.ok podList)], w2) := by
  have htick : checkDsPodsReadyTick c w =
      ((true, none),
        [.GetDaemonSet names.MULTUS_NAMESPACE allowlistDsName (.ok (some ds)),
          .ListPods names.MULTUS_NAMESPACE allowlistAnnotation (.ok podList)], w2) := by
    rw [checkDsPodsReadyTick_listed c w w1 w2 ds podList hds huid hlist hne,
      podsReadyLoop_of_none_owned ds.UID podList
        (fun pod hp => (ownedBy_eq_false_iff ds.UID pod).mpr (hstale pod hp))]
  refine ⟨htick, fun ticks => ?_⟩
  unfold PollUntilContextTimeout
  rw [htick]

end stale

end allowlist

namespace operconfig

section referenceFailure

variable {σ Spec Boot : Type}

/-- A failed `SetControllerReference` ends the loop, annotation or not: the
loop returns the wrapped error, its last two calls are the failed call and
`SetDegraded`, and the objects handed to `apply.ApplyObject` are those before
the failing one. -/
theorem applyLoop_reference_failure (c : Collaborators σ Spec Boot) (operConfig : Network Spec)
    (objs : List Unstructured) (w : σ) (owner : Network Spec) (obj : Unstructured)
    (err0 : GoError)
    (h : Event.SetControllerReference owner obj (.error err0) ∈
      (applyLoop c operConfig objs w).trace) :
    (applyLoop c operConfig objs w).err =
      some (Wrapf err0 ("could not set reference for " ++ obj.describe)) ∧
    (∃ t, (applyLoop c operConfig objs w).trace = t ++
      [.SetControllerReference owner obj (.error err0),
        .SetDegraded .OperatorConfig "InternalError"
          ("Internal error while updating operator configuration: " ++
            (Wrapf err0 ("could not set reference for " ++ obj.describe)).Error)]) ∧
    owner = operConfig ∧
    ∃ pre post, objs = pre ++ obj :: post ∧
      List.Forall₂ (ownedVersionOf c operConfig)
        (applyCalls (applyLoop c operConfig objs w).trace) pre := by
  induction objs generalizing w with
  | nil => simp [applyLoop] at h
  | cons o rest ih =>
    rcases hset : c.SetControllerReference operConfig o with e0 | refs
    · rw [applyLoop_cons_reference_error c operConfig o rest w e0 hset] at h ⊢
      simp only [List.mem_cons, List.mem_singleton, Event.SetControllerReference.injEq,
        reduceCtorEq, or_false, List.not_mem_nil, Except.error.injEq] at h
      obtain ⟨rfl, rfl, rfl⟩ := h
      exact ⟨rfl, ⟨[], rfl⟩, rfl, [], rest, rfl, by simp [applyCalls]⟩
    · rcases happly : c.ApplyObject w (o.withOwnerReferences refs) with ⟨r, w2⟩
      have step : ∀ (r1 : Option GoError),
          Event.SetControllerReference owner obj (.error err0) ∈
            ((applyLoop c operConfig rest w2).after
              [.SetControllerReference operConfig o (.ok refs),
                .ApplyObject (o.withOwnerReferences refs) r1]).trace →
          ((applyLoop c operConfig rest w2).after
              [.SetControllerReference operConfig o (.ok refs),
                .ApplyObject (o.withOwnerReferences refs) r1]).err =
            some (Wrapf err0 ("could not set reference for " ++ obj.describe)) ∧
          (∃ t, ((applyLoop c operConfig rest w2).after
              [.SetControllerReference operConfig o (.ok refs),
                .ApplyObject (o.withOwnerReferences refs) r1]).trace = t ++
            [.SetControllerReference owner obj (.error err0),
              .SetDegraded .OperatorConfig "InternalError"
                ("Internal error while updating operator configuration: " ++
                  (Wrapf err0 ("could not set reference for " ++ obj.describe)).Error)]) ∧
          owner = operConfig ∧
          ∃ pre post, o :: rest = pre ++ obj :: post ∧
            List.Forall₂ (ownedVersionOf c operConfig)
              (applyCalls ((applyLoop c operConfig rest w2).after
                [.SetControllerReference operConfig o (.ok refs),
                  .ApplyObject (o.withOwnerReferences refs) r1]).trace) pre := by
        intro r1 h1
        simp only [LoopOutcome.after, List.mem_append, List.mem_cons, List.mem_singleton,
          Event.SetControllerReference.injEq, reduceCtorEq, and_false, false_or, or_false,
          List.not_mem_nil] at h1
        obtain ⟨herr, ⟨t, ht⟩, howner, pre, post, hobjs, hF⟩ := ih w2 h1
        refine ⟨herr, ⟨Event.SetControllerReference operConfig o (.ok refs) ::
          Event.ApplyObject (o.withOwnerReferences refs) r1 :: t, ?_⟩, howner,
          o :: pre, post, by rw [hobjs]; rfl, ?_⟩
        · simp [LoopOutcome.after, ht]
        · simp only [LoopOutcome.after, List.cons_append, List.nil_append, applyCalls]
          exact List.Forall₂.cons ⟨refs, hset, rfl⟩ hF
      cases r with
      | none =>
        rw [applyLoop_cons_applied c operConfig o rest w w2 refs hset happly] at h ⊢
        exact step none h
      | some e1 =>
        cases hanno1 : hasIgnoreObjectError (o.withOwnerReferences refs) with
        | true =>
          rw [applyLoop_cons_ignored c operConfig o rest w w2 refs e1 hset happly hanno1] at h ⊢
          exact step (some e1) h
        | false =>
          rw [applyLoop_cons_aborted c operConfig o rest w w2 refs e1 hset happly hanno1] at h
          simp at h

theorem reconcileObjects_reference_failure (c : Collaborators σ Spec Boot)
    (operConfig : Network Spec) (objs : List Unstructured) (w : σ) (owner : Network Spec)
    (obj : Unstructured) (err0 : GoError)
    (h : Event.SetControllerReference owner obj (.error err0) ∈
      (reconcileObjects c operConfig objs w).trace) :
    (reconcileObjects c operConfig objs w).ret =
      some (Result.empty, some (Wrapf err0 ("could not set reference for " ++ obj.describe))) ∧
    (∃ t, (reconcileObjects c operConfig objs w).trace = t ++
      [.SetControllerReference owner obj (.error err0),
        .SetDegraded .OperatorConfig "InternalError"
          ("Internal error while updating operator configuration: " ++
            (Wrapf err0 ("could not set reference for " ++ obj.describe)).Error)]) ∧
    owner = operConfig ∧
    ∃ pre post, objs = pre ++ obj :: post ∧
      List.Forall₂ (ownedVersionOf c operConfig)
        (applyCalls (reconcileObjects c operConfig objs w).trace) pre := by
  generalize hout : reconcileObjects c operConfig objs w = out at h ⊢
  unfold reconcileObjects at hout
  dsimp only at hout
  split at hout
  · subst hout
    simp at h
  · rename_i w1 hrun
    split at hout
    · rename_i err herr
      subst hout
      simp only [List.mem_append, List.mem_cons, List.mem_singleton, List.not_mem_nil,
        reduceCtorEq, false_or, or_false] at h
      obtain ⟨herr2, ⟨t, ht⟩, howner, pre, post, hobjs, hF⟩ :=
        applyLoop_reference_failure c operConfig objs w1 owner obj err0 h
      rw [herr] at herr2
      cases herr2
      refine ⟨rfl, ?_, howner, pre, post, hobjs, ?_⟩
      · dsimp only
        rw [ht]
        exact ⟨_, (List.append_assoc _ _ _).symm⟩
      · simpa [applyCalls_append, applyCalls] using hF
    · rename_i herr
      subst hout
      simp only [Outcome.after, List.mem_append, List.mem_cons, List.mem_singleton,
        List.not_mem_nil, reduceCtorEq, false_or, or_false] at h
      rcases h with h | h
      · obtain ⟨herr2, -⟩ := applyLoop_reference_failure c operConfig objs w1 owner obj err0 h
        rw [herr] at herr2
        cases herr2
      · exact absurd h (reconcileStatus_no_SetControllerReference c operConfig _ owner obj _)

theorem reconcileRender_reference_failure (c : Collaborators σ Spec Boot)
    (operConfig : Network Spec) (w : σ) (owner : Network Spec) (obj : Unstructured)
    (err0 : GoError)
    (h : Event.SetControllerReference owner obj (.error err0) ∈
      (reconcileRender c operConfig w).trace) :
    (reconcileRender c operConfig w).ret =
      some (Result.empty, some (Wrapf err0 ("could not set reference for " ++ obj.describe))) ∧
    (∃ t, (reconcileRender c operConfig w).trace = t ++
      [.SetControllerReference owner obj (.error err0),
        .SetDegraded .OperatorConfig "InternalError"
          ("Internal error while updating operator configuration: " ++
            (Wrapf err0 ("could not set reference for " ++ obj.describe)).Error)]) ∧
    ∃ spec objs app pre post,
      Event.Render spec (.ok objs) ∈ (reconcileRender c operConfig w).trace ∧
      Event.AppliedConfiguration owner (.ok app) ∈ (reconcileRender c operConfig w).trace ∧
      app :: objs = pre ++ obj :: post ∧
      List.Forall₂ (ownedVersionOf c owner)
        (applyCalls (reconcileRender c operConfig w).trace) pre := by
  generalize hout : reconcileRender c operConfig w = out at h ⊢
  unfold reconcileRender at hout
  repeat' (first | split at hout | dsimp only at hout)
  all_goals subst hout
  all_goals try simp [Outcome.after] at h
  rename_i objs0 _ _ app _
  obtain ⟨hret, ⟨t, ht⟩, rfl, pre, post, hobjs, hF⟩ :=
    reconcileObjects_reference_failure c operConfig _ _ owner obj err0 h
  refine ⟨hret, ?_, owner.Spec, objs0, app, pre, post, ?_, ?_, ?_, ?_⟩
  · dsimp only [Outcome.after]
    simp only [List.singleton_append]
    rw [ht]
    exact ⟨_, (List.append_assoc _ _ _).symm⟩
  · simp [Outcome.after]
  · simp [Outcome.after]
  · simpa using hobjs
  · simpa [Outcome.after, applyCalls_append, applyCalls] using hF

/-- The text of the error the apply loop returns for a failed
`SetControllerReference`. -/
theorem could_not_set_reference_message (obj : Unstructured) (err0 : GoError) :
    (Wrapf err0 ("could not set reference for " ++ obj.describe)).Error =
      "could not set reference for (" ++ obj.GroupVersionKind.String ++ ") " ++
        obj.Namespace ++ "/" ++ obj.Name ++ ": " ++ err0.Error := by
  have hlit : "could not set reference for " ++ "(" = "could not set reference for (" := by
    decide
  simp only [Wrapf, GoError.Error, Unstructured.describe, String.append_assoc]
  rw [← String.append_assoc "could not set reference for " "(", hlit]

/-- Claim C23. When `SetControllerReference` fails on an object in the apply
loop, whether or not the object carries the ignore-errors annotation,
`Reconcile` returns, with an empty result, the error "could not set reference
for (group/version, Kind=kind) namespace/name: cause"; the failed call and
`SetDegraded` with reason InternalError are its last two calls; and the objects
handed to `apply.ApplyObject` in the whole run are those that stand before the
failing object in the list (the record, then the rendered objects), so that
neither the failing object nor a later one nor the status object is applied. -/
theorem reconcile_reference_failure_aborts (c : Collaborators σ Spec Boot) (request : Request)
    (w : σ) (owner : Network Spec) (obj : Unstructured) (err0 : GoError)
    (h : Event.SetControllerReference owner obj (.error err0) ∈ (Reconcile c request w).trace) :
    (Reconcile c request w).ret =
      some (Result.empty, some (Wrapf err0 ("could not set reference for " ++ obj.describe))) ∧
    (Wrapf err0 ("could not set reference for " ++ obj.describe)).Error =
      "could not set reference for (" ++ obj.GroupVersionKind.String ++ ") " ++
        obj.Namespace ++ "/" ++ obj.Name ++ ": " ++ err0.Error ∧
    (∃ t, (Reconcile c request w).trace = t ++
      [.SetControllerReference owner obj (.error err0),
        .SetDegraded .OperatorConfig "InternalError"
          ("Internal error while updating operator configuration: " ++
            (Wrapf err0 ("could not set reference for " ++ obj.describe)).Error)]) ∧
    ∃ spec objs app pre post,
      Event.Render spec (.ok objs) ∈ (Reconcile c request w).trace ∧
      Event.AppliedConfiguration owner (.ok app) ∈ (Reconcile c request w).trace ∧
      app :: objs = pre ++ obj :: post ∧
      List.Forall₂ (ownedVersionOf c owner) (applyCalls (Reconcile c request w).trace) pre := by
  refine ⟨?_, could_not_set_reference_message obj err0, ?_⟩
  all_goals
    generalize hout : Reconcile c request w = out at h ⊢
    unfold Reconcile at hout
    repeat' (first | split at hout | dsimp only at hout)
    all_goals subst hout
    all_goals try simp [Outcome.after] at h
    all_goals
      obtain ⟨hret, ⟨t, ht⟩, spec, objs, app, pre, post, hrender, happ, hobjs, hF⟩ :=
        reconcileRender_reference_failure c _ _ owner obj err0 h
  · exact hret
  · exact hret
  · exact hret
  all_goals
    refine ⟨?_, spec, objs, app, pre, post, ?_, ?_, hobjs, ?_⟩
    · dsimp only [Outcome.after]
      rw [ht]
      exact ⟨_, (List.append_assoc _ _ _).symm⟩
    · simp [Outcome.after, hrender]
    · simp [Outcome.after, happ]
    · simpa [Outcome.after, applyCalls_append, applyCalls] using hF

end referenceFailure

end operconfig

namespace allowlist

section retry

variable {σ : Type}

theorem getDaemonSet_trace (c : Client σ) (w : σ) :
    (getDaemonSet c w).2.1 =
      [.GetDaemonSet names.MULTUS_NAMESPACE allowlistDsName
        (c.GetDaemonSet w names.MULTUS_NAMESPACE allowlistDsName).1] := by
  unfold getDaemonSet
  split
  · rename_i err w1 h
    rw [h]
    split <;> rfl
  · rename_i ds w1 h
    rw [h]

/-- The first call of lines 121-150 is the lookup of the daemonset. -/
theorem reconcileDaemonSet_trace_head (c : Client σ) (w : σ) :
    ∃ rest, (reconcileDaemonSet c w).2.1 =
      .GetDaemonSet names.MULTUS_NAMESPACE allowlistDsName
        (c.GetDaemonSet w names.MULTUS_NAMESPACE allowlistDsName).1 :: rest := by
  have hg := getDaemonSet_trace c w
  unfold reconcileDaemonSet
  repeat' split
  all_goals rw [‹getDaemonSet c w = _›] at hg
  all_goals dsimp only at hg ⊢
  all_goals rw [hg]
  all_goals simp

/-- The first call of `cleanup` is the lookup of the daemonset. -/
theorem cleanup_trace_head (c : Client σ) (w : σ) :
    ∃ rest, (cleanup c w).1 =
      .GetDaemonSet names.MULTUS_NAMESPACE allowlistDsName
        (c.GetDaemonSet w names.MULTUS_NAMESPACE allowlistDsName).1 :: rest := by
  have hg := getDaemonSet_trace c w
  unfold cleanup
  repeat' split
  all_goals rw [‹getDaemonSet c w = _›] at hg
  all_goals dsimp only at hg ⊢
  all_goals rw [hg]
  all_goals simp

/-- Lines 121-130 when the lookup finds the daemonset: the error "retrying",
after the lookup alone. -/
theorem reconcileDaemonSet_found (c : Client σ) (w w1 : σ) (ds : DaemonSet)
    (hds : c.GetDaemonSet w names.MULTUS_NAMESPACE allowlistDsName = (.ok (some ds), w1)) :
    reconcileDaemonSet c w =
      ((Result.empty, some (errorsNew "retrying")),
        [.GetDaemonSet names.MULTUS_NAMESPACE allowlistDsName (.ok (some ds))], w1) := by
  unfold reconcileDaemonSet
  rw [getDaemonSet_found c w w1 (some ds) hds]

/-- The function `cleanup` when its lookup finds the daemonset: the lookup,
then the delete. -/
theorem cleanup_found (c : Client σ) (w w1 : σ) (ds : DaemonSet)
    (hds : c.GetDaemonSet w names.MULTUS_NAMESPACE allowlistDsName = (.ok (some ds), w1)) :
    cleanup c w =
      ([.GetDaemonSet names.MULTUS_NAMESPACE allowlistDsName (.ok (some ds)),
          .DeleteDaemonSet names.MULTUS_NAMESPACE allowlistDsName
            (c.DeleteDaemonSet w1 names.MULTUS_NAMESPACE allowlistDsName).1],
        (c.DeleteDaemonSet w1 names.MULTUS_NAMESPACE allowlistDsName).2) := by
  unfold cleanup
  rw [getDaemonSet_found c w w1 (some ds) hds]
  simp [deleteDaemonSet]

/-- The function `cleanup` when its lookup does not find the daemonset, be
it absent or the lookup failing: the lookup alone, and no delete. -/
theorem cleanup_not_found (c : Client σ) (w w1 : σ) (res : Except GoError (Option DaemonSet))
    (hres : c.GetDaemonSet w names.MULTUS_NAMESPACE allowlistDsName = (res, w1))
    (hnot : ∀ ds, res ≠ .ok (some ds)) :
    cleanup c w = ([.GetDaemonSet names.MULTUS_NAMESPACE allowlistDsName res], w1) := by
  unfold cleanup getDaemonSet
  rw [hres]
  rcases res with err | ds
  · by_cases hnf : IsNotFound err = true <;> simp [hnf]
  · cases ds with
    | none => rfl
    | some ds => exact absurd rfl (hnot ds)

theorem createLoop_trace (c : Client σ) (objs : List Unstructured) (w : σ) :
    ∀ e ∈ (createLoop c objs w).2.1, ∃ obj err, e = Event.Create obj err := by
  induction objs generalizing w with
  | nil => simp [createLoop]
  | cons obj rest ih =>
    intro e he
    unfold createLoop createObject at he
    rcases hc : c.Create w obj with ⟨r, w1⟩
    rw [hc] at he
    cases r with
    | some err =>
      simp only [List.mem_singleton] at he
      exact ⟨_, _, he⟩
    | none =>
      simp only [List.mem_append, List.mem_singleton] at he
      rcases he with he | he
      · exact ⟨_, _, he⟩
      · exact ih w1 e he

/-- The calls of `createObjects`: the render of its directory, then creates. -/
theorem createObjects_trace (c : Client σ) (dir : String) (w : σ) :
    ∀ e ∈ (createObjects c dir w).2.1,
      (∃ res, e = Event.RenderDir dir res) ∨ ∃ obj err, e = Event.Create obj err := by
  intro e he
  unfold createObjects at he
  split at he
  · simp only [List.mem_singleton] at he
    exact Or.inl ⟨_, he⟩
  · rename_i manifests hr
    simp only [List.mem_append, List.mem_singleton] at he
    rcases he with he | he
    · exact Or.inl ⟨_, he⟩
    · exact Or.inr (createLoop_trace c manifests w e he)

/-- A create loop that returns no error has created every object, in order. -/
theorem createLoop_ok (c : Client σ) (objs : List Unstructured) (w w1 : σ) (t : List Event)
    (h : createLoop c objs w = (none, t, w1)) :
    t = objs.map (fun obj => Event.Create obj none) := by
  induction objs generalizing w t with
  | nil =>
    simp only [createLoop, Prod.mk.injEq] at h
    simp [← h.2.1]
  | cons obj rest ih =>
    unfold createLoop createObject at h
    rcases hc : c.Create w obj with ⟨r, w2⟩
    rw [hc] at h
    cases r with
    | some err => simp at h
    | none =>
      rcases hl : createLoop c rest w2 with ⟨r2, t2, w3⟩
      dsimp only at h
      rw [hl] at h
      simp only [Prod.mk.injEq] at h
      obtain ⟨rfl, rfl, rfl⟩ := h
      rw [ih w2 t2 hl]
      rfl

/-- When `createObjects` returns no error, its calls are the render of the
directory and one successful create for each manifest, in order. -/
theorem createObjects_ok (c : Client σ) (dir : String) (w w1 : σ) (t : List Event)
    (h : createObjects c dir w = (none, t, w1)) :
    ∃ manifests, c.RenderDir dir = .ok manifests ∧
      t = Event.RenderDir dir (.ok manifests) ::
        manifests.map (fun obj => Event.Create obj none) := by
  unfold createObjects at h
  rcases hr : c.RenderDir dir with err | manifests
  · rw [hr] at h
    simp at h
  · rw [hr] at h
    rcases hl : createLoop c manifests w with ⟨r2, t2, w3⟩
    dsimp only at h
    rw [hl] at h
    simp only [Prod.mk.injEq] at h
    obtain ⟨rfl, rfl, rfl⟩ := h
    refine ⟨manifests, rfl, ?_⟩
    rw [createLoop_ok c manifests w w3 t2 hl]
    rfl

theorem getDaemonSet_afterFetch (c : Client σ) (w : σ) :
    ∀ e ∈ (getDaemonSet c w).2.1, e.afterFetch = true := by
  intro e he
  rw [getDaemonSet_trace, List.mem_singleton] at he
  subst he
  rfl

theorem createObjects_afterFetch (c : Client σ) (dir : String) (w : σ) :
    ∀ e ∈ (createObjects c dir w).2.1, e.afterFetch = true := by
  intro e he
  rcases createObjects_trace c dir w e he with ⟨_, rfl⟩ | ⟨_, _, rfl⟩ <;> rfl

theorem checkDsPodsReadyTick_afterFetch (c : Client σ) (w : σ) :
    ∀ e ∈ (checkDsPodsReadyTick c w).2.1, e.afterFetch = true := by
  intro e he
  have hg := getDaemonSet_afterFetch c w e
  unfold checkDsPodsReadyTick at he
  repeat' (split at he)
  all_goals rw [‹getDaemonSet c w = _›] at hg
  all_goals dsimp only at hg he
  all_goals first
    | exact hg he
    | (simp only [List.mem_append, List.mem_singleton] at he
       rcases he with he | rfl
       · exact hg he
       · rfl)

theorem PollUntilContextTimeout_afterFetch
    (condition : σ → (Bool × Option GoError) × List Event × σ)
    (hc : ∀ w, ∀ e ∈ (condition w).2.1, e.afterFetch = true) (ticks : Nat) (w : σ) :
    ∀ e ∈ (PollUntilContextTimeout condition ticks w).2.1, e.afterFetch = true := by
  induction ticks generalizing w with
  | zero => simp [PollUntilContextTimeout]
  | succ n ih =>
    intro e he
    have hcw := hc w e
    unfold PollUntilContextTimeout at he
    split at he
    · rename_i h1
      rw [h1] at hcw
      exact hcw he
    · rename_i h1
      rw [h1] at hcw
      exact hcw he
    · rename_i t w1 h1
      rw [h1] at hcw
      split at he
      rename_i r t2 w2 h2
      simp only [List.mem_append] at he
      rcases he with he | he
      · exact hcw he
      · have := ih w1 e
        rw [h2] at this
        exact this he

theorem reconcileDaemonSet_afterFetch (c : Client σ) (w : σ) :
    ∀ e ∈ (reconcileDaemonSet c w).2.1, e.afterFetch = true := by
  intro e he
  have hg := getDaemonSet_afterFetch c w e
  unfold reconcileDaemonSet at he
  split at he
  · rename_i err t w1 hget
    rw [hget] at hg
    exact hg he
  · rename_i ds t w1 hget
    rw [hget] at hg
    exact hg he
  · rename_i t w1 hget
    rw [hget] at hg
    dsimp only at he hg
    have hc := createObjects_afterFetch c manifestDir w1 e
    split at he
    · rename_i err t2 w2 hcreate
      rw [hcreate] at hc
      simp only [List.mem_append] at he
      rcases he with he | he
      · exact hg he
      · exact hc he
    · rename_i t2 w2 hcreate
      rw [hcreate] at hc
      have hp := PollUntilContextTimeout_afterFetch _ (checkDsPodsReadyTick_afterFetch c)
        c.pollTicks w2 e
      unfold checkDsPodsReady at he
      split at he
      all_goals
        rename_i hpoll
        rw [hpoll] at hp
        simp only [List.mem_append, List.mem_singleton] at he
        rcases he with ((he | he) | he) | rfl
        · exact hg he
        · exact hc he
        · exact hp he
        · rfl

theorem cleanup_afterFetch (c : Client σ) (w : σ) :
    ∀ e ∈ (cleanup c w).1, e.afterFetch = true := by
  intro e he
  rcases hres : c.GetDaemonSet w names.MULTUS_NAMESPACE allowlistDsName with ⟨res, w1⟩
  by_cases hfound : ∃ ds, res = .ok (some ds)
  · obtain ⟨ds, rfl⟩ := hfound
    rw [cleanup_found c w w1 ds hres] at he
    simp only [List.mem_cons, List.mem_singleton, List.not_mem_nil, or_false] at he
    rcases he with rfl | rfl <;> rfl
  · rw [cleanup_not_found c w w1 res hres (fun ds h => hfound ⟨ds, h⟩)] at he
    simp only [List.mem_singleton] at he
    subst he
    rfl

/-- The shape of lines 103-151: no call for a request of another name, the
fetch alone when it fails or finds nothing, and otherwise the fetch, the calls
of lines 121-150 and the calls of `cleanup`. -/
theorem reconcileRequest_cases (c : Client σ) (request : Request) (w : σ) :
    (reconcileRequest c request w).trace = [] ∨
    (∃ err, (reconcileRequest c request w).trace =
      [.GetConfig request.NamespacedName (.error err)]) ∨
    ∃ cm1 w1, reconcileRequest c request w =
      ⟨(reconcileDaemonSet c w1).1,
        .GetConfig request.NamespacedName (.ok cm1) ::
          ((reconcileDaemonSet c w1).2.1 ++ (cleanup c (reconcileDaemonSet c w1).2.2).1),
        (cleanup c (reconcileDaemonSet c w1).2.2).2⟩ := by
  by_cases hname : request.NamespacedName.Name ≠ names.ALLOWLIST_CONFIG_NAME
  · exact Or.inl (by simp [reconcileRequest, hname])
  · rcases hg : c.GetConfig w request.NamespacedName with ⟨res, w1⟩
    rcases res with err | cm1
    · refine Or.inr (Or.inl ⟨err, ?_⟩)
      unfold reconcileRequest getConfig
      rw [if_neg hname, hg]
      by_cases hnf : IsNotFound err = true <;> simp [hnf]
    · refine Or.inr (Or.inr ⟨cm1, w1, ?_⟩)
      have hgc : getConfig c request.NamespacedName w =
          (.ok (some cm1), [.GetConfig request.NamespacedName (.ok cm1)], w1) := by
        simp [getConfig, hg]
      unfold reconcileRequest
      rw [if_neg hname, hgc]
      simp

/-- Lines 103-151 when the fetch of the configmap is followed by a lookup that
finds the daemonset: the error "retrying", and after the lookup only the calls
of `cleanup`: its own lookup, then the delete if that lookup found the
daemonset. -/
theorem reconcileRequest_lookup_found (c : Client σ) (request : Request) (w : σ)
    (key : NamespacedName) (cm : ConfigMap) (ds : DaemonSet) (rest : List Event)
    (h : (reconcileRequest c request w).trace =
      .GetConfig key (.ok cm) ::
        .GetDaemonSet names.MULTUS_NAMESPACE allowlistDsName (.ok (some ds)) :: rest) :
    (reconcileRequest c request w).ret = (Result.empty, some (errorsNew "retrying")) ∧
    ((∃ ds2 err, rest =
        [.GetDaemonSet names.MULTUS_NAMESPACE allowlistDsName (.ok (some ds2)),
          .DeleteDaemonSet names.MULTUS_NAMESPACE allowlistDsName err]) ∨
      ∃ res, (∀ ds2, res ≠ .ok (some ds2)) ∧
        rest = [.GetDaemonSet names.MULTUS_NAMESPACE allowlistDsName res]) := by
  rcases reconcileRequest_cases c request w with h0 | ⟨err, h0⟩ | ⟨cm1, w1, h0⟩
  · rw [h0] at h
    cases h
  · rw [h0] at h
    cases h
  · rw [h0] at h ⊢
    dsimp only at h ⊢
    simp only [List.cons.injEq] at h
    obtain ⟨-, htail⟩ := h
    rcases hl : c.GetDaemonSet w1 names.MULTUS_NAMESPACE allowlistDsName with ⟨r1, w2⟩
    have hr1 : r1 = .ok (some ds) := by
      obtain ⟨rest0, hrest0⟩ := reconcileDaemonSet_trace_head c w1
      rw [hrest0, hl] at htail
      simp only [List.cons_append, List.cons.injEq, Event.GetDaemonSet.injEq, true_and]
        at htail
      exact htail.1
    subst hr1
    rw [reconcileDaemonSet_found c w1 w2 ds hl] at htail ⊢
    dsimp only at htail ⊢
    simp only [List.cons_append, List.nil_append, List.cons.injEq, true_and] at htail
    refine ⟨rfl, ?_⟩
    rcases hl2 : c.GetDaemonSet w2 names.MULTUS_NAMESPACE allowlistDsName with ⟨r2, w3⟩
    by_cases hf : ∃ ds2, r2 = .ok (some ds2)
    · obtain ⟨ds2, rfl⟩ := hf
      rw [cleanup_found c w2 w3 ds2 hl2] at htail
      exact Or.inl ⟨ds2, _, htail.symm⟩
    · rw [cleanup_not_found c w2 w3 r2 hl2 (fun ds2 h2 => hf ⟨ds2, h2⟩)] at htail
      exact Or.inr ⟨r2, fun ds2 h2 => hf ⟨ds2, h2⟩, htail.symm⟩

/-- Where the element `x` stands in `l1 ++ y :: tl` when it occurs neither in
`l1` nor in `tl`. -/
theorem eq_of_append_cons_eq {α : Type} (l1 tl t r : List α) (x y : α)
    (h : l1 ++ y :: tl = t ++ x :: r) (h1 : x ∉ l1) (h2 : x ∉ tl) :
    t = l1 ∧ y = x ∧ tl = r := by
  rcases List.append_eq_append_iff.mp h with ⟨a, ht, ha⟩ | ⟨b, hl, hb⟩
  · cases a with
    | nil =>
      simp only [List.nil_append, List.cons.injEq] at ha
      exact ⟨by simpa using ht, ha.1, ha.2⟩
    | cons z a2 =>
      simp only [List.cons_append, List.cons.injEq] at ha
      exact absurd (by rw [ha.2]; simp) h2
  · cases b with
    | nil =>
      simp only [List.nil_append, List.cons.injEq] at hb
      exact ⟨by simpa using hl.symm, hb.1.symm, hb.2.symm⟩
    | cons z b2 =>
      simp only [List.cons_append, List.cons.injEq] at hb
      exact absurd (by rw [hl, hb.1]; simp) h1

/-- The bootstrap of lines 92-101 and what follows it.  `Reconcile` either
returns from the bootstrap with its error, or goes on with the request.  In
the second case the calls of the bootstrap are the lookup alone when it found
the allowlist configmap, and otherwise the lookup, the render of the baseline
manifest and one successful create for each of its objects. -/
theorem reconcile_bootstrap (c : Client σ) (request : Request) (w : σ) :
    (∀ e ∈ (Reconcile c request w).trace, e.inBootstrap = true) ∨
    ∃ t0 w1,
      (Reconcile c request w).ret = (reconcileRequest c request w1).ret ∧
      (Reconcile c request w).trace = t0 ++ (reconcileRequest c request w1).trace ∧
      ((∃ cm0, t0 = [.GetConfigMap names.MULTUS_NAMESPACE names.ALLOWLIST_CONFIG_NAME
          (.ok (some cm0))]) ∨
        ∃ res manifests, (∀ cm0, res ≠ .ok (some cm0)) ∧
          t0 = .GetConfigMap names.MULTUS_NAMESPACE names.ALLOWLIST_CONFIG_NAME res ::
            .RenderDir allowlistManifestDir (.ok manifests) ::
              manifests.map (fun obj => Event.Create obj none)) := by
  rcases hg : c.GetConfigMap w names.MULTUS_NAMESPACE names.ALLOWLIST_CONFIG_NAME with ⟨res, w1⟩
  have habsent : ∀ (r : Option GoError),
      daemonsetConfigExists c w = ((false, r),
        [.GetConfigMap names.MULTUS_NAMESPACE names.ALLOWLIST_CONFIG_NAME res], w1) →
      (∀ cm0, res ≠ .ok (some cm0)) →
      (∀ e ∈ (Reconcile c request w).trace, e.inBootstrap = true) ∨
      ∃ t0 w1,
        (Reconcile c request w).ret = (reconcileRequest c request w1).ret ∧
        (Reconcile c request w).trace = t0 ++ (reconcileRequest c request w1).trace ∧
        ((∃ cm0, t0 = [.GetConfigMap names.MULTUS_NAMESPACE names.ALLOWLIST_CONFIG_NAME
            (.ok (some cm0))]) ∨
          ∃ res manifests, (∀ cm0, res ≠ .ok (some cm0)) ∧
            t0 = .GetConfigMap names.MULTUS_NAMESPACE names.ALLOWLIST_CONFIG_NAME res ::
              .RenderDir allowlistManifestDir (.ok manifests) ::
                manifests.map (fun obj => Event.Create obj none)) := by
    intro r hex hres
    have hcreate := createObjects_trace c allowlistManifestDir w1
    rcases hco : createObjects c allowlistManifestDir w1 with ⟨r2, t2, w2⟩
    rw [hco] at hcreate
    cases r2 with
    | some err =>
      refine Or.inl ?_
      unfold Reconcile
      rw [hex]
      dsimp only
      rw [hco]
      intro e he
      simp only [List.mem_append, List.mem_singleton] at he
      rcases he with rfl | he
      · rfl
      · rcases hcreate e he with ⟨_, rfl⟩ | ⟨_, _, rfl⟩ <;> rfl
    | none =>
      obtain ⟨manifests, -, ht2⟩ := createObjects_ok c allowlistManifestDir w1 w2 t2 hco
      refine Or.inr ⟨_, w2, ?_, ?_, Or.inr ⟨res, manifests, hres, rfl⟩⟩
      · unfold Reconcile
        rw [hex]
        dsimp only
        rw [hco]
      · unfold Reconcile
        rw [hex]
        dsimp only
        rw [hco, ht2]
        simp
  rcases res with err | cm
  · by_cases hnf : IsNotFound err = true
    · exact habsent none (by simp [daemonsetConfigExists, hg, hnf]) (fun cm0 h => by cases h)
    · exact habsent (some err) (by simp [daemonsetConfigExists, hg, hnf])
        (fun cm0 h => by cases h)
  · cases cm with
    | none =>
      exact habsent none (by simp [daemonsetConfigExists, hg]) (fun cm0 h => by cases h)
    | some cm0 =>
      have hex : daemonsetConfigExists c w = ((true, none),
          [.GetConfigMap names.MULTUS_NAMESPACE names.ALLOWLIST_CONFIG_NAME (.ok (some cm0))],
          w1) := by
        simp [daemonsetConfigExists, hg]
      refine Or.inr ⟨_, w1, ?_, ?_, Or.inl ⟨cm0, rfl⟩⟩
      · unfold Reconcile
        rw [hex]
      · unfold Reconcile
        rw [hex]

/-- Claim C21, amended. When the fetch of the allowlist configmap is followed
by a lookup that finds the allowlist daemonset, `Reconcile` returns the error
"retrying".  Before the fetch it has made the calls of the bootstrap: the
lookup alone when it found the allowlist configmap (the run creates no object
at all), and otherwise the lookup, the render of the baseline manifest and one
create for each of its objects (never the daemonset manifests).  After the
lookup of the daemonset it makes only the calls of the deferred `cleanup`: its
own lookup of the daemonset and, if that lookup finds the daemonset too, the
delete of the daemonset, which is then the last call; if that lookup fails or
finds nothing, no delete is issued.  No object is created from the fetch on. -/
theorem reconcile_existing_daemonset_retries (c : Client σ) (request : Request) (w : σ)
    (key : NamespacedName) (cm : ConfigMap) (ds : DaemonSet) (t rest : List Event)
    (h : (Reconcile c request w).trace =
      t ++ .GetConfig key (.ok cm) ::
        .GetDaemonSet names.MULTUS_NAMESPACE allowlistDsName (.ok (some ds)) :: rest) :
    (Reconcile c request w).ret = (Result.empty, some (errorsNew "retrying")) ∧
    ((∃ cm0, t = [.GetConfigMap names.MULTUS_NAMESPACE names.ALLOWLIST_CONFIG_NAME
        (.ok (some cm0))]) ∨
      ∃ res manifests, (∀ cm0, res ≠ .ok (some cm0)) ∧
        t = .GetConfigMap names.MULTUS_NAMESPACE names.ALLOWLIST_CONFIG_NAME res ::
          .RenderDir allowlistManifestDir (.ok manifests) ::
            manifests.map (fun obj => Event.Create obj none)) ∧
    ((∃ ds2 err, rest =
        [.GetDaemonSet names.MULTUS_NAMESPACE allowlistDsName (.ok (some ds2)),
          .DeleteDaemonSet names.MULTUS_NAMESPACE allowlistDsName err]) ∨
      ∃ res, (∀ ds2, res ≠ .ok (some ds2)) ∧
        rest = [.GetDaemonSet names.MULTUS_NAMESPACE allowlistDsName res]) := by
  rcases reconcile_bootstrap c request w with hb | ⟨t0, w1, hret, htr, hshape⟩
  · have := hb (.GetConfig key (.ok cm)) (by rw [h]; simp)
    cases this
  · have ht0 : Event.GetConfig key (.ok cm) ∉ t0 := by
      rcases hshape with ⟨cm0, rfl⟩ | ⟨res, manifests, -, rfl⟩
      · simp
      · simp
    rw [htr] at h
    rcases reconcileRequest_cases c request w1 with h0 | ⟨err, h0⟩ | ⟨cm1, w2, h0⟩
    · rw [h0, List.append_nil] at h
      exact absurd (by rw [h]; simp) ht0
    · rw [h0] at h
      have := (eq_of_append_cons_eq _ _ _ _ _ _ h ht0 (by simp)).2.1
      cases this
    · have htail : Event.GetConfig key (.ok cm) ∉
          (reconcileDaemonSet c w2).2.1 ++ (cleanup c (reconcileDaemonSet c w2).2.2).1 := by
        intro hmem
        rcases List.mem_append.mp hmem with hm | hm
        · have := reconcileDaemonSet_afterFetch c w2 _ hm
          cases this
        · have := cleanup_afterFetch c _ _ hm
          cases this
      have htrace : (reconcileRequest c request w1).trace =
          .GetConfig request.NamespacedName (.ok cm1) ::
            ((reconcileDaemonSet c w2).2.1 ++ (cleanup c (reconcileDaemonSet c w2).2.2).1) := by
        rw [h0]
      rw [htrace] at h
      obtain ⟨rfl, hhead, hrest⟩ := eq_of_append_cons_eq _ _ _ _ _ _ h ht0 htail
      rw [hhead, hrest] at htrace
      obtain ⟨hret1, hcleanup⟩ :=
        reconcileRequest_lookup_found c request w1 key cm ds rest htrace
      exact ⟨hret.trans hret1, hshape, hcleanup⟩

end retry

end allowlist

/-! # The claims on concrete runs -/

namespace examples

open operconfig

/-- A run of claim C1: the plugin changes from OpenShiftSDN to OVNKubernetes
without the migration annotation; the safety check fails, `Reconcile` returns
its error and nothing was applied. -/
theorem reconcile_unsafe_change_rejected_witness :
    Event.IsChangeSafe "OpenShiftSDN" "OVNKubernetes" (some unsafeChange) ∈
      (Reconcile unsafeCluster clusterRequest []).trace ∧
    (Reconcile unsafeCluster clusterRequest []).ret = some (Result.empty, some unsafeChange) ∧
    (Reconcile unsafeCluster clusterRequest []).world = [] :=
  ⟨by decide,
    (reconcile_unsafe_change_rejected unsafeCluster clusterRequest [] "OpenShiftSDN"
      "OVNKubernetes" unsafeChange (by decide)).1,
    by decide⟩

/-- A run of claim C2: the same change of plugin with the migration annotation
present; `IsChangeSafe` is not called and `Bootstrap` is. -/
theorem reconcile_safety_check_skipped_witness :
    (Event.MergeClusterConfig migrationConfig (.ok migrationConfig) ∈
        (Reconcile migrationCluster clusterRequest []).trace ∧
      Event.GetAppliedConfiguration "cluster" (.ok (some "OpenShiftSDN")) ∈
        (Reconcile migrationCluster clusterRequest []).trace ∧
      mapHasKey migrationConfig.Annotations names.NetworkMigrationAnnotation = true) ∧
    (∀ prev next r,
      Event.IsChangeSafe prev next r ∉ (Reconcile migrationCluster clusterRequest []).trace) ∧
    ∃ r, Event.Bootstrap "OVNKubernetes" r ∈ (Reconcile migrationCluster clusterRequest []).trace :=
  ⟨⟨by decide, by decide, by decide⟩,
    reconcile_safety_check_skipped migrationCluster clusterRequest [] migrationConfig
      migrationConfig "cluster" (some "OpenShiftSDN") (by decide) (by decide)
      (Or.inr (by decide))⟩

/-- A run of claim C6: the record is applied, the annotated monitor object
fails, and the daemonset after it is still applied; the loop returns no
error. -/
theorem applyLoop_ignored_failure_continues_witness :
    hasIgnoreObjectError monitorObject = true ∧
    (tolerantCluster.ApplyObject ["applied-cluster"]
      (monitorObject.withOwnerReferences [ownerRef "cluster"])).1 = some boom ∧
    (applyLoop tolerantCluster plainConfig ([recordObject] ++ monitorObject :: [multusDaemonSet])
      []).err = none ∧
    (applyLoop tolerantCluster plainConfig ([recordObject] ++ monitorObject :: [multusDaemonSet])
      []).world = ["applied-cluster", "multus"] := by
  have h := applyLoop_ignored_failure_continues tolerantCluster plainConfig [recordObject]
    [multusDaemonSet] monitorObject [] ["applied-cluster"] ["applied-cluster"]
    [.SetControllerReference plainConfig recordObject (.ok [ownerRef "cluster"]),
      .ApplyObject (recordObject.withOwnerReferences [ownerRef "cluster"]) none]
    [ownerRef "cluster"] boom rfl rfl rfl rfl
  rw [h]
  exact ⟨rfl, rfl, rfl, rfl⟩

/-- A run of claim C7: the daemonset, which has no annotation, cannot be
applied; `Reconcile` returns the wrapped error and nothing after the record was
applied. -/
theorem reconcile_unignored_apply_failure_aborts_witness :
    Event.ApplyObject (multusDaemonSet.withOwnerReferences [ownerRef "cluster"]) (some boom) ∈
      (Reconcile brokenCluster clusterRequest []).trace ∧
    hasIgnoreObjectError (multusDaemonSet.withOwnerReferences [ownerRef "cluster"]) = false ∧
    (Reconcile brokenCluster clusterRequest []).ret =
      some (Result.empty,
        some ⟨"could not apply (apps/v1, Kind=DaemonSet) openshift-multus/multus: boom",
          false⟩) ∧
    (Reconcile brokenCluster clusterRequest []).world = ["applied-cluster"] :=
  ⟨by decide, by decide,
    (reconcile_unignored_apply_failure_aborts brokenCluster clusterRequest []
      (multusDaemonSet.withOwnerReferences [ownerRef "cluster"]) boom (by decide)
      (by decide)).1.trans (by decide),
    by decide⟩

/-- A run of claim C8: nothing fails and the namespace controller hands
control back.  The record, the deployment, the monitor object and the daemonset
each get the owner reference of the configuration object and are applied with
it, in that order; the status object is applied last, as `ClusterNetworkStatus`
returned it, without an owner reference. -/
theorem reconcile_owner_reference_before_apply_witness :
    (∀ obj ∈ recordObject :: [admissionDeployment, monitorObject, multusDaemonSet],
      ∃ refs r,
        Event.SetControllerReference plainConfig obj (.ok refs) ∈
          (Reconcile workloadCluster clusterRequest []).trace ∧
        Event.ApplyObject (obj.withOwnerReferences refs) r ∈
          (Reconcile workloadCluster clusterRequest []).trace) ∧
    applyCalls (Reconcile workloadCluster clusterRequest []).trace =
      [recordObject.withOwnerReferences [ownerRef "cluster"],
        admissionDeployment.withOwnerReferences [ownerRef "cluster"],
        monitorObject.withOwnerReferences [ownerRef "cluster"],
        multusDaemonSet.withOwnerReferences [ownerRef "cluster"],
        statusObject] ∧
    Event.ApplyObjectStatus statusObject none ∈
      (Reconcile workloadCluster clusterRequest []).trace ∧
    statusObject.OwnerReferences = [] ∧
    (Reconcile workloadCluster clusterRequest []).world =
      ["applied-cluster", "multus-admission-controller", "monitor-multus", "multus",
        "cluster"] :=
  ⟨(reconcile_owner_reference_before_apply workloadCluster clusterRequest []).2.2.2.2
      "OVNKubernetes" [admissionDeployment, monitorObject, multusDaemonSet] plainConfig
      recordObject (.ok (some statusObject)) (by decide) (by decide) (by decide),
    by decide, by decide, by decide, by decide⟩

/-- A run of claim C9: the record, the monitor object and the daemonset are
handed to `apply.ApplyObject` in this order, the status object last. -/
theorem reconcile_apply_order_witness :
    (Event.Render "OVNKubernetes" (.ok [monitorObject, multusDaemonSet]) ∈
        (Reconcile tolerantCluster clusterRequest []).trace ∧
      Event.AppliedConfiguration plainConfig (.ok recordObject) ∈
        (Reconcile tolerantCluster clusterRequest []).trace ∧
      Event.ClusterNetworkStatus (.ok (some statusObject)) ∈
        (Reconcile tolerantCluster clusterRequest []).trace) ∧
    (∃ applied,
      applyCalls (Reconcile tolerantCluster clusterRequest []).trace =
        applied ++ computedStatus (.ok (some statusObject)) ∧
      List.Forall₂ (ownedVersionOf tolerantCluster plainConfig) applied
        [recordObject, monitorObject, multusDaemonSet]) ∧
    applyCalls (Reconcile tolerantCluster clusterRequest []).trace =
      [recordObject.withOwnerReferences [ownerRef "cluster"],
        monitorObject.withOwnerReferences [ownerRef "cluster"],
        multusDaemonSet.withOwnerReferences [ownerRef "cluster"], statusObject] :=
  ⟨⟨by decide, by decide, by decide⟩,
    reconcile_apply_order tolerantCluster clusterRequest [] "OVNKubernetes"
      [monitorObject, multusDaemonSet] plainConfig recordObject (.ok (some statusObject))
      (by decide) (by decide) (by decide),
    by decide⟩

/-- A run of claim C10: the only pod of the daemonset never gets ready, the
poll runs out of ticks, and `Reconcile` still returns a nil error. -/
theorem allowlist_readiness_failure_not_fatal_witness :
    allowlist.Event.CheckDsPodsReadyReturned (some allowlist.DeadlineExceeded) ∈
      (allowlist.Reconcile (allowlistClient [stuckPod] 2) allowlistRequest
        ⟨true, none, []⟩).trace ∧
    (allowlist.Reconcile (allowlistClient [stuckPod] 2) allowlistRequest
      ⟨true, none, []⟩).ret = (Result.empty, none) :=
  ⟨by decide,
    allowlist.allowlist_readiness_failure_not_fatal (allowlistClient [stuckPod] 2)
      allowlistRequest ⟨true, none, []⟩ allowlist.DeadlineExceeded (by decide)⟩

/-- A run of claim C11: of a stale pod that is not ready and a ready pod of
the current instance, only the second counts, and the tick reports done. -/
theorem tick_ready_iff_owned_pods_ready_witness :
    allowlist.ownedBy "uid-2" stalePod = false ∧ allowlist.firstContainerReady stalePod = false ∧
    (allowlist.checkDsPodsReadyTick (allowlistClient [stalePod, readyPod] 2)
      runningAllowlist).1 = (true, none) :=
  ⟨by decide, by decide,
    Prod.ext
      (((allowlist.tick_ready_iff_owned_pods_ready (allowlistClient [stalePod, readyPod] 2)
        runningAllowlist runningAllowlist runningAllowlist ⟨"cni-sysctl-allowlist-ds", "uid-2"⟩
        [stalePod, readyPod] rfl (by decide) rfl (by decide)).2.2.1).trans (by decide))
      (allowlist.tick_ready_iff_owned_pods_ready (allowlistClient [stalePod, readyPod] 2)
        runningAllowlist runningAllowlist runningAllowlist ⟨"cni-sysctl-allowlist-ds", "uid-2"⟩
        [stalePod, readyPod] rfl (by decide) rfl (by decide)).1⟩

/-- Claim C12 fails as stated: the lookup of the daemonset reports not-found,
and the tick does not report "not ready, no error"; the poll ends with the
error of the tick, not with the timeout. -/
theorem tick_absent_daemonset_counterexample :
    (allowlistClient [] 2).GetDaemonSet idleAllowlist names.MULTUS_NAMESPACE
      allowlist.allowlistDsName = (.error ⟨"not found", true⟩, idleAllowlist) ∧
    (allowlist.checkDsPodsReadyTick (allowlistClient [] 2) idleAllowlist).1 ≠ (false, none) ∧
    (allowlist.checkDsPodsReady (allowlistClient [] 2) idleAllowlist).1 ≠
      some allowlist.DeadlineExceeded ∧
    (allowlist.checkDsPodsReady (allowlistClient [] 2) idleAllowlist).1 =
      some (errorsNew "failed to get UID of daemon set") := by
  decide

/-- A run of claim C12 as the code has it: the daemonset is absent and the
poll stops at its first tick with the error of the tick. -/
theorem tick_fails_when_daemonset_absent_witness :
    IsNotFound ⟨"not found", true⟩ = true ∧
    allowlist.PollUntilContextTimeout (allowlist.checkDsPodsReadyTick (allowlistClient [] 2)) 2
        idleAllowlist =
      (some (errorsNew "failed to get UID of daemon set"),
        [.GetDaemonSet names.MULTUS_NAMESPACE allowlist.allowlistDsName
          (.error ⟨"not found", true⟩)], idleAllowlist) :=
  ⟨rfl,
    (allowlist.tick_fails_when_daemonset_absent (allowlistClient [] 2) idleAllowlist
      idleAllowlist ⟨"not found", true⟩ rfl rfl).2.2 1⟩

/-- Claim C13, at a failing input: the lookup of the allowlist configmap fails
because the API server cannot be reached, which is not a not-found.
`Reconcile` still renders and creates the baseline configmap, and returns a
nil error instead of the lookup error. -/
theorem reconcile_creates_after_failed_lookup :
    IsNotFound refused = false ∧
    (allowlist.Reconcile unreachableConfigClient baselineRequest ⟨false, none, []⟩).trace =
      [.GetConfigMap names.MULTUS_NAMESPACE names.ALLOWLIST_CONFIG_NAME (.error refused),
        .RenderDir allowlist.allowlistManifestDir (.ok [allowlistConfigMap]),
        .Create allowlistConfigMap none] ∧
    (allowlist.Reconcile unreachableConfigClient baselineRequest ⟨false, none, []⟩).ret =
      (Result.empty, none) := by
  decide

/-- Claim C15 fails as stated: the previous configuration is OpenShiftSDN, and
it is up-converted with itself as reference, not with nil.  The reference of
the second call is therefore not what filling against nil would give. -/
theorem reconcile_upconverts_against_itself_counterexample :
    Event.FillDefaults "OpenShiftSDN" (some "OpenShiftSDN") ∈
      (Reconcile defaultingCluster clusterRequest []).trace ∧
    Event.FillDefaults "OpenShiftSDN" none ∉
      (Reconcile defaultingCluster clusterRequest []).trace ∧
    Event.FillDefaults "OVNKubernetes" (some "OpenShiftSDN+from:OpenShiftSDN") ∈
      (Reconcile defaultingCluster clusterRequest []).trace ∧
    defaultingCluster.FillDefaults "OpenShiftSDN" none = "OpenShiftSDN+static" ∧
    Event.FillDefaults "OVNKubernetes" (some "OpenShiftSDN+static") ∉
      (Reconcile defaultingCluster clusterRequest []).trace := by
  decide

/-- A run of claim C15 as the code has it: the two `FillDefaults` calls of the
run, one right after the other. -/
theorem reconcile_fills_defaults_from_previous_witness :
    Event.GetAppliedConfiguration "cluster" (.ok (some "OpenShiftSDN")) ∈
      (Reconcile defaultingCluster clusterRequest []).trace ∧
    ∃ (t rest : List (Event String)) (merged : Network String),
      (Reconcile defaultingCluster clusterRequest []).trace =
        t ++ Event.FillDefaults "OpenShiftSDN" (some "OpenShiftSDN") ::
          Event.FillDefaults (defaultingCluster.Canonicalize merged.Spec)
            (some (defaultingCluster.FillDefaults "OpenShiftSDN" (some "OpenShiftSDN"))) ::
            rest ∧
      (∃ fetched, Event.MergeClusterConfig fetched (.ok merged) ∈ t) ∧
      (∀ conf previous, Event.FillDefaults conf previous ∈ t → False) ∧
      (∀ conf previous, Event.FillDefaults conf previous ∈ rest → False) :=
  ⟨by decide,
    reconcile_fills_defaults_from_previous defaultingCluster clusterRequest [] "cluster"
      "OpenShiftSDN" (by decide)⟩

/-- Claim C14, at two failing inputs: the API server cannot be reached when the
configuration object is fetched, and when the previously applied configuration
is retrieved.  In both runs `Reconcile` returns the error, and `SetDegraded` is
not among its calls. -/
theorem reconcile_read_failure_not_degraded :
    IsNotFound refused = false ∧
    (Reconcile unreachableCluster clusterRequest []).ret = some (Result.empty, some refused) ∧
    (Reconcile unreachableCluster clusterRequest []).trace =
      [.Get clusterRequest.NamespacedName (.error refused)] ∧
    (Reconcile unreadableRecordCluster clusterRequest []).ret =
      some (Result.empty, some refused) ∧
    (Reconcile unreadableRecordCluster clusterRequest []).trace =
      [.Get clusterRequest.NamespacedName (.ok plainConfig),
        .MergeClusterConfig plainConfig (.ok plainConfig),
        .Canonicalize "OVNKubernetes",
        .Validate "OVNKubernetes" none,
        .GetAppliedConfiguration "cluster" (.error refused)] := by
  decide

/-- A run of claim C16: the configuration object is gone; `Reconcile` reports
NoOperatorConfig and returns without an error. -/
theorem reconcile_config_not_found_witness :
    Event.Get clusterRequest.NamespacedName (.error ⟨"not found", true⟩) ∈
      (Reconcile deletedCluster clusterRequest []).trace ∧
    (Reconcile deletedCluster clusterRequest []).ret = some (Result.empty, none) ∧
    (Reconcile deletedCluster clusterRequest []).trace =
      [.Get clusterRequest.NamespacedName (.error ⟨"not found", true⟩),
        .SetDegraded .OperatorConfig "NoOperatorConfig"
          ("Operator configuration " ++ clusterRequest.NamespacedName.String ++
            " was deleted")] :=
  ⟨by decide,
    reconcile_config_not_found deletedCluster clusterRequest [] clusterRequest.NamespacedName
      ⟨"not found", true⟩ (by decide) rfl⟩

/-- Claim C17, at a failing input: the request names the operator
configuration and every collaborator succeeds, but the call
`r.namespaceController.Run(context.TODO(), 1)` of line 259 waits for a context
that never ends.  No call of the run returns an error, yet `Reconcile` never
returns: it neither marks the status not-degraded nor asks for a re-queue after
`ResyncPeriod`, and the call of line 259 is its last. -/
theorem reconcile_blocked_by_namespace_controller :
    (Reconcile blockedCluster clusterRequest []).trace =
      [.Get clusterRequest.NamespacedName (.ok plainConfig),
        .MergeClusterConfig plainConfig (.ok plainConfig),
        .Canonicalize "OVNKubernetes",
        .Validate "OVNKubernetes" none,
        .GetAppliedConfiguration "cluster" (.ok (some "OVNKubernetes")),
        .FillDefaults "OVNKubernetes" (some "OVNKubernetes"),
        .FillDefaults "OVNKubernetes" (some "OVNKubernetes"),
        .IsChangeSafe "OVNKubernetes" "OVNKubernetes" none,
        .Bootstrap "OVNKubernetes" none,
        .Render "OVNKubernetes" (.ok [monitorObject, multusDaemonSet]),
        .AppliedConfiguration plainConfig (.ok recordObject),
        .RunNamespaceController false] ∧
    (Reconcile blockedCluster clusterRequest []).ret = none ∧
    (Reconcile blockedCluster clusterRequest []).ret ≠ some (⟨false, ResyncPeriod⟩, none) ∧
    Event.SetNotDegraded .OperatorConfig ∉ (Reconcile blockedCluster clusterRequest []).trace ∧
    (Reconcile blockedCluster clusterRequest []).world = [] := by
  decide

/-- The same cluster with a namespace controller that hands control back: the
monitor object cannot be applied and is ignored; the run ends with
`SetNotDegraded` and re-queues after `ResyncPeriod`, as lines 344-348 are
written to do. -/
theorem reconcile_success_requeues_witness :
    clusterRequest.NamespacedName.Name = names.OPERATOR_CONFIG ∧
    (∀ e ∈ (Reconcile tolerantCluster clusterRequest []).trace, e.failed = false) ∧
    Event.ApplyObject (monitorObject.withOwnerReferences [ownerRef "cluster"]) (some boom) ∈
      (Reconcile tolerantCluster clusterRequest []).trace ∧
    (Reconcile tolerantCluster clusterRequest []).ret = some (⟨false, ResyncPeriod⟩, none) ∧
    (∃ t, (Reconcile tolerantCluster clusterRequest []).trace =
      t ++ [.SetNotDegraded .OperatorConfig]) ∧
    ResyncPeriod = 5 * 60 * 1000000000 :=
  ⟨by decide, by decide, by decide,
    reconcile_success_requeues tolerantCluster clusterRequest [] (by decide) (by decide)⟩

/-- A run of claim C18: of the record, a deployment, the monitor object and a
daemonset, the daemonset list is the one daemonset, the deployment list the one
deployment, and the pod reconciler gets the daemonset followed by the
deployment. -/
theorem reconcile_classifies_workloads_witness :
    Event.SetDaemonSets [⟨"openshift-multus", "multus"⟩] ∈
      (Reconcile workloadCluster clusterRequest []).trace ∧
    Event.SetDeployments [⟨"openshift-multus", "multus-admission-controller"⟩] ∈
      (Reconcile workloadCluster clusterRequest []).trace ∧
    Event.SetResources [⟨"openshift-multus", "multus"⟩,
        ⟨"openshift-multus", "multus-admission-controller"⟩] ∈
      (Reconcile workloadCluster clusterRequest []).trace :=
  have h := reconcile_classifies_workloads workloadCluster clusterRequest [] "OVNKubernetes"
    [admissionDeployment, monitorObject, multusDaemonSet] plainConfig recordObject
    (by decide) (by decide) (by decide)
  ⟨(h.1 _).2 (by decide), (h.2.1 _).2 (by decide), (h.2.2.1 _).2 (by decide)⟩

/-- Claim C19 fails on the namespace foo-bar, deleted ten seconds ago: fifty
seconds of the grace window remain, and `sync` re-queues the namespace for a
full minute, after having written it back. -/
theorem sync_requeue_delay_counterexample :
    (1000 * Second + 1 * Minute - 1010 * Second : Int) = 50 * Second ∧
    SyncEvent.AddAfter "foo-bar" (1 * Minute) ∈ (sync storeClient "foo-bar" graceCluster).trace ∧
    SyncEvent.AddAfter "foo-bar" (50 * Second) ∉ (sync storeClient "foo-bar" graceCluster).trace ∧
    SyncEvent.Update ⟨"foo-bar", some [], some (1000 * Second)⟩
        (.ok ⟨"foo-bar", some [], some (1000 * Second)⟩) ∈
      (sync storeClient "foo-bar" graceCluster).trace := by
  decide

/-- A run of claim C19 as the code has it, on the namespace foo-bar deleted ten
seconds ago. -/
theorem sync_requeues_for_one_minute_witness :
    (sync storeClient "foo-bar" graceCluster).err = none ∧
    ∃ ns, (sync storeClient "foo-bar" graceCluster).trace =
      [.Get "foo-bar" (.ok ns),
        .Update ⟨"foo-bar", some [], some (1000 * Second)⟩
          (.ok ⟨"foo-bar", some [], some (1000 * Second)⟩),
        .Now (1010 * Second), .AddAfter "foo-bar" (1 * Minute)] :=
  sync_requeues_for_one_minute storeClient "foo-bar" graceCluster
    ⟨"foo-bar", some [], some (1000 * Second)⟩ ⟨"foo-bar", some [], some (1000 * Second)⟩
    (1000 * Second) (1010 * Second) (by decide) rfl (by decide) (by decide)

/-- A run of claim C22: the one listed pod belongs to an earlier instance of
the daemonset and is not ready, and the tick reports done. -/
theorem tick_ready_over_stale_pods_witness :
    allowlist.firstContainerReady stalePod = false ∧
    allowlist.checkDsPodsReadyTick (allowlistClient [stalePod] 2) runningAllowlist =
      ((true, none),
        [.GetDaemonSet names.MULTUS_NAMESPACE allowlist.allowlistDsName
            (.ok (some ⟨"cni-sysctl-allowlist-ds", "uid-2"⟩)),
          .ListPods names.MULTUS_NAMESPACE allowlist.allowlistAnnotation (.ok [stalePod])],
        runningAllowlist) :=
  ⟨by decide,
    (allowlist.tick_ready_over_stale_pods (allowlistClient [stalePod] 2) runningAllowlist
      runningAllowlist runningAllowlist ⟨"cni-sysctl-allowlist-ds", "uid-2"⟩ [stalePod] rfl
      (by decide) rfl (by decide)
      (fun pod hp => by
        rw [List.mem_singleton] at hp
        subst hp
        exact Or.inr ⟨_, _, rfl, by decide⟩)).1⟩

/-- A run of claim C23: `SetControllerReference` fails on the monitor object,
which carries the ignore-errors annotation.  `Reconcile` returns the wrapped
error; the record and the daemonset, which stand before the monitor object,
are the only objects applied, and the deployment after it is not. -/
theorem reconcile_reference_failure_aborts_witness :
    hasIgnoreObjectError monitorObject = true ∧
    applyCalls (Reconcile unownableCluster clusterRequest []).trace =
      [recordObject.withOwnerReferences [ownerRef "cluster"],
        multusDaemonSet.withOwnerReferences [ownerRef "cluster"]] ∧
    (Reconcile unownableCluster clusterRequest []).world = ["applied-cluster", "multus"] ∧
    (Reconcile unownableCluster clusterRequest []).ret =
      some (Result.empty,
        some ⟨"could not set reference for (monitoring.coreos.com/v1, Kind=ServiceMonitor) " ++
          "openshift-multus/monitor-multus: no kind is registered for the type", false⟩) ∧
    ∃ t, (Reconcile unownableCluster clusterRequest []).trace = t ++
      [.SetControllerReference plainConfig monitorObject (.error unregistered),
        .SetDegraded .OperatorConfig "InternalError"
          ("Internal error while updating operator configuration: " ++
            (Wrapf unregistered
              ("could not set reference for " ++ monitorObject.describe)).Error)] :=
  have h := reconcile_reference_failure_aborts unownableCluster clusterRequest [] plainConfig
    monitorObject unregistered (by decide)
  ⟨by decide, by decide, by decide, h.1.trans (by decide), h.2.2.1⟩

/-- Claim C21 fails as stated, at two inputs.  In the first the allowlist
configmap is gone and a daemonset is left over: `Reconcile` creates the
configmap from the baseline manifest, then fetches it, finds the daemonset and
returns "retrying", so an object was created.  In the second the lookup of
`cleanup` cannot reach the API server: `Reconcile` returns "retrying" and no
delete is issued. -/
theorem reconcile_existing_daemonset_counterexample :
    (allowlist.Reconcile storeAllowlistClient allowlistRequest leftoverAllowlist).trace =
      [.GetConfigMap names.MULTUS_NAMESPACE names.ALLOWLIST_CONFIG_NAME
          (.error ⟨"not found", true⟩),
        .RenderDir allowlist.allowlistManifestDir (.ok [sysctlConfigMap]),
        .Create sysctlConfigMap none,
        .GetConfig allowlistRequest.NamespacedName
          (.ok ⟨"openshift-multus", "cni-sysctl-allowlist"⟩),
        .GetDaemonSet names.MULTUS_NAMESPACE allowlist.allowlistDsName
          (.ok (some ⟨"cni-sysctl-allowlist-ds", "uid-1"⟩)),
        .GetDaemonSet names.MULTUS_NAMESPACE allowlist.allowlistDsName
          (.ok (some ⟨"cni-sysctl-allowlist-ds", "uid-1"⟩)),
        .DeleteDaemonSet names.MULTUS_NAMESPACE allowlist.allowlistDsName none] ∧
    (allowlist.Reconcile storeAllowlistClient allowlistRequest leftoverAllowlist).world.created =
      ["cni-sysctl-allowlist"] ∧
    (allowlist.Reconcile storeAllowlistClient allowlistRequest leftoverAllowlist).ret =
      (Result.empty, some (errorsNew "retrying")) ∧
    (allowlist.Reconcile flakyLookupClient allowlistRequest 0).trace =
      [.GetConfigMap names.MULTUS_NAMESPACE names.ALLOWLIST_CONFIG_NAME
          (.ok (some ⟨"openshift-multus", "cni-sysctl-allowlist"⟩)),
        .GetConfig allowlistRequest.NamespacedName
          (.ok ⟨"openshift-multus", "cni-sysctl-allowlist"⟩),
        .GetDaemonSet names.MULTUS_NAMESPACE allowlist.allowlistDsName
          (.ok (some ⟨"cni-sysctl-allowlist-ds", "uid-1"⟩)),
        .GetDaemonSet names.MULTUS_NAMESPACE allowlist.allowlistDsName (.error refused)] ∧
    (allowlist.Reconcile flakyLookupClient allowlistRequest 0).ret =
      (Result.empty, some (errorsNew "retrying")) := by
  decide

/-- Two runs of claim C21 as the code has it.  In the first the configmap is
gone and a daemonset is left over: after the bootstrap has created the
configmap, the lookup finds the daemonset, and `cleanup` finds it again and
deletes it.  In the second the lookup of `cleanup` cannot reach the API server,
and no delete follows.  Both return "retrying". -/
theorem reconcile_existing_daemonset_retries_witness :
    ((allowlist.Reconcile storeAllowlistClient allowlistRequest leftoverAllowlist).ret =
        (Result.empty, some (errorsNew "retrying")) ∧
      (allowlist.Reconcile storeAllowlistClient allowlistRequest leftoverAllowlist).world =
        ⟨true, none, ["cni-sysctl-allowlist"]⟩) ∧
    (allowlist.Reconcile flakyLookupClient allowlistRequest 0).ret =
      (Result.empty, some (errorsNew "retrying")) ∧
    (allowlist.Reconcile flakyLookupClient allowlistRequest 0).trace =
      [.GetConfigMap names.MULTUS_NAMESPACE names.ALLOWLIST_CONFIG_NAME
          (.ok (some ⟨"openshift-multus", "cni-sysctl-allowlist"⟩)),
        .GetConfig allowlistRequest.NamespacedName
          (.ok ⟨"openshift-multus", "cni-sysctl-allowlist"⟩),
        .GetDaemonSet names.MULTUS_NAMESPACE allowlist.allowlistDsName
          (.ok (some ⟨"cni-sysctl-allowlist-ds", "uid-1"⟩)),
        .GetDaemonSet names.MULTUS_NAMESPACE allowlist.allowlistDsName (.error refused)] :=
  ⟨⟨(allowlist.reconcile_existing_daemonset_retries storeAllowlistClient allowlistRequest
        leftoverAllowlist allowlistRequest.NamespacedName
        ⟨"openshift-multus", "cni-sysctl-allowlist"⟩ ⟨"cni-sysctl-allowlist-ds", "uid-1"⟩
        [.GetConfigMap names.MULTUS_NAMESPACE names.ALLOWLIST_CONFIG_NAME
            (.error ⟨"not found", true⟩),
          .RenderDir allowlist.allowlistManifestDir (.ok [sysctlConfigMap]),
          .Create sysctlConfigMap none]
        [.GetDaemonSet names.MULTUS_NAMESPACE allowlist.allowlistDsName
            (.ok (some ⟨"cni-sysctl-allowlist-ds", "uid-1"⟩)),
          .DeleteDaemonSet names.MULTUS_NAMESPACE allowlist.allowlistDsName none]
        (by decide)).1,
      by decide⟩,
    (allowlist.reconcile_existing_daemonset_retries flakyLookupClient allowlistRequest 0
      allowlistRequest.NamespacedName ⟨"openshift-multus", "cni-sysctl-allowlist"⟩
      ⟨"cni-sysctl-allowlist-ds", "uid-1"⟩
      [.GetConfigMap names.MULTUS_NAMESPACE names.ALLOWLIST_CONFIG_NAME
        (.ok (some ⟨"openshift-multus", "cni-sysctl-allowlist"⟩))]
      [.GetDaemonSet names.MULTUS_NAMESPACE allowlist.allowlistDsName (.error refused)]
      (by decide)).1,
    by decide⟩

end examples
